import Mathlib

/-!
# AppMgrCore: a shallow embedding of the application-manager dispatcher

The development embeds `src/components/AppMgr/src/AppMgrCore.cpp`:
`AppMgrCore::handleMobileRPCMessage`, `AppMgrCore::handleBusRPCMessageIncoming`,
`AppMgrCore::registerApplication`, `AppMgrCore::unregisterApplication` and
`AppMgrCore::removeAppFromHmi`.

Conventions of the embedding.

* The process-wide singletons (`AppMgrCore`, `AppMgrRegistry`, `MobileHandler`,
  `HMIHandler`, the JSON-RPC id allocator, the file system) are the fields of one
  record `World`; a handler is a function `World → ... → Option World`.
* Everything a handler hands to `MobileHandler::sendRPCMessage`,
  `HMIHandler::sendRequest/sendResponse/sendNotification` is appended, in program
  order, to `World.sent`.
* `none` is returned where the C++ dereferences a pointer that holds no object
  (undefined behaviour); a `return`/`break` after a log line returns the world as is.
* Session keys are `Int` (`int` in the source); ids and ordinals are `Nat`.
  Fields that only steer serialisation (message type, method id, correlation id of an
  outgoing object) are not part of the outgoing records.
* Classes whose implementation is outside `AppMgrCore.cpp` (registry, mappings,
  `Application`) are modelled from the specification; each such definition says so.
-/

namespace NsAppManager

/-! ## Enumerations and payload records -/

/-- `NsAppLinkRPC::HMILevel`. -/
inductive HMILevel where
  | HMI_FULL | HMI_LIMITED | HMI_BACKGROUND | HMI_NONE
  deriving DecidableEq, Repr

/-- `NsAppLinkRPC::AudioStreamingState`. -/
inductive AudioStreamingState where
  | AUDIBLE | NOT_AUDIBLE | ATTENUATED
  deriving DecidableEq, Repr

/-- `NsAppLinkRPC::SystemContext`. -/
inductive SystemContext where
  | SYSCTXT_MAIN | SYSCTXT_VRSESSION | SYSCTXT_MENU | SYSCTXT_HMI_OBSCURED | SYSCTXT_ALERT
  deriving DecidableEq, Repr

/-- `NsAppLinkRPC::Result` / `NsAppLinkRPCV2::Result`: the two enumerations are cast into
each other by ordinal, so one type serves both; `other n` is any code the dispatcher
never names. -/
inductive Result where
  | SUCCESS | INVALID_DATA | APPLICATION_NOT_REGISTERED | APPLICATION_REGISTERED_ALREADY
  | REJECTED | GENERIC_ERROR | UNSUPPORTED_RESOURCE
  | other (code : Nat)
  deriving DecidableEq, Repr

/-- The class of a registered application: `Application_v1` or `Application_v2`;
`getProtocolVersion()` is 1 or 2 accordingly. -/
inductive ProtocolVersion where
  | V1 | V2
  deriving DecidableEq, Repr

/-- `CommandType` as used by the dispatcher: `UI`, `VR`, or a type it does not know. -/
inductive CommandType where
  | UI | VR | UNDEFINED
  deriving DecidableEq, Repr

/-- `AppInterfaceUnregisteredReason`. -/
inductive AppInterfaceUnregisteredReason where
  | USER_EXIT | other (code : Nat)
  deriving DecidableEq, Repr

/-- `TriggerSource`. -/
inductive TriggerSource where
  | TS_MENU | TS_VR
  deriving DecidableEq, Repr

/-- `TTSChunk`: text and the ordinal of its speech capability. -/
structure TTSChunk where
  text : String
  type : Nat
  deriving DecidableEq, Repr

/-- `MenuParams` (the v1 and v2 records have the same fields). -/
structure MenuParams where
  menuName : String
  parentID : Option Nat
  position : Option Nat
  deriving DecidableEq, Repr

/-- `Choice` of an interaction choice set. -/
structure Choice where
  choiceID : Nat
  menuName : String
  vrCommands : List String
  deriving DecidableEq, Repr

/-- `ChoiceSetV1` / `ChoiceSetV2`. -/
abbrev ChoiceSet := List Choice

/-- Modelled from the spec: `CommandParams`, the value type of `commands`, is declared
outside `AppMgrCore.cpp`. The source assigns and reads its three pointer members
`menuParams`, `menuParamsV2` and `vrCommands`; a member that was never assigned is
`none`. -/
structure CommandParams where
  menuParams : Option MenuParams := none
  menuParamsV2 : Option MenuParams := none
  vrCommands : Option (List String) := none
  deriving DecidableEq, Repr

/-- `ButtonCapabilities`. -/
structure ButtonCapabilities where
  name : Nat
  shortPressAvailable : Bool
  longPressAvailable : Bool
  upDownAvailable : Bool
  deriving DecidableEq, Repr

/-- `StartTime` of `SetMediaClockTimer`. -/
structure StartTime where
  hours : Nat
  minutes : Nat
  seconds : Nat
  deriving DecidableEq, Repr

/-! ## Mobile requests -/

/-- `RegisterAppInterface_request`, v1 and v2 fields together. -/
structure RegisterAppInterface_request where
  appName : String
  isMediaApplication : Bool
  languageDesired : Nat
  syncMsgVersion : Nat × Nat
  ngnMediaScreenAppName : Option String := none
  vrSynonyms : Option (List String) := none
  usesVehicleData : Option Bool := none
  appType : Option (List Nat) := none
  hmiDisplayLanguageDesired : Nat := 0
  ttsName : Option (List TTSChunk) := none
  deriving DecidableEq, Repr

/-- `Show_request`, v1 and v2 fields together. -/
structure Show_request where
  mainField1 : Option String := none
  mainField2 : Option String := none
  mainField3 : Option String := none
  mainField4 : Option String := none
  mediaClock : Option String := none
  mediaTrack : Option String := none
  statusBar : Option String := none
  alignment : Option Nat := none
  graphic : Option String := none
  softButtons : Option (List Nat) := none
  customPresets : Option (List String) := none
  deriving DecidableEq, Repr

/-- `SetGlobalProperties_request`. -/
structure SetGlobalProperties_request where
  helpPrompt : Option (List TTSChunk) := none
  timeoutPrompt : Option (List TTSChunk) := none
  vrHelp : Option (List String) := none
  vrHelpTitle : Option String := none
  deriving DecidableEq, Repr

/-- `Alert_request`. -/
structure Alert_request where
  alertText1 : Option String := none
  alertText2 : Option String := none
  alertText3 : Option String := none
  duration : Option Nat := none
  playTone : Option Bool := none
  softButtons : Option (List Nat) := none
  deriving DecidableEq, Repr

/-- `AddCommand_request`. -/
structure AddCommand_request where
  cmdID : Nat
  menuParams : Option MenuParams := none
  vrCommands : Option (List String) := none
  cmdIcon : Option String := none
  deriving DecidableEq, Repr

/-- `AddSubMenu_request`. -/
structure AddSubMenu_request where
  menuID : Nat
  menuName : String
  position : Option Nat := none
  deriving DecidableEq, Repr

/-- `CreateInteractionChoiceSet_request`. -/
structure CreateInteractionChoiceSet_request where
  interactionChoiceSetID : Nat
  choiceSet : ChoiceSet
  deriving DecidableEq, Repr

/-- `PerformInteraction_request`. -/
structure PerformInteraction_request where
  initialText : String
  initialPrompt : List TTSChunk
  interactionMode : Nat
  interactionChoiceSetIDList : List Nat
  helpPrompt : Option (List TTSChunk) := none
  timeoutPrompt : Option (List TTSChunk) := none
  timeout : Option Nat := none
  vrHelp : Option (List String) := none
  deriving DecidableEq, Repr

/-- `SetMediaClockTimer_request`. -/
structure SetMediaClockTimer_request where
  startTime : Option StartTime := none
  updateMode : Nat
  deriving DecidableEq, Repr

/-- `PutFile_request`. -/
structure PutFile_request where
  syncFileName : String
  fileType : Nat
  persistentFile : Bool
  binaryData : Option (List Nat)
  deriving DecidableEq, Repr

/-- `Slider_request`. -/
structure Slider_request where
  numTicks : Nat
  position : Nat
  sliderHeader : String
  sliderFooter : Option (List String) := none
  timeout : Nat
  deriving DecidableEq, Repr

/-- `ScrollableMessage_request`. -/
structure ScrollableMessage_request where
  scrollableMessageBody : String
  timeout : Option Nat := none
  softButtons : Option (List Nat) := none
  deriving DecidableEq, Repr

/-- The objects of namespace `NsAppLinkRPC` (protocol v1), tagged by the method id of
their class. `relayed` stands for the response and notification ids that the v1 switch
forwards unchanged; `other` for `METHOD_INVALID` and every id without a case. -/
inductive V1Object where
  | RegisterAppInterface_request (o : RegisterAppInterface_request)
  | UnregisterAppInterface_request
  | SubscribeButton_request (buttonName : Nat)
  | UnsubscribeButton_request (buttonName : Nat)
  | Show_request (o : Show_request)
  | Speak_request (ttsChunks : List TTSChunk)
  | SetGlobalProperties_request (o : SetGlobalProperties_request)
  | ResetGlobalProperties_request (properties : List Nat)
  | Alert_request (o : Alert_request)
  | AddCommand_request (o : AddCommand_request)
  | DeleteCommand_request (cmdID : Nat)
  | AddSubMenu_request (o : AddSubMenu_request)
  | DeleteSubMenu_request (menuID : Nat)
  | CreateInteractionChoiceSet_request (o : CreateInteractionChoiceSet_request)
  | DeleteInteractionChoiceSet_request (interactionChoiceSetID : Nat)
  | PerformInteraction_request (o : PerformInteraction_request)
  | SetMediaClockTimer_request (o : SetMediaClockTimer_request)
  | EncodedSyncPData_request (data : Option (List String))
  | relayed (methodId : Nat)
  | other (methodId : Nat)
  deriving DecidableEq, Repr

/-- The objects of namespace `NsAppLinkRPCV2` (protocol v2), tagged by `FunctionID`;
`other` is `INVALID_ENUM` and every id without a case. The `PerformInteractionID` case
has no `break` and runs on into the `AlertID` case, which reads the same object through
`Alert_request*`: `alert` is what that reading yields. -/
inductive V2Object where
  | RegisterAppInterface_request (o : RegisterAppInterface_request)
  | UnregisterAppInterface_request
  | SubscribeButton_request (buttonName : Nat)
  | UnsubscribeButton_request (buttonName : Nat)
  | SetMediaClockTimer_request (o : SetMediaClockTimer_request)
  | PutFile_request (o : PutFile_request)
  | DeleteFile_request (syncFileName : String)
  | ListFiles_request
  | Slider_request (o : Slider_request)
  | SetAppIcon_request (syncFileName : String)
  | ScrollableMessage_request (o : ScrollableMessage_request)
  | EncodedSyncPData_request (data : List String)
  | SetGlobalProperties_request (o : SetGlobalProperties_request)
  | ResetGlobalProperties_request (properties : List Nat)
  | CreateInteractionChoiceSet_request (o : CreateInteractionChoiceSet_request)
  | DeleteInteractionChoiceSet_request (interactionChoiceSetID : Nat)
  | PerformInteraction_request (o : PerformInteraction_request) (alert : Alert_request)
  | Alert_request (o : Alert_request)
  | Show_request (o : Show_request)
  | Speak_request (ttsChunks : List TTSChunk)
  | AddCommand_request (o : AddCommand_request)
  | DeleteCommand_request (cmdID : Nat)
  | AddSubMenu_request (o : AddSubMenu_request)
  | DeleteSubMenu_request (menuID : Nat)
  | other (methodId : Nat)
  deriving DecidableEq, Repr

/-- `NsAppLinkRPC::ALRPCMessage`: a v1 object, a v2 object, or an object whose
`getProtocolVersion()` is the given number and whose method id has no case. -/
inductive ALRPCMessage where
  | v1 (o : V1Object)
  | v2 (o : V2Object)
  | unsupported (protocolVersion : Nat)
  deriving DecidableEq, Repr

/-- `ALRPCMessage::getProtocolVersion`. -/
def ALRPCMessage.getProtocolVersion : ALRPCMessage → Nat
  | .v1 _ => 1
  | .v2 _ => 2
  | .unsupported n => n

/-! ## Outgoing messages -/

/-- The capability snapshot kept by the core (`mButtonCapabilitiesV1`, ...). The V2 members
are ordinal-for-ordinal copies of the V1 members, so each pair is one field. -/
structure CapabilityCache where
  buttonCapabilities : List ButtonCapabilities := []
  presetBankCapabilities : Option Nat := none
  displayCapabilities : List Nat := []
  hmiZoneCapabilities : List Nat := []
  softButtonCapabilities : List Nat := []
  speechCapabilities : List Nat := []
  vrCapabilities : List Nat := []
  uiLanguage : Nat := 0
  vrLanguage : Nat := 0
  ttsLanguage : Nat := 0
  vehicleType : Nat := 0
  deriving DecidableEq, Repr

/-- The name of a mobile response class (`Show_response`, ...). -/
inductive ResponseName where
  | RegisterAppInterface | UnregisterAppInterface | SubscribeButton | UnsubscribeButton
  | Show | Speak | SetGlobalProperties | ResetGlobalProperties | Alert
  | AddCommand | DeleteCommand | AddSubMenu | DeleteSubMenu
  | CreateInteractionChoiceSet | DeleteInteractionChoiceSet | PerformInteraction
  | SetMediaClockTimer | EncodedSyncPData | PutFile | DeleteFile | ListFiles
  | Slider | SetAppIcon | ScrollableMessage | GenericResponse
  deriving DecidableEq, Repr

/-- The fields of a mobile response besides `success` and `resultCode`. -/
inductive ResponseExtra where
  | empty
  | registered (caps : CapabilityCache) (syncMsgVersion : Nat × Nat)
  | tryAgainTime (t : Option Nat)
  | spaceAvailable (bytes : Nat)
  | filenames (names : List String) (bytes : Nat)
  | sliderPosition (p : Nat)
  | interaction (choiceID : Option Nat) (triggerSource : Option Nat)
  deriving DecidableEq, Repr

/-- A message handed to `MobileHandler::sendRPCMessage`. -/
inductive MobileMessage where
  | response (version : ProtocolVersion) (name : ResponseName) (success : Bool)
      (resultCode : Result) (extra : ResponseExtra)
  | OnHMIStatus (version : ProtocolVersion) (hmiLevel : HMILevel)
      (audioStreamingState : AudioStreamingState) (systemContext : SystemContext)
  | OnAppInterfaceUnregistered (version : ProtocolVersion)
      (reason : AppInterfaceUnregisteredReason)
  | OnButtonEvent (version : ProtocolVersion) (buttonName mode : Nat)
      (customButtonID : Option Nat)
  | OnButtonPress (version : ProtocolVersion) (buttonName mode : Nat)
      (customButtonID : Option Nat)
  | OnCommand (version : ProtocolVersion) (cmdID : Nat) (triggerSource : TriggerSource)
  | OnDriverDistraction (version : ProtocolVersion) (state : Nat)
  | OnEncodedSyncPData (version : ProtocolVersion) (data : List String)
  | relayed (msg : ALRPCMessage)
  deriving DecidableEq, Repr

/-- The payload of an `NsRPC2Communication` request (everything but the JSON-RPC id). -/
inductive RequestBody where
  | UI_Show (appId : Int) (o : Show_request)
  | TTS_Speak (appId : Int) (ttsChunks : List TTSChunk)
  | UI_SetGlobalProperties (appId : Int) (o : SetGlobalProperties_request)
  | UI_ResetGlobalProperties (appId : Int) (properties : List Nat)
  | UI_Alert (appId : Int) (o : Alert_request)
  | UI_AddCommand (appId : Int) (cmdId : Nat) (menuParams : MenuParams)
      (cmdIcon : Option String)
  | VR_AddCommand (appId : Int) (cmdId : Nat) (vrCommands : List String)
  | UI_DeleteCommand (appId : Int) (cmdId : Nat)
  | VR_DeleteCommand (appId : Int) (cmdId : Nat)
  | UI_AddSubMenu (appId : Int) (menuId : Nat) (menuName : String) (position : Option Nat)
  | UI_DeleteSubMenu (appId : Int) (menuId : Nat)
  | UI_CreateInteractionChoiceSet (appId : Int) (interactionChoiceSetID : Nat)
      (choiceSet : ChoiceSet)
  | UI_DeleteInteractionChoiceSet (appId : Int) (interactionChoiceSetID : Nat)
  | UI_PerformInteraction (appId : Int) (o : PerformInteraction_request)
  | UI_SetMediaClockTimer (appId : Int) (o : SetMediaClockTimer_request)
  | UI_Slider (appId : Int) (o : Slider_request)
  | UI_SetAppIcon (appId : Int) (syncFileName : String)
  | UI_ScrollableMessage (appId : Int) (o : ScrollableMessage_request)
  | UI_GetCapabilities | VR_GetCapabilities | TTS_GetCapabilities | Buttons_GetCapabilities
  | VehicleInfo_GetVehicleType | UI_GetLanguage | VR_GetLanguage | TTS_GetLanguage
  deriving DecidableEq, Repr

/-- `NsRPC2Communication::RPC2Request`: the id set by `setId` and the payload. -/
structure RPC2Request where
  id : Nat
  body : RequestBody
  deriving DecidableEq, Repr

/-- `HMIApplication` of `GetAppListResponse`. -/
structure HMIApplication where
  appName : String
  ngnMediaScreenAppName : Option String
  appId : Int
  isMediaApplication : Bool
  deriving DecidableEq, Repr

/-- A response handed to `HMIHandler::sendResponse`. -/
inductive RPC2Response where
  | ActivateAppResponse (id : Nat) (result : Result)
  | SendDataResponse (id : Nat) (result : Result)
  | GetAppListResponse (id : Nat) (result : Result) (appList : List HMIApplication)
  | GetDeviceListResponse (id : Nat) (result : Result) (deviceList : List String)
  deriving DecidableEq, Repr

/-- A notification handed to `HMIHandler::sendNotification`. -/
inductive RPC2Notification where
  | OnAppRegistered (appName : String) (appId : Int) (isMediaApplication : Bool)
      (languageDesired : Nat) (vrSynonym : List String) (deviceName : String)
      (versionNumber : Nat) (appType : List Nat) (hmiDisplayLanguageDesired : Option Nat)
      (ttsName : List TTSChunk)
  | OnAppUnregistered (appName : String) (appId : Int)
      (reason : AppInterfaceUnregisteredReason)
  | OnDeviceListUpdated (deviceList : List String)
  deriving DecidableEq, Repr

/-- One effect of a handler on the outside, in program order. -/
inductive Out where
  | mobile (sessionKey : Int) (msg : MobileMessage)
  | request (r : RPC2Request)
  | response (r : RPC2Response)
  | notify (n : RPC2Notification)
  | connectToDevice (handle : Nat)
  | startDevicesDiscovery
  | startSendPData (url : String) (timeout : Int) (pdata : List String)
  deriving DecidableEq, Repr

/-! ## Association tables

`std::map` is embedded as a list of key/value pairs holding each key at most once. -/

/-- `map::find`: the value stored under `k`, if any. -/
def Table.find {κ ν : Type} [DecidableEq κ] (k : κ) : List (κ × ν) → Option ν
  | [] => none
  | (k1, v) :: m => if k1 = k then some v else Table.find k m

/-- `map[k] = v`: replace the value under `k`, or add the pair. -/
def Table.insert {κ ν : Type} [DecidableEq κ] (k : κ) (v : ν) : List (κ × ν) → List (κ × ν)
  | [] => [(k, v)]
  | (k1, v1) :: m => if k1 = k then (k, v) :: m else (k1, v1) :: Table.insert k v m

/-- `map::erase(k)`. -/
def Table.erase {κ ν : Type} [DecidableEq κ] (k : κ) (m : List (κ × ν)) : List (κ × ν) :=
  m.filter (fun e => decide (e.1 ≠ k))

/-- Remove every pair whose value is `v` (the sweep of a mapping for one registry item). -/
def Table.eraseValue {κ ν : Type} [DecidableEq ν] (v : ν) (m : List (κ × ν)) : List (κ × ν) :=
  m.filter (fun e => decide (e.2 ≠ v))

/-! ## Application -/

/-- Modelled from the spec: the class `Application` (with `Application_v1`,
`Application_v2`) is declared outside `AppMgrCore.cpp`. The record follows the AppState of
the data model; `unresponded` is `unresponded_by_cmd`, `menuCommands` holds the pairs
(menu id, command id) of `menu_commands`. -/
structure Application where
  mName : String
  mAppID : Int
  protocolVersion : ProtocolVersion
  isMediaApplication : Bool := false
  hmiStatusLevel : HMILevel := HMILevel.HMI_NONE
  audioStreamingState : AudioStreamingState := AudioStreamingState.NOT_AUDIBLE
  systemContext : SystemContext := SystemContext.SYSCTXT_MAIN
  ngnMediaScreenAppName : Option String := none
  vrSynonyms : List String := []
  usesVehicleData : Bool := false
  languageDesired : Nat := 0
  hmiDisplayLanguageDesired : Nat := 0
  syncMsgVersion : Nat × Nat := (0, 0)
  appType : List Nat := []
  ttsName : List TTSChunk := []
  menus : List (Nat × (String × Option Nat)) := []
  menuCommands : List (Nat × Nat) := []
  commands : List ((Nat × CommandType) × CommandParams) := []
  unresponded : List (Nat × Nat) := []
  choiceSets : List (Nat × ChoiceSet) := []
  deriving DecidableEq, Repr

/-- Modelled from the spec: `Application::addMenu` stores `menu_id → (name, position?)`. -/
def Application.addMenu (app : Application) (menuId : Nat) (menuName : String)
    (position : Option Nat) : Application :=
  { app with menus := Table.insert menuId (menuName, position) app.menus }

/-- Modelled from the spec: `Application::removeMenu`. -/
def Application.removeMenu (app : Application) (menuId : Nat) : Application :=
  { app with menus := Table.erase menuId app.menus }

/-- Modelled from the spec: `Application::findMenu`, null when the menu id is absent. -/
def Application.findMenu (app : Application) (menuId : Nat) : Option (String × Option Nat) :=
  Table.find menuId app.menus

/-- Modelled from the spec: `Application::getAllMenus`. -/
def Application.getAllMenus (app : Application) : List (Nat × (String × Option Nat)) :=
  app.menus

/-- Modelled from the spec: `Application::addMenuCommand(cmdId, menuId)` puts the command
into the set `menu_commands[menu_id]`. -/
def Application.addMenuCommand (app : Application) (cmdId menuId : Nat) : Application :=
  if (menuId, cmdId) ∈ app.menuCommands then app
  else { app with menuCommands := app.menuCommands ++ [(menuId, cmdId)] }

/-- Modelled from the spec: `Application::removeMenuCommand(cmdId)` takes the command out
of the menu sets. -/
def Application.removeMenuCommand (app : Application) (cmdId : Nat) : Application :=
  { app with menuCommands := Table.eraseValue cmdId app.menuCommands }

/-- Modelled from the spec: `Application::findMenuCommands(menuId)`, the command ids of
`menu_commands[menu_id]`, returned by value. -/
def Application.findMenuCommands (app : Application) (menuId : Nat) : List Nat :=
  (app.menuCommands.filter (fun e => decide (e.1 = menuId))).map Prod.snd

/-- Modelled from the spec: `Application::addCommand` stores
`(cmd_id, CommandType) → CommandParams`. -/
def Application.addCommand (app : Application) (cmdId : Nat) (cmdType : CommandType)
    (params : CommandParams) : Application :=
  { app with commands := Table.insert (cmdId, cmdType) params app.commands }

/-- Modelled from the spec: `Application::removeCommand(cmdId, type)`. -/
def Application.removeCommand (app : Application) (cmdId : Nat) (cmdType : CommandType) :
    Application :=
  { app with commands := Table.erase (cmdId, cmdType) app.commands }

/-- Modelled from the spec: `Application::getCommandTypes(cmdId)`, the set
`{CommandType : (cmd_id, _) ∈ commands}`. -/
def Application.getCommandTypes (app : Application) (cmdId : Nat) : List CommandType :=
  (app.commands.filter (fun e => decide (e.1.1 = cmdId))).map (fun e => e.1.2)

/-- Modelled from the spec: `Application::getAllCommands`. -/
def Application.getAllCommands (app : Application) :
    List ((Nat × CommandType) × CommandParams) :=
  app.commands

/-- Modelled from the spec: `Application::getUnrespondedRequestCount`,
`unresponded_by_cmd[cmd_id]`, 0 for a command id without a counter. -/
def Application.getUnrespondedRequestCount (app : Application) (cmdId : Nat) : Nat :=
  (Table.find cmdId app.unresponded).getD 0

/-- `n + 1` on a `u32` (a number below `2^32`): `2^32 - 1` wraps to 0. -/
def u32Inc (n : Nat) : Nat := if n = 4294967295 then 0 else n + 1

/-- `n - 1` on a `u32`: 0 wraps to `2^32 - 1`. -/
def u32Dec : Nat → Nat
  | 0 => 4294967295
  | k + 1 => k

/-- Modelled from the spec: `Application::incrementUnrespondedRequestCount`, the `u32`
counter `unresponded_by_cmd[cmd_id]` plus one. -/
def Application.incrementUnrespondedRequestCount (app : Application) (cmdId : Nat) :
    Application :=
  { app with unresponded :=
      Table.insert cmdId (u32Inc (app.getUnrespondedRequestCount cmdId)) app.unresponded }

/-- Modelled from the spec: `Application::decrementUnrespondedRequestCount`,
`unresponded_by_cmd[cmd_id] -= 1` on a `u32`. -/
def Application.decrementUnrespondedRequestCount (app : Application) (cmdId : Nat) :
    Application :=
  { app with unresponded :=
      Table.insert cmdId (u32Dec (app.getUnrespondedRequestCount cmdId)) app.unresponded }

/-- Modelled from the spec: `Application_v1::addChoiceSet` / `Application_v2::addChoiceSet`
store `set_id → ChoiceSet`. -/
def Application.addChoiceSet (app : Application) (choiceSetId : Nat) (choiceSet : ChoiceSet) :
    Application :=
  { app with choiceSets := Table.insert choiceSetId choiceSet app.choiceSets }

/-- Modelled from the spec: `removeChoiceSet`. -/
def Application.removeChoiceSet (app : Application) (choiceSetId : Nat) : Application :=
  { app with choiceSets := Table.erase choiceSetId app.choiceSets }

/-- Modelled from the spec: `findChoiceSet`, null when the id is absent. -/
def Application.findChoiceSet (app : Application) (choiceSetId : Nat) : Option ChoiceSet :=
  Table.find choiceSetId app.choiceSets

/-- Modelled from the spec: `getAllChoiceSets`. -/
def Application.getAllChoiceSets (app : Application) : List (Nat × ChoiceSet) :=
  app.choiceSets

/-! ## Registry -/

/-- Modelled from the spec: the singleton `AppMgrRegistry` is implemented outside
`AppMgrCore.cpp`. It is the Registry of the specification: the applications by session
key (in iteration order) and the single active-application pointer. A `RegistryItem`
always carries its application, so an item is embedded as the application itself. -/
structure AppMgrRegistry where
  items : List Application := []
  active : Option Int := none
  deriving DecidableEq, Repr

/-- Modelled from the spec: `AppMgrRegistry::getItem(sessionKey)` /
`getApplication(sessionKey)`: the AppState under the session key, or null. -/
def AppMgrRegistry.getItem (r : AppMgrRegistry) (sessionKey : Int) : Option Application :=
  r.items.find? (fun a => decide (a.mAppID = sessionKey))

/-- Modelled from the spec: `AppMgrRegistry::getItems(appName)`, `appName → [sessionKey]`. -/
def AppMgrRegistry.getItems (r : AppMgrRegistry) (appName : String) : List Application :=
  r.items.filter (fun a => decide (a.mName = appName))

/-- Modelled from the spec: `AppMgrRegistry::getActiveItem`, the application under the
active pointer, or null. -/
def AppMgrRegistry.getActiveItem (r : AppMgrRegistry) : Option Application :=
  match r.active with
  | none => none
  | some k => r.getItem k

/-- Modelled from the spec: `AppMgrRegistry::registerApplication`: `register(AppState)`,
which fails (null item) if the session key exists. -/
def AppMgrRegistry.registerApplication (r : AppMgrRegistry) (app : Application) :
    Option Application × AppMgrRegistry :=
  match r.getItem app.mAppID with
  | some _ => (none, r)
  | none => (some app, { r with items := r.items ++ [app] })

/-- Modelled from the spec: `AppMgrRegistry::unregisterApplication`: frees the AppState;
if it was active, clears the active pointer. -/
def AppMgrRegistry.unregisterApplication (r : AppMgrRegistry) (sessionKey : Int) :
    AppMgrRegistry :=
  { items := r.items.filter (fun a => decide (a.mAppID ≠ sessionKey)),
    active := if r.active = some sessionKey then none else r.active }

/-- Write through an `Application*`: apply `f` to the application stored under `key`. -/
def AppMgrRegistry.modify (r : AppMgrRegistry) (key : Int) (f : Application → Application) :
    AppMgrRegistry :=
  { r with items := r.items.map (fun a => if a.mAppID = key then f a else a) }

/-- Modelled from the spec: `AppMgrRegistry::activateApp(app)`: `active := sessionKey` and
its HMI level `:= FULL`; the result is false when the application is not in the registry.
(The deactivation of the previously active application is `removeAppFromHmi`, which the
dispatcher runs before this call.) -/
def AppMgrRegistry.activateApp (r : AppMgrRegistry) (key : Int) : Bool × AppMgrRegistry :=
  match r.getItem key with
  | none => (false, r)
  | some _ =>
    (true, { (r.modify key (fun a => { a with hmiStatusLevel := HMILevel.HMI_FULL })) with
             active := some key })

/-- Modelled from the spec: `AppMgrRegistry::getApplicationByCommand`:
`lookup_by_command(cmd_id)`, the first application in iteration order that has a command
with this id. -/
def AppMgrRegistry.getApplicationByCommand (r : AppMgrRegistry) (cmdId : Nat) :
    Option Application :=
  r.items.find? (fun a => !(a.getCommandTypes cmdId).isEmpty)

/-! ## The world of the dispatcher -/

/-- Constants fixed by declarations outside `AppMgrCore.cpp`, taken as parameters. -/
structure Config where
  /-- the id an `RPC2Request` carries when `setId` was never called on it -/
  defaultRequestId : Nat
  /-- what `RequestMapping::findRequestIdAssignedToMessage` returns for an unknown id -/
  notFoundCmdId : Nat
  /-- the audio streaming state of a freshly constructed `Application` -/
  initialAudioStreamingState : AudioStreamingState
  /-- whether `pthread_create` reports an error -/
  threadCreateFails : Bool
  deriving DecidableEq, Repr

/-- The part of the file system the dispatcher looks at. -/
structure FileSystem where
  /-- `f_bsize * f_bfree` of the working directory -/
  free : Nat
  /-- directories under the working directory -/
  dirs : List String
  /-- files by path relative to the working directory -/
  files : List (String × List Nat)
  deriving DecidableEq, Repr

/-- Modelled from the spec: `SyncPManager` (SyncPBuffer), implemented outside
`AppMgrCore.cpp`: the encoded data lines and the raw payload pushed by the HMI. -/
structure SyncPManager where
  pData : List String := []
  rawData : List String := []
  deriving DecidableEq, Repr

/-- The state of the process: `AppMgrCore` members and the singletons it talks to. -/
structure World where
  cfg : Config
  registry : AppMgrRegistry
  /-- `mMessageMapping`: HMI message id → session key -/
  mMessageMapping : List (Nat × Int)
  /-- `mRequestMapping`: HMI message id → command id -/
  mRequestMapping : List (Nat × Nat)
  /-- `mButtonsMapping`: button name → session key of the subscriber -/
  mButtonsMapping : List (Nat × Int)
  /-- `mDeviceHandler`: session key → device handle -/
  mDeviceHandler : List (Int × Nat)
  /-- `mDeviceList`: device handle → user friendly name -/
  mDeviceList : List (Nat × String)
  caps : CapabilityCache
  mDriverDistractionV1 : Option Nat
  mDriverDistractionV2 : Option Nat
  mSyncPManager : SyncPManager
  hmiReady : Bool
  /-- the counter behind `JSONRPC2Handler::getNextMessageId` -/
  nextMessageId : Nat
  fs : FileSystem
  /-- everything sent so far, oldest first -/
  sent : List Out
  deriving DecidableEq, Repr

/-- `MobileHandler::sendRPCMessage(message, sessionKey)`. -/
def World.sendRPCMessage (w : World) (msg : MobileMessage) (sessionKey : Int) : World :=
  { w with sent := w.sent ++ [Out.mobile sessionKey msg] }

/-- `HMIHandler::sendRequest`. -/
def World.sendRequest (w : World) (r : RPC2Request) : World :=
  { w with sent := w.sent ++ [Out.request r] }

/-- `HMIHandler::sendResponse`. -/
def World.sendResponse (w : World) (r : RPC2Response) : World :=
  { w with sent := w.sent ++ [Out.response r] }

/-- `HMIHandler::sendNotification`. -/
def World.sendNotification (w : World) (n : RPC2Notification) : World :=
  { w with sent := w.sent ++ [Out.notify n] }

/-- Modelled from the spec: `JSONRPC2Handler::getNextMessageId` (IdAllocator): returns a
strictly increasing number; the 32-bit wraparound the specification leaves open is not
modelled. -/
def World.getNextMessageId (w : World) : Nat × World :=
  (w.nextMessageId, { w with nextMessageId := w.nextMessageId + 1 })

/-- Modelled from the spec: `MessageMapping::addMessage`: `record_outbound(hmi_id,
session_key)`. -/
def World.addMessage (w : World) (msgId : Nat) (sessionKey : Int) : World :=
  { w with mMessageMapping := Table.insert msgId sessionKey w.mMessageMapping }

/-- Modelled from the spec: `MessageMapping::removeMessage`: `forget_outbound(hmi_id)`. -/
def World.removeMessage (w : World) (msgId : Nat) : World :=
  { w with mMessageMapping := Table.erase msgId w.mMessageMapping }

/-- Modelled from the spec: `MessageMapping::findRegistryItemAssignedToCommand`:
`resolve_outbound(hmi_id)` followed by the registry lookup of the session key. -/
def World.findRegistryItemAssignedToCommand (w : World) (msgId : Nat) : Option Application :=
  match Table.find msgId w.mMessageMapping with
  | none => none
  | some key => w.registry.getItem key

/-- Modelled from the spec: `RequestMapping::addMessage`: record `hmi_id → cmd_id`. -/
def World.addRequest (w : World) (msgId cmdId : Nat) : World :=
  { w with mRequestMapping := Table.insert msgId cmdId w.mRequestMapping }

/-- Modelled from the spec: `RequestMapping::removeRequest`. -/
def World.removeRequest (w : World) (msgId : Nat) : World :=
  { w with mRequestMapping := Table.erase msgId w.mRequestMapping }

/-- Modelled from the spec: `RequestMapping::findRequestIdAssignedToMessage`; the source
uses the result as an `unsigned int`, so an unknown id yields the configured number. -/
def World.findRequestIdAssignedToMessage (w : World) (msgId : Nat) : Nat :=
  (Table.find msgId w.mRequestMapping).getD w.cfg.notFoundCmdId

/-- Modelled from the spec: `ButtonMapping::addButton`: `subscribe_button(button,
session_key)`. -/
def World.addButton (w : World) (btnName : Nat) (sessionKey : Int) : World :=
  { w with mButtonsMapping := Table.insert btnName sessionKey w.mButtonsMapping }

/-- Modelled from the spec: `ButtonMapping::removeButton`: `unsubscribe_button(button)`. -/
def World.removeButton (w : World) (btnName : Nat) : World :=
  { w with mButtonsMapping := Table.erase btnName w.mButtonsMapping }

/-- Modelled from the spec: `ButtonMapping::findRegistryItemSubscribedToButton`:
`resolve_button(button)` followed by the registry lookup. -/
def World.findRegistryItemSubscribedToButton (w : World) (btnName : Nat) :
    Option Application :=
  match Table.find btnName w.mButtonsMapping with
  | none => none
  | some key => w.registry.getItem key

/-- `AppMgrCore::getApplicationFromItemCheckNotNull(AppMgrRegistry::getItem(sessionKey))`
and `AppMgrRegistry::getApplication(sessionKey)`. -/
def World.getApplication (w : World) (sessionKey : Int) : Option Application :=
  w.registry.getItem sessionKey

/-- Store the local copy of an application back under its session key (the source writes
through the `Application*` it holds). -/
def World.putApplication (w : World) (app : Application) : World :=
  { w with registry := w.registry.modify app.mAppID (fun _ => app) }

/-- Modelled from the spec: the device of a session:
`mDeviceList.findDeviceByHandle(mDeviceHandler.findDeviceAssignedToSession(sessionKey))`,
null when the session has no handle or the handle is not in the device list. The result
is the user friendly name of the device. -/
def World.currentDevice (w : World) (sessionKey : Int) : Option String :=
  match Table.find sessionKey w.mDeviceHandler with
  | none => none
  | some handle => Table.find handle w.mDeviceList

/-- The state of a process that has just started: nothing registered, nothing recorded,
no device known. -/
def World.initial (cfg : Config) (fs : FileSystem) (firstId : Nat) : World :=
  { cfg := cfg, registry := {}, mMessageMapping := [], mRequestMapping := [],
    mButtonsMapping := [], mDeviceHandler := [], mDeviceList := [], caps := {},
    mDriverDistractionV1 := none, mDriverDistractionV2 := none, mSyncPManager := {},
    hmiReady := false, nextMessageId := firstId, fs := fs, sent := [] }

/-! ## `AppMgrCore` member functions -/

/-- `AppMgrCore::registerApplication(request, appId)`: build the `Application_v2` or
`Application_v1` from the request and hand it to the registry; null for any other
protocol version. -/
def registerApplication (core : World) (request : ALRPCMessage) (appId : Int) :
    Option Application × World :=
  match request with
  | .v2 (.RegisterAppInterface_request registerRequest) =>
    let application : Application :=
      { mName := registerRequest.appName, mAppID := appId, protocolVersion := .V2,
        audioStreamingState := core.cfg.initialAudioStreamingState }
    let application := match registerRequest.appType with
      | some appType => { application with appType := appType }
      | none => application
    let application := { application with languageDesired := registerRequest.languageDesired }
    let application := match registerRequest.ngnMediaScreenAppName with
      | some n => { application with ngnMediaScreenAppName := some n }
      | none => application
    let application := match registerRequest.vrSynonyms with
      | some v => { application with vrSynonyms := v }
      | none => application
    let application := { application with
      hmiDisplayLanguageDesired := registerRequest.hmiDisplayLanguageDesired,
      isMediaApplication := registerRequest.isMediaApplication,
      syncMsgVersion := registerRequest.syncMsgVersion,
      systemContext := SystemContext.SYSCTXT_MAIN }
    let application := match registerRequest.ttsName with
      | some t => { application with ttsName := t }
      | none => application
    let application := { application with hmiStatusLevel := HMILevel.HMI_NONE }
    let (item, registry) := core.registry.registerApplication application
    (item, { core with registry := registry })
  | .v1 (.RegisterAppInterface_request registerRequest) =>
    let application : Application :=
      { mName := registerRequest.appName, mAppID := appId, protocolVersion := .V1,
        audioStreamingState := core.cfg.initialAudioStreamingState }
    let application := match registerRequest.ngnMediaScreenAppName with
      | some n => { application with ngnMediaScreenAppName := some n }
      | none => application
    let application := match registerRequest.vrSynonyms with
      | some v => { application with vrSynonyms := v }
      | none => application
    -- `bool usesVehicleData = registerRequest->get_usesVehicleData();` inside
    -- `if (registerRequest->get_usesVehicleData())`: the stored flag is true
    let application := match registerRequest.usesVehicleData with
      | some _ => { application with usesVehicleData := true }
      | none => application
    let application := { application with
      isMediaApplication := registerRequest.isMediaApplication,
      languageDesired := registerRequest.languageDesired,
      syncMsgVersion := registerRequest.syncMsgVersion,
      systemContext := SystemContext.SYSCTXT_MAIN,
      hmiStatusLevel := HMILevel.HMI_NONE }
    let (item, registry) := core.registry.registerApplication application
    (item, { core with registry := registry })
  | _ => (none, core)

/-- `AppMgrCore::unregisterApplication(appId)`: sweep the button mapping and the message
mapping for the item, then unregister it. -/
def unregisterApplication (core : World) (appId : Int) : World :=
  match core.registry.getItem appId with
  | none => core
  | some _ =>
    { core with
      mButtonsMapping := Table.eraseValue appId core.mButtonsMapping,
      mMessageMapping := Table.eraseValue appId core.mMessageMapping,
      registry := core.registry.unregisterApplication appId }

/-- Allocate an id, build the request with `appId`-independent `body`, record
`id → sessionKey` and send it: the four statements
`setId(getNextMessageId()); ...; mMessageMapping.addMessage(getId(), key); sendRequest`. -/
def World.issue (core : World) (body : RequestBody) (key : Int) : World :=
  let (id, core) := core.getNextMessageId
  let core := core.addMessage id key
  core.sendRequest { id := id, body := body }

/-- The command loop of `removeAppFromHmi`: one `DeleteCommand` per `(cmdId, type)`. -/
def removeCommandsFromHmi (core : World) (currentApp : Application) (appId : Int) :
    List ((Nat × CommandType) × CommandParams) → World
  | [] => core
  | ((cmdId, type), _) :: rest =>
    match type with
    | .UI => removeCommandsFromHmi
        (core.issue (.UI_DeleteCommand currentApp.mAppID cmdId) appId) currentApp appId rest
    | .VR => removeCommandsFromHmi
        (core.issue (.VR_DeleteCommand currentApp.mAppID cmdId) appId) currentApp appId rest
    | .UNDEFINED => removeCommandsFromHmi core currentApp appId rest

/-- The menu loop of `removeAppFromHmi`: one `DeleteSubMenu` per menu. -/
def removeMenusFromHmi (core : World) (currentApp : Application) (appId : Int) :
    List (Nat × (String × Option Nat)) → World
  | [] => core
  | (menuId, _) :: rest =>
    removeMenusFromHmi (core.issue (.UI_DeleteSubMenu currentApp.mAppID menuId) appId)
      currentApp appId rest

/-- The choice-set loop of `removeAppFromHmi` (the same for both protocol versions). -/
def removeChoiceSetsFromHmi (core : World) (currentApp : Application) (appId : Int) :
    List (Nat × ChoiceSet) → World
  | [] => core
  | (choiceSetId, _) :: rest =>
    removeChoiceSetsFromHmi
      (core.issue (.UI_DeleteInteractionChoiceSet currentApp.mAppID choiceSetId) appId)
      currentApp appId rest

/-- `AppMgrCore::removeAppFromHmi(currentApp, appId)`: set `currentApp` to BACKGROUND,
send `OnHMIStatus` to `appId`, then issue the deletes, each recorded under `appId`. -/
def removeAppFromHmi (core : World) (currentApp : Application) (appId : Int) : World :=
  let currentCommands := currentApp.getAllCommands
  let registry := core.registry.modify currentApp.mAppID
    (fun a => { a with hmiStatusLevel := HMILevel.HMI_BACKGROUND })
  let core := { core with registry := registry }
  let core := match currentApp.protocolVersion with
    | .V1 => core.sendRPCMessage (.OnHMIStatus .V1 HMILevel.HMI_BACKGROUND
        currentApp.audioStreamingState currentApp.systemContext) appId
    | .V2 => core.sendRPCMessage (.OnHMIStatus .V2 HMILevel.HMI_BACKGROUND
        currentApp.audioStreamingState currentApp.systemContext) appId
  let core := removeCommandsFromHmi core currentApp appId currentCommands
  let core := removeMenusFromHmi core currentApp appId currentApp.getAllMenus
  removeChoiceSetsFromHmi core currentApp appId currentApp.getAllChoiceSets

/-- `AppMgrCore::setDeviceList`. -/
def setDeviceList (core : World) (deviceList : List (Nat × String)) : World :=
  let core := { core with mDeviceList := deviceList }
  let list := core.mDeviceList.map Prod.snd
  let list := if list.isEmpty then [""] else list
  core.sendNotification (.OnDeviceListUpdated list)

/-- `AppMgrCore::addDevice`. -/
def addDevice (core : World) (sessionKey : Int) (device : Nat) : World :=
  { core with mDeviceHandler := Table.insert sessionKey device core.mDeviceHandler }

/-- `AppMgrCore::removeDevice`. -/
def removeDevice (core : World) (sessionKey : Int) : World :=
  { core with mDeviceHandler := Table.erase sessionKey core.mDeviceHandler }

/-! ## `handleMobileRPCMessage`, protocol version 1

One definition per `case` of the switch. An optional field that the source copies with
`if (object->get_x()) request->set_x(*object->get_x())` into a fresh request is copied as
an `Option`. -/

/-- The mobile response with only `success` and `resultCode` set. -/
def mkResponse (version : ProtocolVersion) (name : ResponseName) (success : Bool)
    (resultCode : Result) : MobileMessage :=
  .response version name success resultCode .empty

/-- `case METHOD_REGISTERAPPINTERFACE_REQUEST` (v1). -/
def v1RegisterAppInterface (core : World) (sessionKey : Int) (currentDeviceName : String)
    (object : RegisterAppInterface_request) : Option World :=
  match core.registry.getItem sessionKey with
  | some _ =>
    some (core.sendRPCMessage
      (mkResponse .V1 .RegisterAppInterface false .APPLICATION_REGISTERED_ALREADY) sessionKey)
  | none =>
    match registerApplication core (.v1 (.RegisterAppInterface_request object)) sessionKey with
    | (none, core) =>
      some (core.sendRPCMessage
        (mkResponse .V1 .RegisterAppInterface false .APPLICATION_NOT_REGISTERED) sessionKey)
    | (some app, core) =>
      let core := core.sendRPCMessage
        (.OnHMIStatus .V1 app.hmiStatusLevel app.audioStreamingState app.systemContext)
        sessionKey
      let core := core.sendRPCMessage
        (.response .V1 .RegisterAppInterface true .SUCCESS
          (.registered core.caps app.syncMsgVersion)) sessionKey
      some (core.sendNotification
        (.OnAppRegistered app.mName app.mAppID app.isMediaApplication app.languageDesired
          app.vrSynonyms currentDeviceName 1 [] none []))

/-- `case METHOD_UNREGISTERAPPINTERFACE_REQUEST` (v1). The source reads `app->getAppID()`
once more after `unregisterApplication`; the embedding reads the value the application
held. -/
def v1UnregisterAppInterface (core : World) (sessionKey : Int) : Option World :=
  match core.getApplication sessionKey with
  | none =>
    some (core.sendRPCMessage
      (mkResponse .V1 .UnregisterAppInterface false .APPLICATION_NOT_REGISTERED) sessionKey)
  | some app =>
    let appName := app.mName
    let core := removeAppFromHmi core app sessionKey
    let core := unregisterApplication core sessionKey
    let core := core.sendRPCMessage
      (mkResponse .V1 .UnregisterAppInterface true .SUCCESS) sessionKey
    let core := core.sendRPCMessage (.OnAppInterfaceUnregistered .V1 .USER_EXIT) sessionKey
    some (core.sendNotification (.OnAppUnregistered appName app.mAppID .USER_EXIT))

/-- `case METHOD_SUBSCRIBEBUTTON_REQUEST` (v1). -/
def v1SubscribeButton (core : World) (sessionKey : Int) (buttonName : Nat) : Option World :=
  match core.registry.getItem sessionKey with
  | none =>
    some (core.sendRPCMessage
      (mkResponse .V1 .SubscribeButton false .APPLICATION_NOT_REGISTERED) sessionKey)
  | some app =>
    if app.hmiStatusLevel = HMILevel.HMI_NONE then
      some (core.sendRPCMessage (mkResponse .V1 .SubscribeButton false .REJECTED) sessionKey)
    else
      let core := core.addButton buttonName sessionKey
      some (core.sendRPCMessage (mkResponse .V1 .SubscribeButton true .SUCCESS) sessionKey)

/-- `case METHOD_UNSUBSCRIBEBUTTON_REQUEST` (v1). -/
def v1UnsubscribeButton (core : World) (sessionKey : Int) (buttonName : Nat) : Option World :=
  match core.getApplication sessionKey with
  | none => some core
  | some app =>
    if app.hmiStatusLevel = HMILevel.HMI_NONE then
      some (core.sendRPCMessage (mkResponse .V1 .UnsubscribeButton false .REJECTED) sessionKey)
    else
      let core := core.removeButton buttonName
      some (core.sendRPCMessage (mkResponse .V1 .UnsubscribeButton true .SUCCESS) sessionKey)

/-- The fields of the `UI::Show` request built by `case METHOD_SHOW_REQUEST` (v1): each
optional field of the mobile request is copied if present. (The record `Show_request`
also serves for the fields of `UI::Show`; its `mainField3`/`mainField4` stay unset.) -/
def v1ShowRequest (object : Show_request) : Show_request :=
  let showRPC2Request : Show_request := {}
  let showRPC2Request := match object.mainField1 with
    | some x => { showRPC2Request with mainField1 := some x }
    | none => showRPC2Request
  let showRPC2Request := match object.mainField2 with
    | some x => { showRPC2Request with mainField2 := some x }
    | none => showRPC2Request
  let showRPC2Request := match object.mediaClock with
    | some x => { showRPC2Request with mediaClock := some x }
    | none => showRPC2Request
  let showRPC2Request := match object.mediaTrack with
    | some x => { showRPC2Request with mediaTrack := some x }
    | none => showRPC2Request
  let showRPC2Request := match object.statusBar with
    | some x => { showRPC2Request with statusBar := some x }
    | none => showRPC2Request
  match object.alignment with
    | some x => { showRPC2Request with alignment := some x }
    | none => showRPC2Request

/-- `case METHOD_SHOW_REQUEST` (v1). -/
def v1Show (core : World) (sessionKey : Int) (object : Show_request) : Option World :=
  match core.getApplication sessionKey with
  | none => some core
  | some app =>
    if app.hmiStatusLevel = HMILevel.HMI_NONE then
      some (core.sendRPCMessage (mkResponse .V1 .Show false .REJECTED) sessionKey)
    else
      let (id, core) := core.getNextMessageId
      let showRPC2Request := v1ShowRequest object
      let core := core.addMessage id sessionKey
      some (core.sendRequest { id := id, body := .UI_Show sessionKey showRPC2Request })

/-- `case METHOD_SPEAK_REQUEST` (v1). -/
def v1Speak (core : World) (sessionKey : Int) (ttsChunks : List TTSChunk) : Option World :=
  match core.getApplication sessionKey with
  | none => some core
  | some app =>
    if app.hmiStatusLevel = HMILevel.HMI_NONE then
      some (core.sendRPCMessage (mkResponse .V1 .Speak false .REJECTED) sessionKey)
    else
      let core := core.issue (.TTS_Speak sessionKey ttsChunks) sessionKey
      some (core.sendRPCMessage (mkResponse .V1 .Speak true .SUCCESS) sessionKey)

/-- `case METHOD_SETGLOBALPROPERTIES_REQUEST` (v1). -/
def v1SetGlobalProperties (core : World) (sessionKey : Int)
    (object : SetGlobalProperties_request) : Option World :=
  match core.getApplication sessionKey with
  | none => some core
  | some app =>
    if app.hmiStatusLevel = HMILevel.HMI_NONE then
      some (core.sendRPCMessage
        (mkResponse .V1 .SetGlobalProperties false .REJECTED) sessionKey)
    else
      let core := core.issue (.UI_SetGlobalProperties sessionKey
        { helpPrompt := object.helpPrompt, timeoutPrompt := object.timeoutPrompt }) sessionKey
      some (core.sendRPCMessage
        (mkResponse .V1 .SetGlobalProperties true .SUCCESS) sessionKey)

/-- `case METHOD_RESETGLOBALPROPERTIES_REQUEST` (v1). -/
def v1ResetGlobalProperties (core : World) (sessionKey : Int) (properties : List Nat) :
    Option World :=
  let core := core.issue (.UI_ResetGlobalProperties sessionKey properties) sessionKey
  some (core.sendRPCMessage (mkResponse .V1 .ResetGlobalProperties true .SUCCESS) sessionKey)

/-- `case METHOD_ALERT_REQUEST` (v1). -/
def v1Alert (core : World) (sessionKey : Int) (object : Alert_request) : Option World :=
  some (core.issue (.UI_Alert sessionKey
    { alertText1 := object.alertText1, alertText2 := object.alertText2,
      duration := object.duration, playTone := object.playTone }) sessionKey)

/-- The UI half of `AddCommand` (v1): `if (object->get_menuParams())`. -/
def v1AddCommandUI (core : World) (app : Application) (sessionKey : Int) (cmdId : Nat)
    (menuParams : MenuParams) : World × Application :=
  let (id, core) := core.getNextMessageId
  let app := match menuParams.parentID with
    | some menuId => app.addMenuCommand cmdId menuId
    | none => app
  let core := core.addMessage id sessionKey
  let params : CommandParams := { menuParams := some menuParams }
  let app := app.addCommand cmdId .UI params
  let app := app.incrementUnrespondedRequestCount cmdId
  let core := core.addRequest id cmdId
  (core.sendRequest { id := id, body := .UI_AddCommand app.mAppID cmdId menuParams none }, app)

/-- The VR half of `AddCommand` (v1 and v2): `if (object->get_vrCommands())`. -/
def addCommandVR (core : World) (app : Application) (sessionKey : Int) (cmdId : Nat)
    (vrCommands : List String) : World × Application :=
  let (id, core) := core.getNextMessageId
  let core := core.addMessage id sessionKey
  let params : CommandParams := { vrCommands := some vrCommands }
  let app := app.addCommand cmdId .VR params
  let app := app.incrementUnrespondedRequestCount cmdId
  let core := core.addRequest id cmdId
  (core.sendRequest { id := id, body := .VR_AddCommand app.mAppID cmdId vrCommands }, app)

/-- `case METHOD_ADDCOMMAND_REQUEST` (v1). -/
def v1AddCommand (core : World) (sessionKey : Int) (object : AddCommand_request) :
    Option World :=
  match core.getApplication sessionKey with
  | none =>
    some (core.sendRPCMessage
      (mkResponse .V1 .AddCommand false .APPLICATION_NOT_REGISTERED) sessionKey)
  | some app =>
    let cmdId := object.cmdID
    let (core, app) := match object.menuParams with
      | some menuParams => v1AddCommandUI core app sessionKey cmdId menuParams
      | none => (core, app)
    let (core, app) := match object.vrCommands with
      | some vrCommands => addCommandVR core app sessionKey cmdId vrCommands
      | none => (core, app)
    some (core.putApplication app)

/-- The loop of `DeleteCommand` over the command types of `cmdId` (v1 and v2). -/
def deleteCommandLoop (sessionKey : Int) (cmdId : Nat) :
    World × Application → List CommandType → World × Application
  | (core, app), [] => (core, app)
  | (core, app), cmdType :: rest =>
    match cmdType with
    | .UI =>
      let (id, core) := core.getNextMessageId
      let core := core.addMessage id sessionKey
      let app := app.removeCommand cmdId cmdType
      let app := app.incrementUnrespondedRequestCount cmdId
      let app := app.removeMenuCommand cmdId
      let core := core.addRequest id cmdId
      let core := core.sendRequest { id := id, body := .UI_DeleteCommand app.mAppID cmdId }
      deleteCommandLoop sessionKey cmdId (core, app) rest
    | .VR =>
      let (id, core) := core.getNextMessageId
      let core := core.addMessage id sessionKey
      let app := app.removeCommand cmdId cmdType
      let app := app.incrementUnrespondedRequestCount cmdId
      let core := core.addRequest id cmdId
      let core := core.sendRequest { id := id, body := .VR_DeleteCommand app.mAppID cmdId }
      deleteCommandLoop sessionKey cmdId (core, app) rest
    | .UNDEFINED => deleteCommandLoop sessionKey cmdId (core, app) rest

/-- `case METHOD_DELETECOMMAND_REQUEST` (v1) and `case DeleteCommandID` (v2); the two
differ only in the class of the response. -/
def deleteCommand (version : ProtocolVersion) (core : World) (sessionKey : Int)
    (cmdID : Nat) : Option World :=
  match core.getApplication sessionKey with
  | none =>
    some (core.sendRPCMessage
      (mkResponse version .DeleteCommand false .APPLICATION_NOT_REGISTERED) sessionKey)
  | some app =>
    let cmdTypes := app.getCommandTypes cmdID
    if cmdTypes.isEmpty then
      some (core.sendRPCMessage
        (mkResponse version .DeleteCommand false .INVALID_DATA) sessionKey)
    else
      let (core, app) := deleteCommandLoop sessionKey cmdID (core, app) cmdTypes
      some (core.putApplication app)

/-- `case METHOD_ADDSUBMENU_REQUEST` (v1) and `case AddSubMenuID` (v2). -/
def addSubMenu (version : ProtocolVersion) (core : World) (sessionKey : Int)
    (object : AddSubMenu_request) : Option World :=
  match core.getApplication sessionKey with
  | none =>
    some (core.sendRPCMessage
      (mkResponse version .AddSubMenu false .APPLICATION_NOT_REGISTERED) sessionKey)
  | some app =>
    let (id, core) := core.getNextMessageId
    let core := core.addMessage id sessionKey
    let app := app.addMenu object.menuID object.menuName object.position
    let core := core.putApplication app
    let body := RequestBody.UI_AddSubMenu app.mAppID object.menuID object.menuName
      object.position
    some (core.sendRequest { id := id, body := body })

/-- The inner loop of the `DeleteSubMenu` cascade over the types of one command: a
`VR::DeleteCommand` for the VR counterpart. `setId` is not called on it, so it carries
the default id. -/
def deleteSubMenuVrLoop (sessionKey : Int) (cmd : Nat) :
    World × Application → List CommandType → World × Application
  | (core, app), [] => (core, app)
  | (core, app), type :: rest =>
    if type = CommandType.VR then
      let id := core.cfg.defaultRequestId
      let core := core.addMessage id sessionKey
      let core := core.addRequest id cmd
      let app := app.removeCommand cmd .VR
      let core := core.sendRequest { id := id, body := .VR_DeleteCommand app.mAppID cmd }
      deleteSubMenuVrLoop sessionKey cmd (core, app) rest
    else deleteSubMenuVrLoop sessionKey cmd (core, app) rest

/-- The loop of the `DeleteSubMenu` cascade over the commands of the menu. -/
def deleteSubMenuLoop (sessionKey : Int) :
    World × Application → List Nat → World × Application
  | (core, app), [] => (core, app)
  | (core, app), cmd :: rest =>
    let (id, core) := core.getNextMessageId
    let core := core.addMessage id sessionKey
    let core := core.addRequest id cmd
    let core := core.sendRequest { id := id, body := .UI_DeleteCommand app.mAppID cmd }
    let types := app.getCommandTypes cmd
    let (core, app) := deleteSubMenuVrLoop sessionKey cmd (core, app) types
    let app := app.removeCommand cmd .UI
    let app := app.removeMenuCommand cmd
    deleteSubMenuLoop sessionKey (core, app) rest

/-- `case METHOD_DELETESUBMENU_REQUEST` (v1) and `case DeleteSubMenuID` (v2). -/
def deleteSubMenu (version : ProtocolVersion) (core : World) (sessionKey : Int)
    (menuId : Nat) : Option World :=
  match core.getApplication sessionKey with
  | none =>
    some (core.sendRPCMessage
      (mkResponse version .DeleteSubMenu false .APPLICATION_NOT_REGISTERED) sessionKey)
  | some app =>
    match app.findMenu menuId with
    | none =>
      some (core.sendRPCMessage
        (mkResponse version .DeleteSubMenu false .INVALID_DATA) sessionKey)
    | some _ =>
      let (id, core) := core.getNextMessageId
      let core := core.addMessage id sessionKey
      let menuCommands := app.findMenuCommands menuId
      let (core, app) := deleteSubMenuLoop sessionKey (core, app) menuCommands
      let app := app.removeMenu menuId
      let core := core.putApplication app
      some (core.sendRequest { id := id, body := .UI_DeleteSubMenu app.mAppID menuId })

/-- `case METHOD_CREATEINTERACTIONCHOICESET_REQUEST` (v1) and
`case CreateInteractionChoiceSetID` (v2). -/
def createInteractionChoiceSet (version : ProtocolVersion) (core : World) (sessionKey : Int)
    (object : CreateInteractionChoiceSet_request) : Option World :=
  match core.getApplication sessionKey with
  | none =>
    some (core.sendRPCMessage (mkResponse version .CreateInteractionChoiceSet false
      .APPLICATION_NOT_REGISTERED) sessionKey)
  | some app =>
    let (id, core) := core.getNextMessageId
    let core := core.addMessage id sessionKey
    let app := app.addChoiceSet object.interactionChoiceSetID object.choiceSet
    let core := core.putApplication app
    let body := RequestBody.UI_CreateInteractionChoiceSet app.mAppID
      object.interactionChoiceSetID object.choiceSet
    some (core.sendRequest { id := id, body := body })

/-- `case METHOD_DELETEINTERACTIONCHOICESET_REQUEST` (v1) and
`case DeleteInteractionChoiceSetID` (v2). -/
def deleteInteractionChoiceSet (version : ProtocolVersion) (core : World) (sessionKey : Int)
    (choiceSetId : Nat) : Option World :=
  match core.getApplication sessionKey with
  | none =>
    some (core.sendRPCMessage (mkResponse version .DeleteInteractionChoiceSet false
      .APPLICATION_NOT_REGISTERED) sessionKey)
  | some app =>
    match app.findChoiceSet choiceSetId with
    | none =>
      some (core.sendRPCMessage (mkResponse version .DeleteInteractionChoiceSet false
        .INVALID_DATA) sessionKey)
    | some _ =>
      let (id, core) := core.getNextMessageId
      let core := core.addMessage id sessionKey
      let app := app.removeChoiceSet choiceSetId
      let core := core.putApplication app
      let body := RequestBody.UI_DeleteInteractionChoiceSet app.mAppID choiceSetId
      some (core.sendRequest { id := id, body := body })

/-- `case METHOD_PERFORMINTERACTION_REQUEST` (v1). -/
def v1PerformInteraction (core : World) (sessionKey : Int)
    (object : PerformInteraction_request) : Option World :=
  match core.getApplication sessionKey with
  | none =>
    some (core.sendRPCMessage
      (mkResponse .V1 .PerformInteraction false .APPLICATION_NOT_REGISTERED) sessionKey)
  | some app =>
    let choiceSets := object.interactionChoiceSetIDList
    if choiceSets.all (fun choiceSetId => (app.findChoiceSet choiceSetId).isSome) then
      some (core.issue (.UI_PerformInteraction sessionKey
        { initialText := object.initialText, initialPrompt := object.initialPrompt,
          interactionMode := object.interactionMode,
          interactionChoiceSetIDList := choiceSets,
          helpPrompt := object.helpPrompt, timeoutPrompt := object.timeoutPrompt,
          timeout := object.timeout }) sessionKey)
    else
      some (core.sendRPCMessage
        (mkResponse .V1 .PerformInteraction false .INVALID_DATA) sessionKey)

/-- `case METHOD_SETMEDIACLOCKTIMER_REQUEST` (v1) and `case SetMediaClockTimerID` (v2). -/
def setMediaClockTimer (core : World) (sessionKey : Int)
    (object : SetMediaClockTimer_request) : Option World :=
  some (core.issue (.UI_SetMediaClockTimer sessionKey
    { startTime := object.startTime, updateMode := object.updateMode }) sessionKey)

/-- Modelled from the spec: `SyncPManager::setPData`: the buffer takes the data lines. -/
def World.setPData (core : World) (data : List String) : World :=
  { core with mSyncPManager := { core.mSyncPManager with pData := data } }

/-- `case METHOD_ENCODEDSYNCPDATA_REQUEST` (v1): with data present the application is
dereferenced without a null check. -/
def v1EncodedSyncPData (core : World) (sessionKey : Int) (data : Option (List String)) :
    Option World :=
  match data with
  | some d =>
    match core.getApplication sessionKey with
    | none => none
    | some _ =>
      let core := core.setPData d
      some (core.sendRPCMessage (mkResponse .V1 .EncodedSyncPData true .SUCCESS) sessionKey)
  | none =>
    some (core.sendRPCMessage (mkResponse .V1 .EncodedSyncPData false .INVALID_DATA) sessionKey)

/-- The `default` case of either switch: `GenericResponse(INVALID_DATA)`. -/
def genericResponse (version : ProtocolVersion) (core : World) (sessionKey : Int) :
    Option World :=
  some (core.sendRPCMessage (mkResponse version .GenericResponse false .INVALID_DATA)
    sessionKey)

/-- The switch of `handleMobileRPCMessage` for protocol version 1. -/
def handleMobileV1 (core : World) (sessionKey : Int) (currentDeviceName : String)
    (o : V1Object) : Option World :=
  match o with
  | .RegisterAppInterface_request object =>
    v1RegisterAppInterface core sessionKey currentDeviceName object
  | .UnregisterAppInterface_request => v1UnregisterAppInterface core sessionKey
  | .SubscribeButton_request buttonName => v1SubscribeButton core sessionKey buttonName
  | .UnsubscribeButton_request buttonName => v1UnsubscribeButton core sessionKey buttonName
  | .Show_request object => v1Show core sessionKey object
  | .Speak_request ttsChunks => v1Speak core sessionKey ttsChunks
  | .SetGlobalProperties_request object => v1SetGlobalProperties core sessionKey object
  | .ResetGlobalProperties_request properties =>
    v1ResetGlobalProperties core sessionKey properties
  | .Alert_request object => v1Alert core sessionKey object
  | .AddCommand_request object => v1AddCommand core sessionKey object
  | .DeleteCommand_request cmdID => deleteCommand .V1 core sessionKey cmdID
  | .AddSubMenu_request object => addSubMenu .V1 core sessionKey object
  | .DeleteSubMenu_request menuID => deleteSubMenu .V1 core sessionKey menuID
  | .CreateInteractionChoiceSet_request object =>
    createInteractionChoiceSet .V1 core sessionKey object
  | .DeleteInteractionChoiceSet_request choiceSetId =>
    deleteInteractionChoiceSet .V1 core sessionKey choiceSetId
  | .PerformInteraction_request object => v1PerformInteraction core sessionKey object
  | .SetMediaClockTimer_request object => setMediaClockTimer core sessionKey object
  | .EncodedSyncPData_request data => v1EncodedSyncPData core sessionKey data
  | .relayed methodId =>
    some (core.sendRPCMessage (.relayed (.v1 (.relayed methodId))) sessionKey)
  | .other _ => genericResponse .V1 core sessionKey

/-! ## `handleMobileRPCMessage`, protocol version 2 -/

/-- `case RegisterAppInterfaceID` (v2). -/
def v2RegisterAppInterface (core : World) (sessionKey : Int) (currentDeviceName : String)
    (object : RegisterAppInterface_request) : Option World :=
  match core.registry.getItem sessionKey with
  | some _ =>
    some (core.sendRPCMessage
      (mkResponse .V2 .RegisterAppInterface false .APPLICATION_REGISTERED_ALREADY) sessionKey)
  | none =>
    match registerApplication core (.v2 (.RegisterAppInterface_request object)) sessionKey with
    | (none, core) =>
      some (core.sendRPCMessage
        (mkResponse .V2 .RegisterAppInterface false .APPLICATION_NOT_REGISTERED) sessionKey)
    | (some app, core) =>
      let core := core.sendRPCMessage
        (.OnHMIStatus .V2 app.hmiStatusLevel app.audioStreamingState app.systemContext)
        sessionKey
      let core := core.sendRPCMessage
        (.response .V2 .RegisterAppInterface true .SUCCESS
          (.registered core.caps app.syncMsgVersion)) sessionKey
      some (core.sendNotification
        (.OnAppRegistered app.mName app.mAppID app.isMediaApplication app.languageDesired
          app.vrSynonyms currentDeviceName 2 app.appType
          (some app.hmiDisplayLanguageDesired) app.ttsName))

/-- `case UnregisterAppInterfaceID` (v2). -/
def v2UnregisterAppInterface (core : World) (sessionKey : Int) : Option World :=
  match core.getApplication sessionKey with
  | none =>
    some (core.sendRPCMessage
      (mkResponse .V2 .UnregisterAppInterface false .APPLICATION_NOT_REGISTERED) sessionKey)
  | some app =>
    let appName := app.mName
    let core := removeAppFromHmi core app sessionKey
    let core := unregisterApplication core sessionKey
    let core := core.sendRPCMessage
      (mkResponse .V2 .UnregisterAppInterface true .SUCCESS) sessionKey
    let core := core.sendRPCMessage (.OnAppInterfaceUnregistered .V2 .USER_EXIT) sessionKey
    some (core.sendNotification (.OnAppUnregistered appName app.mAppID .USER_EXIT))

/-- `case SubscribeButtonID` (v2). -/
def v2SubscribeButton (core : World) (sessionKey : Int) (buttonName : Nat) : Option World :=
  match core.registry.getItem sessionKey with
  | none =>
    some (core.sendRPCMessage
      (mkResponse .V2 .SubscribeButton false .APPLICATION_NOT_REGISTERED) sessionKey)
  | some _ =>
    let core := core.addButton buttonName sessionKey
    some (core.sendRPCMessage (mkResponse .V2 .SubscribeButton true .SUCCESS) sessionKey)

/-- `case UnsubscribeButtonID` (v2). -/
def v2UnsubscribeButton (core : World) (sessionKey : Int) (buttonName : Nat) : Option World :=
  let core := core.removeButton buttonName
  some (core.sendRPCMessage (mkResponse .V2 .UnsubscribeButton true .SUCCESS) sessionKey)

/-- The path `<appName>_<appId>/<syncFileName>` built by `snprintf` (its truncation at
`FILENAME_MAX - 1` characters is not modelled). -/
def appFilePath (app : Application) (syncFileName : String) : String :=
  app.mName ++ "_" ++ toString app.mAppID ++ "/" ++ syncFileName

/-- The directory `<appName>_<appId>` of an application. -/
def appDirectory (app : Application) : String :=
  app.mName ++ "_" ++ toString app.mAppID

/-- `case PutFileID` (v2). `stat` fails when nothing of that name exists in the working
directory; the `ofstream` opens when the directory of the application exists. -/
def v2PutFile (core : World) (sessionKey : Int) (object : PutFile_request) : Option World :=
  let freeSpace := core.fs.free
  let syncFileName := object.syncFileName
  let isSyncFileName := !syncFileName.isEmpty
  let isFileData := match object.binaryData with
    | some fileData => !fileData.isEmpty
    | none => false
  if isSyncFileName && isFileData then
    let fileData := object.binaryData.getD []
    if freeSpace > fileData.length then
      if (Table.find syncFileName core.fs.files).isNone && !(core.fs.dirs.contains syncFileName)
      then
        match core.getApplication sessionKey with
        | none => none
        | some app =>
          if core.fs.dirs.contains (appDirectory app) then
            let files := Table.insert (appFilePath app syncFileName) fileData core.fs.files
            let core := { core with fs := { core.fs with files := files } }
            some (core.sendRPCMessage
              (.response .V2 .PutFile true .SUCCESS (.spaceAvailable freeSpace)) sessionKey)
          else
            some (core.sendRPCMessage
              (.response .V2 .PutFile false .GENERIC_ERROR (.spaceAvailable freeSpace))
              sessionKey)
      else
        some (core.sendRPCMessage
          (.response .V2 .PutFile false .GENERIC_ERROR (.spaceAvailable freeSpace)) sessionKey)
    else
      some (core.sendRPCMessage
        (.response .V2 .PutFile false .GENERIC_ERROR (.spaceAvailable freeSpace)) sessionKey)
  else
    some (core.sendRPCMessage
      (.response .V2 .PutFile false .INVALID_DATA (.spaceAvailable freeSpace)) sessionKey)

/-- `case DeleteFileID` (v2): the application is dereferenced without a null check. -/
def v2DeleteFile (core : World) (sessionKey : Int) (syncFileName : String) : Option World :=
  let freeSpace := core.fs.free
  if !syncFileName.isEmpty then
    match core.getApplication sessionKey with
    | none => none
    | some app =>
      let path := appFilePath app syncFileName
      if (Table.find path core.fs.files).isNone then
        some (core.sendRPCMessage
          (.response .V2 .DeleteFile false .GENERIC_ERROR (.spaceAvailable freeSpace))
          sessionKey)
      else
        let core := { core with fs := { core.fs with files := Table.erase path core.fs.files } }
        some (core.sendRPCMessage
          (.response .V2 .DeleteFile true .SUCCESS (.spaceAvailable freeSpace)) sessionKey)
  else
    some (core.sendRPCMessage
      (.response .V2 .DeleteFile false .INVALID_DATA (.spaceAvailable freeSpace)) sessionKey)

/-- `case ListFilesID` (v2): the application is dereferenced without a null check, and
`memset(dirElement, 0, sizeof(dirent))` then writes through `dirElement`, which is `NULL`:
no path of this case has defined behaviour. -/
def v2ListFiles (core : World) (sessionKey : Int) : Option World :=
  match core.getApplication sessionKey with
  | none => none
  | some _ => none

/-- `case SliderID` (v2). -/
def v2Slider (core : World) (sessionKey : Int) (request : Slider_request) : Option World :=
  some (core.issue (.UI_Slider sessionKey request) sessionKey)

/-- `case SetAppIconID` (v2). -/
def v2SetAppIcon (core : World) (sessionKey : Int) (syncFileName : String) : Option World :=
  match core.getApplication sessionKey with
  | none => some core
  | some app => some (core.issue (.UI_SetAppIcon app.mAppID syncFileName) sessionKey)

/-- `case ScrollableMessageID` (v2). -/
def v2ScrollableMessage (core : World) (sessionKey : Int)
    (request : ScrollableMessage_request) : Option World :=
  match core.getApplication sessionKey with
  | none => some core
  | some app => some (core.issue (.UI_ScrollableMessage app.mAppID request) sessionKey)

/-- `case EncodedSyncPDataID` (v2): the application is dereferenced without a null check. -/
def v2EncodedSyncPData (core : World) (sessionKey : Int) (data : List String) :
    Option World :=
  match core.getApplication sessionKey with
  | none => none
  | some _ =>
    let core := core.setPData data
    some (core.sendRPCMessage (mkResponse .V2 .EncodedSyncPData true .SUCCESS) sessionKey)

/-- `case SetGlobalPropertiesID` (v2). -/
def v2SetGlobalProperties (core : World) (sessionKey : Int)
    (object : SetGlobalProperties_request) : Option World :=
  let core := core.issue (.UI_SetGlobalProperties sessionKey object) sessionKey
  some (core.sendRPCMessage (mkResponse .V2 .SetGlobalProperties true .SUCCESS) sessionKey)

/-- `case ResetGlobalPropertiesID` (v2). -/
def v2ResetGlobalProperties (core : World) (sessionKey : Int) (properties : List Nat) :
    Option World :=
  let core := core.issue (.UI_ResetGlobalProperties sessionKey properties) sessionKey
  some (core.sendRPCMessage (mkResponse .V2 .ResetGlobalProperties true .SUCCESS) sessionKey)

/-- `case AlertID` (v2). -/
def v2Alert (core : World) (sessionKey : Int) (object : Alert_request) : Option World :=
  some (core.issue (.UI_Alert sessionKey object) sessionKey)

/-- `case PerformInteractionID` (v2). The case ends without `break`: after
`sendRequest(performInteraction)` control runs into `case AlertID`. -/
def v2PerformInteraction (core : World) (sessionKey : Int)
    (object : PerformInteraction_request) (alert : Alert_request) : Option World :=
  match core.getApplication sessionKey with
  | none =>
    some (core.sendRPCMessage
      (mkResponse .V2 .PerformInteraction false .APPLICATION_NOT_REGISTERED) sessionKey)
  | some app =>
    let choiceSets := object.interactionChoiceSetIDList
    if choiceSets.all (fun choiceSetId => (app.findChoiceSet choiceSetId).isSome) then
      let core := core.issue (.UI_PerformInteraction sessionKey object) sessionKey
      v2Alert core sessionKey alert
    else
      some (core.sendRPCMessage
        (mkResponse .V2 .PerformInteraction false .INVALID_DATA) sessionKey)

/-- The fields of the `UI::Show` request built by `case ShowID` (v2), statement by
statement. `mainField3` and `mainField4` are written with `set_mainField1`. -/
def v2ShowRequest (object : Show_request) : Show_request :=
  let showRPC2Request : Show_request := {}
  let showRPC2Request := match object.mainField1 with
    | some x => { showRPC2Request with mainField1 := some x }
    | none => showRPC2Request
  let showRPC2Request := match object.mainField2 with
    | some x => { showRPC2Request with mainField2 := some x }
    | none => showRPC2Request
  let showRPC2Request := match object.mainField3 with
    | some x => { showRPC2Request with mainField1 := some x }
    | none => showRPC2Request
  let showRPC2Request := match object.mainField4 with
    | some x => { showRPC2Request with mainField1 := some x }
    | none => showRPC2Request
  let showRPC2Request := match object.mediaClock with
    | some x => { showRPC2Request with mediaClock := some x }
    | none => showRPC2Request
  let showRPC2Request := match object.mediaTrack with
    | some x => { showRPC2Request with mediaTrack := some x }
    | none => showRPC2Request
  let showRPC2Request := match object.statusBar with
    | some x => { showRPC2Request with statusBar := some x }
    | none => showRPC2Request
  let showRPC2Request := match object.graphic with
    | some x => { showRPC2Request with graphic := some x }
    | none => showRPC2Request
  let showRPC2Request := match object.softButtons with
    | some x => { showRPC2Request with softButtons := some x }
    | none => showRPC2Request
  let showRPC2Request := match object.customPresets with
    | some x => { showRPC2Request with customPresets := some x }
    | none => showRPC2Request
  match object.alignment with
    | some x => { showRPC2Request with alignment := some x }
    | none => showRPC2Request

/-- `case ShowID` (v2): no lookup of the application precedes the request. -/
def v2Show (core : World) (sessionKey : Int) (object : Show_request) : Option World :=
  let (id, core) := core.getNextMessageId
  let showRPC2Request := v2ShowRequest object
  let core := core.addMessage id sessionKey
  some (core.sendRequest { id := id, body := .UI_Show sessionKey showRPC2Request })

/-- `case SpeakID` (v2). -/
def v2Speak (core : World) (sessionKey : Int) (ttsChunks : List TTSChunk) : Option World :=
  some (core.issue (.TTS_Speak sessionKey ttsChunks) sessionKey)

/-- The UI half of `AddCommand` (v2): the menu parameters are rewritten field by field
into the v1 record for the request and stored in `params.menuParamsV2`. -/
def v2AddCommandUI (core : World) (app : Application) (sessionKey : Int) (cmdId : Nat)
    (menuParams : MenuParams) (cmdIcon : Option String) : World × Application :=
  let (id, core) := core.getNextMessageId
  let menuParamsV1 : MenuParams :=
    { menuName := menuParams.menuName, parentID := menuParams.parentID,
      position := menuParams.position }
  let app := match menuParams.parentID with
    | some menuId => app.addMenuCommand cmdId menuId
    | none => app
  let core := core.addMessage id sessionKey
  let params : CommandParams := { menuParamsV2 := some menuParams }
  let app := app.addCommand cmdId .UI params
  let app := app.incrementUnrespondedRequestCount cmdId
  let core := core.addRequest id cmdId
  (core.sendRequest { id := id, body := .UI_AddCommand app.mAppID cmdId menuParamsV1 cmdIcon },
   app)

/-- `case AddCommandID` (v2). -/
def v2AddCommand (core : World) (sessionKey : Int) (object : AddCommand_request) :
    Option World :=
  match core.getApplication sessionKey with
  | none =>
    some (core.sendRPCMessage
      (mkResponse .V2 .AddCommand false .APPLICATION_NOT_REGISTERED) sessionKey)
  | some app =>
    let cmdId := object.cmdID
    let (core, app) := match object.menuParams with
      | some menuParams => v2AddCommandUI core app sessionKey cmdId menuParams object.cmdIcon
      | none => (core, app)
    let (core, app) := match object.vrCommands with
      | some vrCommands => addCommandVR core app sessionKey cmdId vrCommands
      | none => (core, app)
    some (core.putApplication app)

/-- The switch of `handleMobileRPCMessage` for protocol version 2. -/
def handleMobileV2 (core : World) (sessionKey : Int) (currentDeviceName : String)
    (o : V2Object) : Option World :=
  match o with
  | .RegisterAppInterface_request object =>
    v2RegisterAppInterface core sessionKey currentDeviceName object
  | .UnregisterAppInterface_request => v2UnregisterAppInterface core sessionKey
  | .SubscribeButton_request buttonName => v2SubscribeButton core sessionKey buttonName
  | .UnsubscribeButton_request buttonName => v2UnsubscribeButton core sessionKey buttonName
  | .SetMediaClockTimer_request object => setMediaClockTimer core sessionKey object
  | .PutFile_request object => v2PutFile core sessionKey object
  | .DeleteFile_request syncFileName => v2DeleteFile core sessionKey syncFileName
  | .ListFiles_request => v2ListFiles core sessionKey
  | .Slider_request request => v2Slider core sessionKey request
  | .SetAppIcon_request syncFileName => v2SetAppIcon core sessionKey syncFileName
  | .ScrollableMessage_request request => v2ScrollableMessage core sessionKey request
  | .EncodedSyncPData_request data => v2EncodedSyncPData core sessionKey data
  | .SetGlobalProperties_request object => v2SetGlobalProperties core sessionKey object
  | .ResetGlobalProperties_request properties =>
    v2ResetGlobalProperties core sessionKey properties
  | .CreateInteractionChoiceSet_request object =>
    createInteractionChoiceSet .V2 core sessionKey object
  | .DeleteInteractionChoiceSet_request choiceSetId =>
    deleteInteractionChoiceSet .V2 core sessionKey choiceSetId
  | .PerformInteraction_request object alert =>
    v2PerformInteraction core sessionKey object alert
  | .Alert_request object => v2Alert core sessionKey object
  | .Show_request object => v2Show core sessionKey object
  | .Speak_request ttsChunks => v2Speak core sessionKey ttsChunks
  | .AddCommand_request object => v2AddCommand core sessionKey object
  | .DeleteCommand_request cmdID => deleteCommand .V2 core sessionKey cmdID
  | .AddSubMenu_request object => addSubMenu .V2 core sessionKey object
  | .DeleteSubMenu_request menuID => deleteSubMenu .V2 core sessionKey menuID
  | .other _ => genericResponse .V2 core sessionKey

/-- `AppMgrCore::handleMobileRPCMessage(message, pThis)` for a message that is present:
nothing happens unless the session has a device in the device list; then the switch of
the protocol version of the message runs; for any other version nothing happens. -/
def handleMobileRPCMessage (core : World) (mobileMsg : ALRPCMessage) (sessionKey : Int) :
    Option World :=
  match core.currentDevice sessionKey with
  | none => some core
  | some currentDeviceName =>
    match mobileMsg with
    | .v1 o => handleMobileV1 core sessionKey currentDeviceName o
    | .v2 o => handleMobileV2 core sessionKey currentDeviceName o
    | .unsupported protocolVersion =>
      if protocolVersion = 1 then genericResponse .V1 core sessionKey
      else if protocolVersion = 2 then genericResponse .V2 core sessionKey
      else some core

/-! ## `handleBusRPCMessageIncoming` -/

/-- `NsRPC2Communication::RPC2Command` as received from the HMI, tagged by its method.
`Invalid` is `METHOD_INVALID`; `Other` is any method without a case. -/
inductive RPC2Command where
  | Invalid
  | Buttons_OnButtonEvent (name mode : Nat) (customButtonID : Option Nat)
  | Buttons_OnButtonPress (name mode : Nat) (customButtonID : Option Nat)
  | Buttons_GetCapabilitiesResponse (capabilities : List ButtonCapabilities)
      (presetBankCapabilities : Option Nat)
  | UI_OnReady
  | UI_GetCapabilitiesResponse (displayCapabilities hmiZoneCapabilities : List Nat)
      (softButtonCapabilities : Option (List Nat))
  | UI_GetLanguageResponse (hmiDisplayLanguage : Nat)
  | UI_OnCommand (commandId : Nat)
  | UI_ShowResponse (id : Nat) (result : Result)
  | UI_SetGlobalPropertiesResponse (id : Nat) (result : Result)
  | UI_ResetGlobalPropertiesResponse (id : Nat) (result : Result)
  | UI_AlertResponse (id : Nat) (result : Result) (tryAgainTime : Option Nat)
  | UI_AddCommandResponse (id : Nat) (result : Result)
  | UI_DeleteCommandResponse (id : Nat) (result : Result)
  | UI_AddSubMenuResponse (id : Nat) (result : Result)
  | UI_DeleteSubMenuResponse (id : Nat) (result : Result)
  | UI_CreateInteractionChoiceSetResponse (id : Nat) (result : Result)
  | UI_DeleteInteractionChoiceSetResponse (id : Nat) (result : Result)
  | UI_PerformInteractionResponse (id : Nat) (result : Result) (choiceID : Option Nat)
      (triggerSource : Option Nat)
  | UI_SetMediaClockTimerResponse (id : Nat) (result : Result)
  | UI_OnDriverDistraction (state : Nat)
  | UI_OnSystemContext (systemContext : SystemContext)
  | UI_SliderResponse (id : Nat) (result : Result) (sliderPosition : Nat)
  | UI_SetAppIconResponse (id : Nat) (result : Result)
  | UI_ScrollableMessageResponse (id : Nat) (result : Result)
  | UI_OnDeviceChosen (deviceName : String)
  | VR_GetCapabilitiesResponse (capabilities : List Nat)
  | VR_GetLanguageResponse (language : Nat)
  | VR_AddCommandResponse (id : Nat) (result : Result)
  | VR_DeleteCommandResponse (id : Nat) (result : Result)
  | VR_OnCommand (cmdID : Nat)
  | TTS_GetCapabilitiesResponse (capabilities : List Nat)
  | TTS_GetLanguageResponse (language : Nat)
  | TTS_SpeakResponse (id : Nat) (result : Result)
  | AppLinkCore_ActivateApp (id : Nat) (appName : String)
  | AppLinkCore_DeactivateApp
  | AppLinkCore_SendData (id : Nat) (data : List String) (url : Option String)
      (timeout : Option Int)
  | AppLinkCore_GetAppList (id : Nat)
  | AppLinkCore_GetDeviceList (id : Nat)
  | VehicleInfo_GetVehicleTypeResponse (vehicleType : Nat)
  | Other
  deriving DecidableEq, Repr

/-- `case ...BUTTONS__ONBUTTONEVENT`. -/
def busOnButtonEvent (core : World) (name mode : Nat) (customButtonID : Option Nat) :
    Option World :=
  match core.findRegistryItemSubscribedToButton name with
  | none => some core
  | some app =>
    let appId := app.mAppID
    match app.protocolVersion with
    | .V1 => some (core.sendRPCMessage (.OnButtonEvent .V1 name mode none) appId)
    | .V2 =>
      some (core.sendRPCMessage
        (.OnButtonEvent .V2 name mode (some (customButtonID.getD 0))) appId)

/-- `case ...BUTTONS__ONBUTTONPRESS`. -/
def busOnButtonPress (core : World) (name mode : Nat) (customButtonID : Option Nat) :
    Option World :=
  match core.findRegistryItemSubscribedToButton name with
  | none => some core
  | some app =>
    let appId := app.mAppID
    match app.protocolVersion with
    | .V1 => some (core.sendRPCMessage (.OnButtonPress .V1 name mode none) appId)
    | .V2 =>
      some (core.sendRPCMessage
        (.OnButtonPress .V2 name mode (some (customButtonID.getD 0))) appId)

/-- `case ...UI__ONREADY`: the eight capability and language queries, none given an id. -/
def busOnReady (core : World) : Option World :=
  let core := { core with hmiReady := true }
  let d := core.cfg.defaultRequestId
  let core := core.sendRequest { id := d, body := .UI_GetCapabilities }
  let core := core.sendRequest { id := d, body := .VR_GetCapabilities }
  let core := core.sendRequest { id := d, body := .TTS_GetCapabilities }
  let core := core.sendRequest { id := d, body := .Buttons_GetCapabilities }
  let core := core.sendRequest { id := d, body := .VehicleInfo_GetVehicleType }
  let core := core.sendRequest { id := d, body := .UI_GetLanguage }
  let core := core.sendRequest { id := d, body := .VR_GetLanguage }
  some (core.sendRequest { id := d, body := .TTS_GetLanguage })

/-- `case ...UI__ONCOMMAND` and `case ...VR__ONCOMMAND`; the trigger source is `TS_MENU`
for the first and `TS_VR` for the second. -/
def busOnCommand (core : World) (commandId : Nat) (triggerSource : TriggerSource) :
    Option World :=
  match core.registry.getApplicationByCommand commandId with
  | none => some core
  | some app =>
    let appId := app.mAppID
    match app.protocolVersion with
    | .V1 => some (core.sendRPCMessage (.OnCommand .V1 commandId triggerSource) appId)
    | .V2 => some (core.sendRPCMessage (.OnCommand .V2 commandId triggerSource) appId)

/-- `case ...UI__SHOWRESPONSE`. -/
def busShowResponse (core : World) (id : Nat) (result : Result) : Option World :=
  match core.findRegistryItemAssignedToCommand id with
  | none => some core
  | some app =>
    let appId := app.mAppID
    match app.protocolVersion with
    | .V1 =>
      let response := MobileMessage.response .V1 .Show true result .empty
      let core := core.removeMessage id
      some (core.sendRPCMessage response appId)
    | .V2 =>
      let response := MobileMessage.response .V2 .Show true result .empty
      let core := core.removeMessage id
      some (core.sendRPCMessage response appId)

/-- The cases that answer one mobile request from one HMI response
(`SetGlobalProperties`, `ResetGlobalProperties`, `Alert`, `AddSubMenu`, `DeleteSubMenu`,
`CreateInteractionChoiceSet`, `DeleteInteractionChoiceSet`, `PerformInteraction`,
`SetMediaClockTimer`, `Speak`): resolve the application, build the response of its
protocol version with `success = true` and the HMI result, remove the message, send. -/
def busSimpleResponse (core : World) (name : ResponseName) (id : Nat) (result : Result)
    (extraV1 extraV2 : ResponseExtra) : Option World :=
  match core.findRegistryItemAssignedToCommand id with
  | none => some core
  | some app =>
    let appId := app.mAppID
    match app.protocolVersion with
    | .V1 =>
      let core := core.removeMessage id
      some (core.sendRPCMessage (.response .V1 name true result extraV1) appId)
    | .V2 =>
      let core := core.removeMessage id
      some (core.sendRPCMessage (.response .V2 name true result extraV2) appId)

/-- `case ...UI__ADDCOMMANDRESPONSE`, `...UI__DELETECOMMANDRESPONSE`,
`...VR__ADDCOMMANDRESPONSE`, `...VR__DELETECOMMANDRESPONSE`: decrement the counter of the
command; at zero send the response and remove the request; always remove the message. -/
def busCommandResponse (core : World) (name : ResponseName) (id : Nat) (result : Result) :
    Option World :=
  match core.findRegistryItemAssignedToCommand id with
  | none => some core
  | some app =>
    let appId := app.mAppID
    let cmdId := core.findRequestIdAssignedToMessage id
    let app := app.decrementUnrespondedRequestCount cmdId
    let core := core.putApplication app
    let core :=
      if app.getUnrespondedRequestCount cmdId = 0 then
        match app.protocolVersion with
        | .V1 =>
          let core := core.removeRequest id
          core.sendRPCMessage (.response .V1 name true result .empty) appId
        | .V2 =>
          let core := core.removeRequest id
          core.sendRPCMessage (.response .V2 name true result .empty) appId
      else core
    some (core.removeMessage id)

/-- `case ...UI__ONDRIVERDISTRACTION`. -/
def busOnDriverDistraction (core : World) (state : Nat) : Option World :=
  match core.registry.getActiveItem with
  | none => some core
  | some app =>
    let appId := app.mAppID
    let core := { core with mDriverDistractionV1 := some state }
    let core := { core with mDriverDistractionV2 := some state }
    match app.protocolVersion with
    | .V1 => some (core.sendRPCMessage (.OnDriverDistraction .V1 state) appId)
    | .V2 => some (core.sendRPCMessage (.OnDriverDistraction .V2 state) appId)

/-- `case ...UI__ONSYSTEMCONTEXT`. -/
def busOnSystemContext (core : World) (systemContext : SystemContext) : Option World :=
  match core.registry.getActiveItem with
  | none => some core
  | some app =>
    let appId := app.mAppID
    match app.protocolVersion with
    | .V1 =>
      if systemContext = SystemContext.SYSCTXT_MAIN then
        let app := { app with systemContext := systemContext }
        let core := core.putApplication app
        some (core.sendRPCMessage
          (.OnHMIStatus .V1 HMILevel.HMI_FULL app.audioStreamingState systemContext) appId)
      else some core
    | .V2 =>
      if systemContext = SystemContext.SYSCTXT_MAIN then
        let app := { app with systemContext := systemContext }
        let core := core.putApplication app
        some (core.sendRPCMessage
          (.OnHMIStatus .V2 HMILevel.HMI_FULL app.audioStreamingState app.systemContext)
          appId)
      else some core

/-- `case ...UI__SLIDERRESPONSE`, `...UI__SETAPPICONRESPONSE`,
`...UI__SCROLLABLEMESSAGERESPONSE`: a v2 response whatever the class of the application;
`success` is given by the caller. -/
def busV2OnlyResponse (core : World) (name : ResponseName) (id : Nat) (success : Bool)
    (result : Result) (extra : ResponseExtra) : Option World :=
  match core.findRegistryItemAssignedToCommand id with
  | none => some core
  | some app =>
    let appId := app.mAppID
    let core := core.removeMessage id
    some (core.sendRPCMessage (.response .V2 name success result extra) appId)

/-- `case ...UI__ONDEVICECHOSEN`. -/
def busOnDeviceChosen (core : World) (deviceName : String) : Option World :=
  match core.mDeviceList.find? (fun d => decide (d.2 = deviceName)) with
  | some device => some { core with sent := core.sent ++ [Out.connectToDevice device.1] }
  | none => some core

/-- The replay of the choice sets of the activated application (the loops of `case 1` and
`case 2` issue the same request; the v2 choices are rewritten field by field). -/
def replayChoiceSets (core : World) (app : Application) (appId : Int) :
    List (Nat × ChoiceSet) → World
  | [] => core
  | (choiceSetId, choiceSet) :: rest =>
    replayChoiceSets
      (core.issue (.UI_CreateInteractionChoiceSet app.mAppID choiceSetId choiceSet) appId)
      app appId rest

/-- The replay of the menus of the activated application. -/
def replayMenus (core : World) (app : Application) (appId : Int) :
    List (Nat × (String × Option Nat)) → World
  | [] => core
  | (menuId, (menuName, position)) :: rest =>
    replayMenus (core.issue (.UI_AddSubMenu app.mAppID menuId menuName position) appId)
      app appId rest

/-- The replay of the commands of the activated application. A UI command reads
`*params.menuParams` and a VR command `*params.vrCommands`; where the member was never
assigned the dereference has no defined result. -/
def replayCommands (core : World) (app : Application) (appId : Int) :
    List ((Nat × CommandType) × CommandParams) → Option World
  | [] => some core
  | ((cmdId, type), params) :: rest =>
    match type with
    | .UI =>
      match params.menuParams with
      | none => none
      | some menuParams =>
        replayCommands (core.issue (.UI_AddCommand app.mAppID cmdId menuParams none) appId)
          app appId rest
    | .VR =>
      match params.vrCommands with
      | none => none
      | some vrCommands =>
        replayCommands (core.issue (.VR_AddCommand app.mAppID cmdId vrCommands) appId)
          app appId rest
    | .UNDEFINED => replayCommands core app appId rest

/-- The last switch of `case ...APPLINKCORE__ACTIVATEAPP`: set the audio state, send
`OnHMIStatus(FULL)`, answer the bus, replay the cached driver distraction. -/
def activateAppNotify (core : World) (app : Application) (appId : Int) (id : Nat) : World :=
  let state := if app.isMediaApplication then AudioStreamingState.AUDIBLE
    else AudioStreamingState.NOT_AUDIBLE
  let registry := core.registry.modify app.mAppID
    (fun a => { a with audioStreamingState := state })
  let core := { core with registry := registry }
  match app.protocolVersion with
  | .V1 =>
    let core := core.sendRPCMessage
      (.OnHMIStatus .V1 HMILevel.HMI_FULL state app.systemContext) appId
    let core := core.sendResponse (.ActivateAppResponse id .SUCCESS)
    match core.mDriverDistractionV1 with
    | some s => core.sendRPCMessage (.OnDriverDistraction .V1 s) appId
    | none => core
  | .V2 =>
    let core := core.sendRPCMessage
      (.OnHMIStatus .V2 HMILevel.HMI_FULL state app.systemContext) appId
    let core := core.sendResponse (.ActivateAppResponse id .SUCCESS)
    match core.mDriverDistractionV2 with
    | some s => core.sendRPCMessage (.OnDriverDistraction .V2 s) appId
    | none => core

/-- `case ...APPLINKCORE__ACTIVATEAPP` from `AppMgrRegistry::activateApp` on. -/
def activateAppAndReplay (core : World) (app : Application) (appId : Int) (id : Nat) :
    Option World :=
  match core.registry.activateApp app.mAppID with
  | (false, _) => some (core.sendResponse (.ActivateAppResponse id .GENERIC_ERROR))
  | (true, registry) =>
    let core := { core with registry := registry }
    let core := replayChoiceSets core app appId app.getAllChoiceSets
    let core := replayMenus core app appId app.getAllMenus
    match replayCommands core app appId app.getAllCommands with
    | none => none
    | some core => some (activateAppNotify core app appId id)

/-- `case ...APPLINKCORE__ACTIVATEAPP`: the first application of that name; if another
application is active, `removeAppFromHmi(currentApp, appId)` with `appId` the id of the
application being activated. -/
def busActivateApp (core : World) (id : Nat) (appName : String) : Option World :=
  match core.registry.getItems appName with
  | [] => some (core.sendResponse (.ActivateAppResponse id .INVALID_DATA))
  | app :: _ =>
    let appId := app.mAppID
    match core.registry.getActiveItem with
    | none => activateAppAndReplay core app appId id
    | some currentApp =>
      if currentApp.mAppID = app.mAppID then
        some (core.sendResponse (.ActivateAppResponse id .GENERIC_ERROR))
      else
        let core := removeAppFromHmi core currentApp appId
        activateAppAndReplay core app appId id

/-- `case ...APPLINKCORE__SENDDATA`. `pthread_create` is given a null `pthread_t*`; the
embedding records the start of the sending thread and takes its return code from the
configuration. -/
def busSendData (core : World) (id : Nat) (data : List String) (url : Option String)
    (timeout : Option Int) : Option World :=
  let core := { core with mSyncPManager := { core.mSyncPManager with rawData := data } }
  match core.registry.getActiveItem with
  | none => some core
  | some app =>
    let appId := app.mAppID
    match app.protocolVersion with
    | .V1 =>
      let core := core.sendRPCMessage (.OnEncodedSyncPData .V1 core.mSyncPManager.pData) appId
      some (core.sendResponse (.SendDataResponse id .SUCCESS))
    | .V2 =>
      match url with
      | some u =>
        if core.cfg.threadCreateFails then
          some (core.sendResponse (.SendDataResponse id .GENERIC_ERROR))
        else
          let started := Out.startSendPData u (timeout.getD 0) core.mSyncPManager.pData
          let core := { core with sent := core.sent ++ [started] }
          some (core.sendResponse (.SendDataResponse id .SUCCESS))
      | none =>
        let core := core.sendRPCMessage
          (.OnEncodedSyncPData .V2 core.mSyncPManager.pData) appId
        some (core.sendResponse (.SendDataResponse id .SUCCESS))

/-- `case ...APPLINKCORE__GETAPPLIST`. -/
def busGetAppList (core : World) (id : Nat) : Option World :=
  let hmiApps := core.registry.items.map (fun app =>
    ({ appName := app.mName, ngnMediaScreenAppName := app.ngnMediaScreenAppName,
       appId := app.mAppID, isMediaApplication := app.isMediaApplication } : HMIApplication))
  if !hmiApps.isEmpty then
    some (core.sendResponse (.GetAppListResponse id .SUCCESS hmiApps))
  else
    some (core.sendResponse (.GetAppListResponse id .GENERIC_ERROR []))

/-- `case ...APPLINKCORE__GETDEVICELIST`. -/
def busGetDeviceList (core : World) (id : Nat) : Option World :=
  let list := core.mDeviceList.map Prod.snd
  let core := { core with sent := core.sent ++ [Out.startDevicesDiscovery] }
  if list.isEmpty then
    some (core.sendResponse (.GetDeviceListResponse id .GENERIC_ERROR [""]))
  else
    some (core.sendResponse (.GetDeviceListResponse id .SUCCESS list))

/-- `AppMgrCore::handleBusRPCMessageIncoming(msg, pThis)` for a message that is present.
The source walks six switches in turn; a method has a case in at most one of them. -/
def handleBusRPCMessageIncoming (core : World) (msg : RPC2Command) : Option World :=
  match msg with
  | .Invalid => some core
  | .Buttons_OnButtonEvent name mode customButtonID =>
    busOnButtonEvent core name mode customButtonID
  | .Buttons_OnButtonPress name mode customButtonID =>
    busOnButtonPress core name mode customButtonID
  | .Buttons_GetCapabilitiesResponse capabilities presetBankCapabilities =>
    let caps := { core.caps with buttonCapabilities := capabilities }
    let caps := match presetBankCapabilities with
      | some p => { caps with presetBankCapabilities := some p }
      | none => caps
    some { core with caps := caps }
  | .UI_OnReady => busOnReady core
  | .UI_GetCapabilitiesResponse displayCapabilities hmiZoneCapabilities softButtons =>
    let caps := { core.caps with displayCapabilities := displayCapabilities,
                                 hmiZoneCapabilities := hmiZoneCapabilities }
    let caps := match softButtons with
      | some b => { caps with softButtonCapabilities := b }
      | none => caps
    some { core with caps := caps }
  | .UI_GetLanguageResponse lang => some { core with caps := { core.caps with uiLanguage := lang } }
  | .UI_OnCommand commandId => busOnCommand core commandId .TS_MENU
  | .UI_ShowResponse id result => busShowResponse core id result
  | .UI_SetGlobalPropertiesResponse id result =>
    busSimpleResponse core .SetGlobalProperties id result .empty .empty
  | .UI_ResetGlobalPropertiesResponse id result =>
    busSimpleResponse core .ResetGlobalProperties id result .empty .empty
  | .UI_AlertResponse id result tryAgainTime =>
    busSimpleResponse core .Alert id result .empty (.tryAgainTime tryAgainTime)
  | .UI_AddCommandResponse id result => busCommandResponse core .AddCommand id result
  | .UI_DeleteCommandResponse id result => busCommandResponse core .DeleteCommand id result
  | .UI_AddSubMenuResponse id result =>
    busSimpleResponse core .AddSubMenu id result .empty .empty
  | .UI_DeleteSubMenuResponse id result =>
    busSimpleResponse core .DeleteSubMenu id result .empty .empty
  | .UI_CreateInteractionChoiceSetResponse id result =>
    busSimpleResponse core .CreateInteractionChoiceSet id result .empty .empty
  | .UI_DeleteInteractionChoiceSetResponse id result =>
    busSimpleResponse core .DeleteInteractionChoiceSet id result .empty .empty
  | .UI_PerformInteractionResponse id result choiceID triggerSource =>
    busSimpleResponse core .PerformInteraction id result
      (.interaction choiceID triggerSource) (.interaction choiceID triggerSource)
  | .UI_SetMediaClockTimerResponse id result =>
    busSimpleResponse core .SetMediaClockTimer id result .empty .empty
  | .UI_OnDriverDistraction state => busOnDriverDistraction core state
  | .UI_OnSystemContext systemContext => busOnSystemContext core systemContext
  | .UI_SliderResponse id result sliderPosition =>
    busV2OnlyResponse core .Slider id true result (.sliderPosition sliderPosition)
  | .UI_SetAppIconResponse id result =>
    busV2OnlyResponse core .SetAppIcon id (decide (result = Result.SUCCESS)) result .empty
  | .UI_ScrollableMessageResponse id result =>
    busV2OnlyResponse core .ScrollableMessage id (decide (result = Result.SUCCESS)) result
      .empty
  | .UI_OnDeviceChosen deviceName => busOnDeviceChosen core deviceName
  | .VR_GetCapabilitiesResponse capabilities =>
    some { core with caps := { core.caps with vrCapabilities := capabilities } }
  | .VR_GetLanguageResponse lang => some { core with caps := { core.caps with vrLanguage := lang } }
  | .VR_AddCommandResponse id result => busCommandResponse core .AddCommand id result
  | .VR_DeleteCommandResponse id result => busCommandResponse core .DeleteCommand id result
  | .VR_OnCommand cmdID => busOnCommand core cmdID .TS_VR
  | .TTS_GetCapabilitiesResponse capabilities =>
    some { core with caps := { core.caps with speechCapabilities := capabilities } }
  | .TTS_GetLanguageResponse lang => some { core with caps := { core.caps with ttsLanguage := lang } }
  | .TTS_SpeakResponse id result => busSimpleResponse core .Speak id result .empty .empty
  | .AppLinkCore_ActivateApp id appName => busActivateApp core id appName
  | .AppLinkCore_DeactivateApp => some core
  | .AppLinkCore_SendData id data url timeout => busSendData core id data url timeout
  | .AppLinkCore_GetAppList id => busGetAppList core id
  | .AppLinkCore_GetDeviceList id => busGetDeviceList core id
  | .VehicleInfo_GetVehicleTypeResponse vehicleType =>
    some { core with caps := { core.caps with vehicleType := vehicleType } }
  | .Other => some core

/-! ## Runs -/

/-- What the process can be handed: a mobile message with its session key, an HMI
message, or a call of the connection handler. -/
inductive Event where
  | mobile (msg : ALRPCMessage) (sessionKey : Int)
  | bus (msg : RPC2Command)
  | setDeviceList (deviceList : List (Nat × String))
  | addDevice (sessionKey : Int) (device : Nat)
  | removeDevice (sessionKey : Int)
  deriving DecidableEq, Repr

/-- Handle one event. -/
def step (core : World) : Event → Option World
  | .mobile msg sessionKey => handleMobileRPCMessage core msg sessionKey
  | .bus msg => handleBusRPCMessageIncoming core msg
  | .setDeviceList deviceList => some (setDeviceList core deviceList)
  | .addDevice sessionKey device => some (addDevice core sessionKey device)
  | .removeDevice sessionKey => some (removeDevice core sessionKey)

/-- Handle a sequence of events, oldest first; `none` once a handler has no defined
result. -/
def run (core : World) : List Event → Option World
  | [] => some core
  | e :: rest =>
    match step core e with
    | none => none
    | some core => run core rest

/-! ## Vocabulary of the statements -/

/-- How many HMI sub-requests an `AddCommand` fans out to: one for `menuParams`, one for
`vrCommands`. -/
def AddCommand_request.parts (o : AddCommand_request) : Nat :=
  (if o.menuParams.isSome then 1 else 0) + (if o.vrCommands.isSome then 1 else 0)

/-- The mobile response class and the id of an HMI answer to a command sub-request
(`UI.AddCommandResponse`, `VR.AddCommandResponse`, `UI.DeleteCommandResponse`,
`VR.DeleteCommandResponse`). -/
def RPC2Command.commandAnswer : RPC2Command → Option (ResponseName × Nat)
  | .UI_AddCommandResponse id _ => some (.AddCommand, id)
  | .VR_AddCommandResponse id _ => some (.AddCommand, id)
  | .UI_DeleteCommandResponse id _ => some (.DeleteCommand, id)
  | .VR_DeleteCommandResponse id _ => some (.DeleteCommand, id)
  | _ => none

/-- Whether something sent is an `AddCommand_response` or a `DeleteCommand_response`. -/
def Out.isCommandResponse : Out → Bool
  | .mobile _ (.response _ .AddCommand _ _ _) => true
  | .mobile _ (.response _ .DeleteCommand _ _ _) => true
  | _ => false

/-- The `AddCommand_response` and `DeleteCommand_response` messages among what was sent. -/
def commandResponses (sent : List Out) : List Out :=
  sent.filter Out.isCommandResponse

/-- Whether something sent is a message to a mobile session. -/
def Out.isMobile : Out → Bool
  | .mobile _ _ => true
  | _ => false

/-- The command types that `DeleteCommand` issues a sub-request for. -/
def CommandType.isKnown : CommandType → Bool
  | .UI => true
  | .VR => true
  | .UNDEFINED => false

/-- `SubRequests core key c app k w app1`: world `w` and local application `app1` arise
from `core` and `app` by issuing `k` sub-requests for command `c` of session `key`: the
ids are the next `k` of the allocator, each recorded for `key` and `c`; the counter of `c`
went up `k` times; older entries, the registry and the identity of the application are
untouched; only HMI requests were sent. -/
structure SubRequests (core : World) (key : Int) (c : Nat) (app : Application) (k : Nat)
    (w : World) (app1 : Application) : Prop where
  next : w.nextMessageId = core.nextMessageId + k
  registry : w.registry = core.registry
  appId : app1.mAppID = app.mAppID
  version : app1.protocolVersion = app.protocolVersion
  level : app1.hmiStatusLevel = app.hmiStatusLevel
  count : app1.getUnrespondedRequestCount c = u32Inc^[k] (app.getUnrespondedRequestCount c)
  recorded : ∀ i ∈ List.range' core.nextMessageId k,
    Table.find i w.mMessageMapping = some key ∧ Table.find i w.mRequestMapping = some c
  older : ∀ i, i < core.nextMessageId →
    Table.find i w.mMessageMapping = Table.find i core.mMessageMapping
    ∧ Table.find i w.mRequestMapping = Table.find i core.mRequestMapping
  sent : ∃ rs : List RPC2Request, w.sent = core.sent ++ rs.map Out.request
    ∧ rs.map RPC2Request.id = List.range' core.nextMessageId k

/-- Whether something sent is an HMI request. -/
def Out.isRequest : Out → Bool
  | .request _ => true
  | _ => false

/-- Whether something sent is an `OnHMIStatus` with `hmiLevel = BACKGROUND`. -/
def Out.isBackgroundStatus : Out → Bool
  | .mobile _ (.OnHMIStatus _ HMILevel.HMI_BACKGROUND _ _) => true
  | _ => false

/-- Whether an event is a mobile AddCommand or DeleteCommand request for command `c`. -/
def Event.isCommandRequest (c : Nat) : Event → Bool
  | .mobile (.v1 (.AddCommand_request o)) _ => decide (o.cmdID = c)
  | .mobile (.v2 (.AddCommand_request o)) _ => decide (o.cmdID = c)
  | .mobile (.v1 (.DeleteCommand_request cmdID)) _ => decide (cmdID = c)
  | .mobile (.v2 (.DeleteCommand_request cmdID)) _ => decide (cmdID = c)
  | _ => false

/-- The session keys of the registry with the HMI level of each application. -/
def AppMgrRegistry.levels (r : AppMgrRegistry) : List (Int × HMILevel) :=
  r.items.map (fun a => (a.mAppID, a.hmiStatusLevel))

/-- The applications of the registry at HMI level FULL. -/
def AppMgrRegistry.fullItems (r : AppMgrRegistry) : List Application :=
  r.items.filter (fun a => decide (a.hmiStatusLevel = HMILevel.HMI_FULL))

/-- A registry is consistent when it holds one application per session key and every
application at HMI level FULL is the one under the active pointer. -/
def AppMgrRegistry.Consistent (r : AppMgrRegistry) : Prop :=
  (r.levels.map Prod.fst).Nodup
    ∧ ∀ p ∈ r.levels, p.2 = HMILevel.HMI_FULL → r.active = some p.1

/-- What handling one mobile message sends, oldest first. -/
def emitted (core : World) (msg : ALRPCMessage) (sessionKey : Int) : Option (List Out) :=
  (handleMobileRPCMessage core msg sessionKey).map (fun w => w.sent.drop core.sent.length)

/-- What handling one HMI message sends, oldest first. -/
def emittedBus (core : World) (msg : RPC2Command) : Option (List Out) :=
  (handleBusRPCMessageIncoming core msg).map (fun w => w.sent.drop core.sent.length)

/-- Whether something sent is a mobile response with
`resultCode = APPLICATION_NOT_REGISTERED`. -/
def Out.isNotRegistered : Out → Bool
  | .mobile _ (.response _ _ _ .APPLICATION_NOT_REGISTERED _) => true
  | _ => false

/-- Whether something sent is a mobile response with `resultCode = REJECTED`. -/
def Out.isRejected : Out → Bool
  | .mobile _ (.response _ _ _ .REJECTED _) => true
  | _ => false

/-- The version and the class of the response of the requests UnregisterAppInterface,
SubscribeButton, AddCommand, DeleteCommand, AddSubMenu, DeleteSubMenu,
CreateInteractionChoiceSet, DeleteInteractionChoiceSet and PerformInteraction; `none` for
every other message. -/
def ALRPCMessage.answeredWhenUnregistered :
    ALRPCMessage → Option (ProtocolVersion × ResponseName)
  | .v1 .UnregisterAppInterface_request => some (.V1, .UnregisterAppInterface)
  | .v1 (.SubscribeButton_request _) => some (.V1, .SubscribeButton)
  | .v1 (.AddCommand_request _) => some (.V1, .AddCommand)
  | .v1 (.DeleteCommand_request _) => some (.V1, .DeleteCommand)
  | .v1 (.AddSubMenu_request _) => some (.V1, .AddSubMenu)
  | .v1 (.DeleteSubMenu_request _) => some (.V1, .DeleteSubMenu)
  | .v1 (.CreateInteractionChoiceSet_request _) => some (.V1, .CreateInteractionChoiceSet)
  | .v1 (.DeleteInteractionChoiceSet_request _) => some (.V1, .DeleteInteractionChoiceSet)
  | .v1 (.PerformInteraction_request _) => some (.V1, .PerformInteraction)
  | .v2 .UnregisterAppInterface_request => some (.V2, .UnregisterAppInterface)
  | .v2 (.SubscribeButton_request _) => some (.V2, .SubscribeButton)
  | .v2 (.AddCommand_request _) => some (.V2, .AddCommand)
  | .v2 (.DeleteCommand_request _) => some (.V2, .DeleteCommand)
  | .v2 (.AddSubMenu_request _) => some (.V2, .AddSubMenu)
  | .v2 (.DeleteSubMenu_request _) => some (.V2, .DeleteSubMenu)
  | .v2 (.CreateInteractionChoiceSet_request _) => some (.V2, .CreateInteractionChoiceSet)
  | .v2 (.DeleteInteractionChoiceSet_request _) => some (.V2, .DeleteInteractionChoiceSet)
  | .v2 (.PerformInteraction_request _ _) => some (.V2, .PerformInteraction)
  | _ => none

/-- Whether every command of the application has the member of `CommandParams` that the
replay of its type reads: `menuParams` for a UI command, `vrCommands` for a VR command. -/
def Application.replayable (app : Application) : Bool :=
  app.commands.all (fun c =>
    match c.1.2 with
    | .UI => c.2.menuParams.isSome
    | .VR => c.2.vrCommands.isSome
    | .UNDEFINED => true)

/-- Whether something sent is an `OnDriverDistraction` notification. -/
def Out.isDriverDistraction : Out → Bool
  | .mobile _ (.OnDriverDistraction _ _) => true
  | _ => false

/-- Every HMI request that `w` has sent after `base` has an id below the next id of the
allocator and is recorded in the message mapping for the session key `K`. -/
def World.recordedSince (w : World) (K : Int) (base : List Out) : Prop :=
  ∃ pre, w.sent = base ++ pre
    ∧ ∀ r : RPC2Request, Out.request r ∈ pre →
        r.id < w.nextMessageId ∧ Table.find r.id w.mMessageMapping = some K

/-! ## Sample runs

Concrete inputs at which the statements below are evaluated. -/

/-- A configuration: requests without `setId` carry id 0, an unknown message id resolves
to command id `2^32 - 1`. -/
def sampleConfig : Config :=
  { defaultRequestId := 0, notFoundCmdId := 4294967295,
    initialAudioStreamingState := AudioStreamingState.NOT_AUDIBLE, threadCreateFails := false }

/-- A file system with 100 free bytes. -/
def sampleFileSystem : FileSystem := { free := 100, dirs := [], files := [] }

/-- The process right after start, the id allocator at 1. -/
def sampleStart : World := World.initial sampleConfig sampleFileSystem 1

/-- One device, with the sessions 17 and 18 on it. -/
def sampleDevices : List Event :=
  [.setDeviceList [(1, "phone")], .addDevice 17 1, .addDevice 18 1]

/-- A RegisterAppInterface request for the application `name`. -/
def sampleRegister (name : String) (isMedia : Bool) : RegisterAppInterface_request :=
  { appName := name, isMediaApplication := isMedia, languageDesired := 0,
    syncMsgVersion := (1, 0) }

/-- Session 17 registers "Radio" over protocol v2 and is activated; then it sends a Show
with `mainField1 = "A"` and `mainField3 = "C"`. -/
def sampleShowV2Run : List Event :=
  sampleDevices ++
  [.mobile (.v2 (.RegisterAppInterface_request (sampleRegister "Radio" true))) 17,
   .bus (.AppLinkCore_ActivateApp 5 "Radio"),
   .mobile (.v2 (.Show_request { mainField1 := some "A", mainField3 := some "C" })) 17]

/-- Session 17 registers "Radio" over protocol v1. -/
def sampleRegisteredRun : List Event :=
  sampleDevices ++
  [.mobile (.v1 (.RegisterAppInterface_request (sampleRegister "Radio" true))) 17]

/-- Session 17 registers "Radio" over protocol v1, is activated and sends a Show; the
`UI.Show` request gets id 1. -/
def sampleShowRun : List Event :=
  sampleRegisteredRun ++
  [.bus (.AppLinkCore_ActivateApp 5 "Radio"),
   .mobile (.v1 (.Show_request { mainField1 := some "NOW PLAYING" })) 17]

/-- The world in which the `UI.Show` of session 17, id 1, is in flight. -/
def sampleShown : World := (run sampleStart sampleShowRun).getD sampleStart

/-- The application "Radio" once activated. -/
def sampleRadioActive : Application :=
  { mName := "Radio", mAppID := 17, protocolVersion := .V1, isMediaApplication := true,
    syncMsgVersion := (1, 0), hmiStatusLevel := HMILevel.HMI_FULL,
    audioStreamingState := AudioStreamingState.AUDIBLE }

/-- The world in which session 17 runs the v1 application "Radio". -/
def sampleRegistered : World := (run sampleStart sampleRegisteredRun).getD sampleStart

/-- The application "Radio" as registered in `sampleRegistered`. -/
def sampleRadio : Application :=
  { mName := "Radio", mAppID := 17, protocolVersion := .V1, isMediaApplication := true,
    syncMsgVersion := (1, 0) }

/-- Session 17 registers "Radio" (v1) and sends an AddCommand for command 42 that has
neither `menuParams` nor `vrCommands`. -/
def sampleZeroFanoutRun : List Event :=
  sampleRegisteredRun ++ [.mobile (.v1 (.AddCommand_request { cmdID := 42 })) 17]

/-- An AddCommand for command 42 with a UI part and a VR part. -/
def sampleAddCommand : AddCommand_request :=
  { cmdID := 42, menuParams := some { menuName := "A", parentID := none, position := none },
    vrCommands := some ["hello"] }

/-- Session 17 registers "Radio" (v1), sends the two-part AddCommand for command 42
(HMI ids 1 and 2), and the HMI answers the UI sub-request, id 1. -/
def sampleFirstAnswerRun : List Event :=
  sampleRegisteredRun ++
  [.mobile (.v1 (.AddCommand_request sampleAddCommand)) 17,
   .bus (.UI_AddCommandResponse 1 .SUCCESS)]

/-- Sessions 17 and 18 register the v1 applications "A" and "B"; the HMI activates "A",
then "B". -/
def sampleSwapRun : List Event :=
  sampleDevices ++
  [.mobile (.v1 (.RegisterAppInterface_request (sampleRegister "A" true))) 17,
   .mobile (.v1 (.RegisterAppInterface_request (sampleRegister "B" false))) 18,
   .bus (.AppLinkCore_ActivateApp 5 "A"),
   .bus (.AppLinkCore_ActivateApp 6 "B")]

/-- The world after the HMI has activated "A" and then "B". -/
def sampleSwapped : World := (run sampleStart sampleSwapRun).getD sampleStart

/-- Session 17 registers "A" over v1, session 18 registers "B" over v2 and adds the UI
command 7; the HMI activates "A". -/
def sampleSwapV2Prefix : List Event :=
  sampleDevices ++
  [.mobile (.v1 (.RegisterAppInterface_request (sampleRegister "A" true))) 17,
   .mobile (.v2 (.RegisterAppInterface_request (sampleRegister "B" false))) 18,
   .mobile (.v2 (.AddCommand_request
      { cmdID := 7, menuParams := some { menuName := "Play", parentID := none,
                                         position := none } })) 18,
   .bus (.UI_AddCommandResponse 1 .SUCCESS),
   .bus (.AppLinkCore_ActivateApp 5 "A")]

/-- The world with one device known and nothing registered. -/
def sampleConnected : World := (run sampleStart sampleDevices).getD sampleStart

/-- Session 17 registers "Radio" over protocol v2. -/
def sampleRegisteredV2Run : List Event :=
  sampleDevices ++
  [.mobile (.v2 (.RegisterAppInterface_request (sampleRegister "Radio" true))) 17]

/-- The world in which session 17 runs the v2 application "Radio", at HMI level NONE. -/
def sampleRegisteredV2 : World := (run sampleStart sampleRegisteredV2Run).getD sampleStart

/-- A Show with `mainField1 = "NOW PLAYING"`. -/
def sampleShow : Show_request := { mainField1 := some "NOW PLAYING" }

/-- One chunk of text to speak. -/
def sampleSpeak : List TTSChunk := [{ text := "hello", type := 0 }]

/-- An Alert with one line of text. -/
def sampleAlert : Alert_request := { alertText1 := some "Low fuel" }

/-- Global properties with a help prompt. -/
def sampleGlobalProperties : SetGlobalProperties_request := { helpPrompt := some sampleSpeak }

/-- A PerformInteraction over the choice set 5. -/
def samplePerformInteraction : PerformInteraction_request :=
  { initialText := "Pick", initialPrompt := sampleSpeak, interactionMode := 0,
    interactionChoiceSetIDList := [5] }

/-- The requests, other than RegisterAppInterface, that are not answered with
APPLICATION_NOT_REGISTERED on a session without an application: nine of protocol v1, then
fourteen of protocol v2. -/
def sampleUnansweredRequests : List ALRPCMessage :=
  [.v1 (.UnsubscribeButton_request 3), .v1 (.Show_request sampleShow),
   .v1 (.Speak_request sampleSpeak), .v1 (.SetGlobalProperties_request sampleGlobalProperties),
   .v1 (.ResetGlobalProperties_request [0]), .v1 (.Alert_request sampleAlert),
   .v1 (.SetMediaClockTimer_request { updateMode := 0 }),
   .v1 (.EncodedSyncPData_request (some ["data"])), .v1 (.EncodedSyncPData_request none),
   .v2 (.UnsubscribeButton_request 3), .v2 (.SetMediaClockTimer_request { updateMode := 0 }),
   .v2 (.PutFile_request ⟨"icon.png", 0, false, some [1, 2, 3]⟩),
   .v2 (.DeleteFile_request "icon.png"), .v2 .ListFiles_request,
   .v2 (.Slider_request ⟨5, 1, "Volume", none, 10⟩), .v2 (.SetAppIcon_request "icon.png"),
   .v2 (.ScrollableMessage_request { scrollableMessageBody := "text" }),
   .v2 (.EncodedSyncPData_request ["data"]),
   .v2 (.SetGlobalProperties_request sampleGlobalProperties),
   .v2 (.ResetGlobalProperties_request [0]), .v2 (.Alert_request sampleAlert),
   .v2 (.Show_request sampleShow), .v2 (.Speak_request sampleSpeak)]

/-- Session 17 registers "Radio" over protocol v2, is activated and creates the choice
set 5 (HMI id 1), which the HMI confirms. -/
def sampleInteractionRun : List Event :=
  sampleRegisteredV2Run ++
  [.bus (.AppLinkCore_ActivateApp 5 "Radio"),
   .mobile (.v2 (.CreateInteractionChoiceSet_request ⟨5, [⟨1, "Yes", ["yes"]⟩]⟩)) 17,
   .bus (.UI_CreateInteractionChoiceSetResponse 1 .SUCCESS)]

/-- The world in which the active v2 application of session 17 holds the choice set 5. -/
def sampleInteractionReady : World := (run sampleStart sampleInteractionRun).getD sampleStart

/-- Sessions 17 and 18 register the v1 applications "A" and "B". "A" adds the menu 3
(HMI id 1), the choice set 5 (id 2) and the UI command 42 (id 3), all confirmed by the
HMI. The HMI activates "A" (the replay takes the ids 4, 5, 6). -/
def sampleTeardownPrefix : List Event :=
  sampleDevices ++
  [.mobile (.v1 (.RegisterAppInterface_request (sampleRegister "A" true))) 17,
   .mobile (.v1 (.RegisterAppInterface_request (sampleRegister "B" false))) 18,
   .mobile (.v1 (.AddSubMenu_request ⟨3, "Media", none⟩)) 17,
   .mobile (.v1 (.CreateInteractionChoiceSet_request ⟨5, [⟨1, "Yes", ["yes"]⟩]⟩)) 17,
   .mobile (.v1 (.AddCommand_request
      { cmdID := 42, menuParams := some { menuName := "Play", parentID := none,
                                          position := none } })) 17,
   .bus (.UI_AddSubMenuResponse 1 .SUCCESS),
   .bus (.UI_CreateInteractionChoiceSetResponse 2 .SUCCESS),
   .bus (.UI_AddCommandResponse 3 .SUCCESS),
   .bus (.AppLinkCore_ActivateApp 5 "A")]

/-- The world in which "A" is active with a menu, a choice set and a command on the HMI,
and "B" is registered. -/
def sampleBeforeTeardown : World := (run sampleStart sampleTeardownPrefix).getD sampleStart

/-- The active application "A" of `sampleBeforeTeardown`. -/
def sampleActiveA : Application :=
  sampleBeforeTeardown.registry.getActiveItem.getD sampleRadio

/-- The run of `sampleTeardownPrefix`, after which the HMI activates "B": the teardown of
"A" issues `UI.DeleteCommand` with id 7, `UI.DeleteSubMenu` with id 8 and
`UI.DeleteInteractionChoiceSet` with id 9. -/
def sampleTeardownRun : List Event :=
  sampleTeardownPrefix ++ [.bus (.AppLinkCore_ActivateApp 6 "B")]

/-- The world after the swap of `sampleTeardownRun`. -/
def sampleTornDown : World := (run sampleStart sampleTeardownRun).getD sampleStart

/-- Session 17 registers "Radio" over v1, is activated and subscribes to button 3. -/
def sampleSubscribedRun : List Event :=
  sampleRegisteredRun ++
  [.bus (.AppLinkCore_ActivateApp 5 "Radio"), .mobile (.v1 (.SubscribeButton_request 3)) 17]

/-- The world in which session 17 holds the subscription to button 3. -/
def sampleSubscribed : World := (run sampleStart sampleSubscribedRun).getD sampleStart

/-- Sessions 17 and 18 register the v1 applications "A" and "B"; the HMI activates "A". -/
def sampleBeforeSwapRun : List Event :=
  sampleDevices ++
  [.mobile (.v1 (.RegisterAppInterface_request (sampleRegister "A" true))) 17,
   .mobile (.v1 (.RegisterAppInterface_request (sampleRegister "B" false))) 18,
   .bus (.AppLinkCore_ActivateApp 5 "A")]

/-- The world in which "A" is active and "B" is registered. -/
def sampleBeforeSwap : World := (run sampleStart sampleBeforeSwapRun).getD sampleStart

/-- The application "B" as registered in `sampleBeforeSwap`. -/
def sampleAppB : Application :=
  { mName := "B", mAppID := 18, protocolVersion := .V1, isMediaApplication := false,
    syncMsgVersion := (1, 0) }

/-- The ids carried by the HMI requests among `outs`, in the order of sending. -/
def requestIds (outs : List Out) : List Nat :=
  outs.filterMap (fun o => match o with
    | .request r => some r.id
    | _ => none)

/-- A PutFile of 150 bytes under the name "icon.png". -/
def samplePutFile : PutFile_request :=
  { syncFileName := "icon.png", fileType := 0, persistentFile := false,
    binaryData := some (List.replicate 150 0) }

/-- An AddCommand for command `c` with a UI part under the menu 3 and a VR part. -/
def sampleMenuCommand (c : Nat) (vr : String) : AddCommand_request :=
  { cmdID := c, menuParams := some { menuName := vr, parentID := some 3, position := none },
    vrCommands := some [vr] }

/-- Session 17 registers "Radio" (v1), adds the menu 3 (HMI id 1) and, under it, the
commands 42 (ids 2 and 3) and 43 (ids 4 and 5), each with a UI and a VR part; the HMI
confirms all five requests. -/
def sampleCascadeRun : List Event :=
  sampleRegisteredRun ++
  [.mobile (.v1 (.AddSubMenu_request ⟨3, "Media", none⟩)) 17,
   .mobile (.v1 (.AddCommand_request (sampleMenuCommand 42 "play"))) 17,
   .mobile (.v1 (.AddCommand_request (sampleMenuCommand 43 "stop"))) 17,
   .bus (.UI_AddSubMenuResponse 1 .SUCCESS),
   .bus (.UI_AddCommandResponse 2 .SUCCESS), .bus (.VR_AddCommandResponse 3 .SUCCESS),
   .bus (.UI_AddCommandResponse 4 .SUCCESS), .bus (.VR_AddCommandResponse 5 .SUCCESS)]

/-- The world in which "Radio" holds the menu 3 with the commands 42 and 43, nothing in
flight. -/
def sampleCascadeReady : World := (run sampleStart sampleCascadeRun).getD sampleStart

/-- The world of `sampleCascadeReady` after the DeleteSubMenu for the menu 3. -/
def sampleCascaded : World :=
  (handleMobileRPCMessage sampleCascadeReady (.v1 (.DeleteSubMenu_request 3)) 17).getD
    sampleCascadeReady

/-- The mobile requests that no path answers or drops on a session without an
application: the application is read without a null check. -/
def sampleUncheckedRequests : List ALRPCMessage :=
  [.v1 (.EncodedSyncPData_request (some ["data"])), .v2 (.EncodedSyncPData_request ["data"]),
   .v2 (.PutFile_request ⟨"icon.png", 0, false, some [1, 2, 3]⟩),
   .v2 (.DeleteFile_request "icon.png"), .v2 .ListFiles_request]

/-- The requests with the bodies `bodies` under consecutive ids, the first being `first`. -/
def numbered (first : Nat) : List RequestBody → List RPC2Request
  | [] => []
  | body :: rest => { id := first, body := body } :: numbered (first + 1) rest

/-- The `DeleteCommand` for a command of the given type: `UI.DeleteCommand` for UI,
`VR.DeleteCommand` for VR, none for a command of neither type. -/
def teardownDeleteCommand (appId : Int) (cmdId : Nat) : CommandType → Option RequestBody
  | .UI => some (RequestBody.UI_DeleteCommand appId cmdId)
  | .VR => some (RequestBody.VR_DeleteCommand appId cmdId)
  | .UNDEFINED => none

/-- The delete requests of the teardown path in the words of the spec: for every command
the `DeleteCommand` of its type (UI or VR), then for every menu a `DeleteSubMenu`, then
for every choice set a `DeleteInteractionChoiceSet`, each carrying the id of the
application. It is compared with `removeAppFromHmi`, which is taken from the source. -/
def teardownDeletes (app : Application) : List RequestBody :=
  app.getAllCommands.filterMap (fun e => teardownDeleteCommand app.mAppID e.1.1 e.1.2)
  ++ app.getAllMenus.map (fun e => RequestBody.UI_DeleteSubMenu app.mAppID e.1)
  ++ app.getAllChoiceSets.map
      (fun e => RequestBody.UI_DeleteInteractionChoiceSet app.mAppID e.1)

/-- Session 17 registers "Radio" over v1, is activated (HMI level FULL), subscribes to
button 3 and adds the menu 3 (HMI id 1), the choice set 5 (id 2) and the command 42 with
a UI and a VR part (ids 3 and 4); the HMI confirms the four requests. -/
def sampleFurnishedRun : List Event :=
  sampleRegisteredRun ++
  [.bus (.AppLinkCore_ActivateApp 5 "Radio"),
   .mobile (.v1 (.SubscribeButton_request 3)) 17,
   .mobile (.v1 (.AddSubMenu_request ⟨3, "Media", none⟩)) 17,
   .mobile (.v1 (.CreateInteractionChoiceSet_request ⟨5, [⟨1, "Yes", ["yes"]⟩]⟩)) 17,
   .mobile (.v1 (.AddCommand_request sampleAddCommand)) 17,
   .bus (.UI_AddSubMenuResponse 1 .SUCCESS),
   .bus (.UI_CreateInteractionChoiceSetResponse 2 .SUCCESS),
   .bus (.UI_AddCommandResponse 3 .SUCCESS), .bus (.VR_AddCommandResponse 4 .SUCCESS)]

/-- The world in which "Radio" holds a button subscription, a menu, a choice set, a UI
command and a VR command. -/
def sampleFurnished : World := (run sampleStart sampleFurnishedRun).getD sampleStart

/-- The application "Radio" of `sampleFurnished`. -/
def sampleFurnishedApp : Application :=
  (sampleFurnished.registry.getItem 17).getD sampleRadio

/-- Session 17 registers "Radio" over v2 and adds the UI command 7 (HMI id 1), which the
HMI confirms. -/
def sampleV2CommandRun : List Event :=
  sampleRegisteredV2Run ++
  [.mobile (.v2 (.AddCommand_request
      { cmdID := 7, menuParams := some { menuName := "Play", parentID := none,
                                         position := none } })) 17,
   .bus (.UI_AddCommandResponse 1 .SUCCESS)]

/-- The world in which the v2 application "Radio" holds the UI command 7 and no
application is active. -/
def sampleV2Command : World := (run sampleStart sampleV2CommandRun).getD sampleStart

/-- The world after `sampleSwapV2Prefix`: "A" (v1) is active, "B" (v2) holds the UI
command 7. -/
def sampleSwapV2Ready : World := (run sampleStart sampleSwapV2Prefix).getD sampleStart

/-- Session 17 registers "Radio" (v1) and sends an AddCommand for command 42 with a UI
part only (HMI id 1) and, before the HMI has answered, a DeleteCommand for 42 (HMI id 2);
the HMI then answers both requests. -/
def sampleOverlapRun : List Event :=
  sampleRegisteredRun ++
  [.mobile (.v1 (.AddCommand_request
      { cmdID := 42, menuParams := some { menuName := "A", parentID := none,
                                          position := none } })) 17,
   .mobile (.v1 (.DeleteCommand_request 42)) 17,
   .bus (.UI_AddCommandResponse 1 .SUCCESS),
   .bus (.UI_DeleteCommandResponse 2 .SUCCESS)]

/-! # Theorems -/
/-! ## Facts about tables -/

theorem Table.find_insert_same {κ ν : Type} [DecidableEq κ] (k : κ) (v : ν)
    (m : List (κ × ν)) : Table.find k (Table.insert k v m) = some v := by
  induction m with
  | nil => simp [Table.insert, Table.find]
  | cons e m ih =>
    obtain ⟨k1, v1⟩ := e
    by_cases h : k1 = k
    · simp [Table.insert, Table.find, h]
    · simp [Table.insert, Table.find, h, ih]

theorem Table.find_insert_ne {κ ν : Type} [DecidableEq κ] (k k2 : κ) (v : ν)
    (m : List (κ × ν)) (hne : k ≠ k2) :
    Table.find k2 (Table.insert k v m) = Table.find k2 m := by
  induction m with
  | nil => simp [Table.insert, Table.find, hne]
  | cons e m ih =>
    obtain ⟨k1, v1⟩ := e
    by_cases h : k1 = k
    · subst h
      simp [Table.insert, Table.find, hne]
    · by_cases h2 : k1 = k2
      · subst h2
        simp [Table.insert, Table.find, h]
      · simp [Table.insert, Table.find, h, h2, ih]

theorem Table.find_erase_same {κ ν : Type} [DecidableEq κ] (k : κ) (m : List (κ × ν)) :
    Table.find k (Table.erase k m) = none := by
  induction m with
  | nil => simp [Table.erase, Table.find]
  | cons e m ih =>
    obtain ⟨k1, v1⟩ := e
    by_cases h : k1 = k
    · simpa [Table.erase, List.filter, h] using ih
    · simpa [Table.erase, List.filter, h, Table.find] using ih

theorem Table.find_erase_ne {κ ν : Type} [DecidableEq κ] (k k2 : κ) (m : List (κ × ν))
    (hne : k ≠ k2) : Table.find k2 (Table.erase k m) = Table.find k2 m := by
  induction m with
  | nil => simp [Table.erase, Table.find]
  | cons e m ih =>
    obtain ⟨k1, v1⟩ := e
    by_cases h : k1 = k
    · subst h
      simpa [Table.erase, List.filter, Table.find, hne] using ih
    · by_cases h2 : k1 = k2
      · subst h2
        simp [Table.erase, List.filter, Table.find, h]
      · simpa [Table.erase, List.filter, Table.find, h, h2] using ih

theorem Table.find_some_mem {κ ν : Type} [DecidableEq κ] (k : κ) (v : ν) (m : List (κ × ν))
    (h : Table.find k m = some v) : (k, v) ∈ m := by
  induction m with
  | nil => simp [Table.find] at h
  | cons e m ih =>
    obtain ⟨k1, v1⟩ := e
    by_cases h1 : k1 = k
    · simp [Table.find, h1] at h
      simp [h1, h]
    · simp [Table.find, h1] at h
      exact List.mem_cons_of_mem _ (ih h)

theorem Table.find_eraseValue_ne {κ ν : Type} [DecidableEq κ] [DecidableEq ν] (k : κ) (v : ν)
    (m : List (κ × ν)) : Table.find k (Table.eraseValue v m) ≠ some v := by
  intro h
  have hm := Table.find_some_mem k v _ h
  simp [Table.eraseValue] at hm

/-! ## Facts about the registry -/

theorem AppMgrRegistry.getItem_mAppID (r : AppMgrRegistry) (key : Int) (app : Application)
    (h : r.getItem key = some app) : app.mAppID = key := by
  have := List.find?_some h
  simpa using this

theorem AppMgrRegistry.getItem_mem (r : AppMgrRegistry) (key : Int) (app : Application)
    (h : r.getItem key = some app) : app ∈ r.items :=
  List.mem_of_find?_eq_some h

theorem AppMgrRegistry.getItem_modify (r : AppMgrRegistry) (key : Int) (app : Application)
    (f : Application → Application) (h : r.getItem key = some app)
    (hf : (f app).mAppID = key) : (r.modify key f).getItem key = some (f app) := by
  obtain ⟨items, active⟩ := r
  simp only [AppMgrRegistry.getItem, AppMgrRegistry.modify] at *
  induction items with
  | nil => simp at h
  | cons a l ih =>
    by_cases ha : a.mAppID = key
    · simp only [List.find?, ha, decide_True, Option.some.injEq] at h
      subst h
      simp [List.find?, ha, hf]
    · simp only [List.find?, ha, decide_False] at h
      simp [List.find?, ha, ih h]

/-! ## Single-step facts -/

/-- C10. A RegisterAppInterface (v1 or v2) on a session key that already has an
application is answered with `success = false` and `APPLICATION_REGISTERED_ALREADY`;
that response is the only thing sent (so neither OnHMIStatus nor OnAppRegistered is
emitted) and nothing else in the world changes. -/
theorem register_on_registered_key_rejected (core : World) (sessionKey : Int)
    (deviceName : String) (app : Application) (object : RegisterAppInterface_request)
    (hdev : core.currentDevice sessionKey = some deviceName)
    (hreg : core.registry.getItem sessionKey = some app) :
    handleMobileRPCMessage core (.v1 (.RegisterAppInterface_request object)) sessionKey
      = some { core with sent := core.sent ++
          [Out.mobile sessionKey (.response .V1 .RegisterAppInterface false
            .APPLICATION_REGISTERED_ALREADY .empty)] }
    ∧ handleMobileRPCMessage core (.v2 (.RegisterAppInterface_request object)) sessionKey
      = some { core with sent := core.sent ++
          [Out.mobile sessionKey (.response .V2 .RegisterAppInterface false
            .APPLICATION_REGISTERED_ALREADY .empty)] } := by
  constructor
  · simp [handleMobileRPCMessage, hdev, handleMobileV1, v1RegisterAppInterface, hreg,
      World.sendRPCMessage, mkResponse]
  · simp [handleMobileRPCMessage, hdev, handleMobileV2, v2RegisterAppInterface, hreg,
      World.sendRPCMessage, mkResponse]

/-- C2. A `UI.ShowResponse` with id `h` and result `R`, where `h` is recorded for the
registered session `S`: exactly one mobile message is sent, a `Show_response` of the
protocol version of `S` with `success = true` and result `R`, addressed to `S`; the
entry for `h` leaves the message mapping; nothing else changes. -/
theorem showResponse_round_trip (core : World) (h : Nat) (R : Result) (S : Int)
    (app : Application)
    (hrec : Table.find h core.mMessageMapping = some S)
    (hreg : core.registry.getItem S = some app) :
    handleBusRPCMessageIncoming core (.UI_ShowResponse h R)
      = some { core with
          mMessageMapping := Table.erase h core.mMessageMapping,
          sent := core.sent ++
            [Out.mobile S (.response app.protocolVersion .Show true R .empty)] }
    ∧ Table.find h (Table.erase h core.mMessageMapping) = none := by
  have hid : app.mAppID = S := AppMgrRegistry.getItem_mAppID _ _ _ hreg
  refine ⟨?_, Table.find_erase_same _ _⟩
  cases hv : app.protocolVersion <;>
    simp [handleBusRPCMessageIncoming, busShowResponse, World.findRegistryItemAssignedToCommand,
      hrec, hreg, hv, hid, World.removeMessage, World.sendRPCMessage]

theorem v1ShowRequest_mainField1 (object : Show_request) :
    (v1ShowRequest object).mainField1 = object.mainField1 := by
  unfold v1ShowRequest
  cases object.mainField1 <;> cases object.mainField2 <;> cases object.mediaClock <;>
    cases object.mediaTrack <;> cases object.statusBar <;> cases object.alignment <;> rfl

/-- A v1 Show from a registered application that is not in `HMI_NONE`: exactly one HMI
request, a `UI.Show` with the `mainField1` of the request and the session key as
`appId`, recorded under its id. -/
theorem v1Show_issues_one_request (core : World) (sessionKey : Int) (deviceName : String)
    (app : Application) (object : Show_request)
    (hdev : core.currentDevice sessionKey = some deviceName)
    (hreg : core.registry.getItem sessionKey = some app)
    (hlevel : app.hmiStatusLevel ≠ HMILevel.HMI_NONE) :
    ∃ w, handleMobileRPCMessage core (.v1 (.Show_request object)) sessionKey = some w
      ∧ w.sent = core.sent ++
          [Out.request ⟨core.nextMessageId, .UI_Show sessionKey (v1ShowRequest object)⟩]
      ∧ (v1ShowRequest object).mainField1 = object.mainField1
      ∧ Table.find core.nextMessageId w.mMessageMapping = some sessionKey := by
  simp only [handleMobileRPCMessage, hdev, handleMobileV1, v1Show, World.getApplication, hreg,
    hlevel, if_false, World.getNextMessageId, World.addMessage, World.sendRequest]
  exact ⟨_, rfl, rfl, v1ShowRequest_mainField1 object, Table.find_insert_same _ _ _⟩

/-! ## The counter of outstanding sub-requests -/

@[simp] theorem Application.count_decrement (app : Application) (c : Nat) :
    (app.decrementUnrespondedRequestCount c).getUnrespondedRequestCount c
      = u32Dec (app.getUnrespondedRequestCount c) := by
  simp [Application.decrementUnrespondedRequestCount, Application.getUnrespondedRequestCount,
    Table.find_insert_same]

@[simp] theorem Application.count_increment (app : Application) (c : Nat) :
    (app.incrementUnrespondedRequestCount c).getUnrespondedRequestCount c
      = u32Inc (app.getUnrespondedRequestCount c) := by
  simp [Application.incrementUnrespondedRequestCount, Application.getUnrespondedRequestCount,
    Table.find_insert_same]

@[simp] theorem Application.count_addCommand (app : Application) (c c2 : Nat)
    (t : CommandType) (p : CommandParams) :
    (app.addCommand c2 t p).getUnrespondedRequestCount c = app.getUnrespondedRequestCount c :=
  rfl

@[simp] theorem Application.count_removeCommand (app : Application) (c c2 : Nat)
    (t : CommandType) :
    (app.removeCommand c2 t).getUnrespondedRequestCount c = app.getUnrespondedRequestCount c :=
  rfl

@[simp] theorem Application.count_removeMenuCommand (app : Application) (c c2 : Nat) :
    (app.removeMenuCommand c2).getUnrespondedRequestCount c
      = app.getUnrespondedRequestCount c :=
  rfl

@[simp] theorem Application.count_addMenuCommand (app : Application) (c c2 m : Nat) :
    (app.addMenuCommand c2 m).getUnrespondedRequestCount c
      = app.getUnrespondedRequestCount c := by
  unfold Application.addMenuCommand
  split <;> rfl

@[simp] theorem Application.mAppID_addMenuCommand (app : Application) (c2 m : Nat) :
    (app.addMenuCommand c2 m).mAppID = app.mAppID := by
  unfold Application.addMenuCommand
  split <;> rfl

@[simp] theorem Application.protocolVersion_addMenuCommand (app : Application) (c2 m : Nat) :
    (app.addMenuCommand c2 m).protocolVersion = app.protocolVersion := by
  unfold Application.addMenuCommand
  split <;> rfl

@[simp] theorem Application.hmiStatusLevel_addMenuCommand (app : Application) (c2 m : Nat) :
    (app.addMenuCommand c2 m).hmiStatusLevel = app.hmiStatusLevel := by
  unfold Application.addMenuCommand
  split <;> rfl

/-- One UI or VR AddCommand/DeleteCommand response for a recorded id: the counter of the
command goes down by one (as a `u32`); if that makes it zero, the mobile response is sent
and the request entry is removed; the message entry is removed in either case. -/
theorem busCommandResponse_eq (core : World) (name : ResponseName) (id : Nat) (R : Result)
    (key : Int) (app : Application) (c : Nat)
    (hmsg : Table.find id core.mMessageMapping = some key)
    (hreg : core.registry.getItem key = some app)
    (hreq : Table.find id core.mRequestMapping = some c) :
    busCommandResponse core name id R = some
      (if u32Dec (app.getUnrespondedRequestCount c) = 0 then
        { core with
          registry := core.registry.modify key
            (fun _ => app.decrementUnrespondedRequestCount c),
          mRequestMapping := Table.erase id core.mRequestMapping,
          mMessageMapping := Table.erase id core.mMessageMapping,
          sent := core.sent ++
            [Out.mobile key (.response app.protocolVersion name true R .empty)] }
      else
        { core with
          registry := core.registry.modify key
            (fun _ => app.decrementUnrespondedRequestCount c),
          mMessageMapping := Table.erase id core.mMessageMapping }) := by
  have hid : app.mAppID = key := AppMgrRegistry.getItem_mAppID _ _ _ hreg
  have hid2 : (app.decrementUnrespondedRequestCount c).mAppID = key := hid
  by_cases hz : u32Dec (app.getUnrespondedRequestCount c) = 0
  · cases hv : app.protocolVersion <;>
    simp [busCommandResponse, World.findRegistryItemAssignedToCommand, hmsg, hreg,
      World.findRequestIdAssignedToMessage, hreq, World.putApplication, hz, hid, hid2,
      World.removeRequest, World.removeMessage, World.sendRPCMessage] <;>
    simp [Application.decrementUnrespondedRequestCount, hv]
  · simp [busCommandResponse, World.findRegistryItemAssignedToCommand, hmsg, hreg,
      World.findRequestIdAssignedToMessage, hreq, World.putApplication, hz, hid, hid2,
      World.removeMessage]

theorem commandAnswer_handle (core : World) (msg : RPC2Command) (name : ResponseName)
    (id : Nat) (h : msg.commandAnswer = some (name, id)) :
    ∃ R, handleBusRPCMessageIncoming core msg = busCommandResponse core name id R := by
  cases msg <;> simp [RPC2Command.commandAnswer] at h <;>
    (obtain ⟨h1, h2⟩ := h; subst h1; subst h2; exact ⟨_, rfl⟩)

theorem u32Dec_succ (k : Nat) : u32Dec (k + 1) = k := rfl

theorem u32Inc_of_lt (k : Nat) (h : k < 4294967295) : u32Inc k = k + 1 := by
  unfold u32Inc
  rw [if_neg (by omega)]

theorem u32Inc_iterate (k n : Nat) (h : n + k < 4294967296) : u32Inc^[k] n = n + k := by
  induction k generalizing n with
  | zero => rfl
  | succ k ih =>
    rw [Function.iterate_succ_apply, u32Inc_of_lt n (by omega), ih (n + 1) (by omega)]
    omega

theorem run_bus_cons (core : World) (msg : RPC2Command) (rest : List RPC2Command) :
    run core ((msg :: rest).map Event.bus)
      = (handleBusRPCMessageIncoming core msg).bind (fun w => run w (rest.map Event.bus)) := by
  simp only [List.map_cons, run, step]
  cases handleBusRPCMessageIncoming core msg <;> rfl

/-- The counter rule. If the counter of command `c` of the application at `key` equals
the number of outstanding sub-requests `ids`, all recorded for `key` and `c`, then
handling one HMI answer per id, in the order of `ids`, sends nothing until the last
answer and then exactly one response of the class `name` to `key`. -/
theorem answers_release_one_response (answers : List RPC2Command) :
    ∀ (ids : List Nat) (name : ResponseName) (core : World) (key : Int) (app : Application)
      (c : Nat),
      answers.map RPC2Command.commandAnswer = ids.map (fun i => some (name, i)) →
      ids.Nodup →
      (∀ i ∈ ids, Table.find i core.mMessageMapping = some key
        ∧ Table.find i core.mRequestMapping = some c) →
      core.registry.getItem key = some app →
      app.getUnrespondedRequestCount c = ids.length →
      ∃ w, run core (answers.map Event.bus) = some w
        ∧ (ids = [] → w = core)
        ∧ (ids ≠ [] → ∃ R, w.sent = core.sent ++
            [Out.mobile key (.response app.protocolVersion name true R .empty)]) := by
  induction answers with
  | nil =>
    intro ids name core key app c hans _ _ _ _
    cases ids with
    | nil => exact ⟨core, rfl, fun _ => rfl, fun h => absurd rfl h⟩
    | cons i is => simp at hans
  | cons a rest ih =>
    intro ids name core key app c hans hnd hrec hreg hcount
    cases ids with
    | nil => simp at hans
    | cons i is =>
      simp only [List.map_cons, List.cons.injEq] at hans
      obtain ⟨ha, hrest⟩ := hans
      obtain ⟨R, hR⟩ := commandAnswer_handle core a name i ha
      have hi := hrec i (List.mem_cons_self _ _)
      have hstep := busCommandResponse_eq core name i R key app c hi.1 hreg hi.2
      have hid : app.mAppID = key := AppMgrRegistry.getItem_mAppID _ _ _ hreg
      rw [List.length_cons] at hcount
      rw [hcount, u32Dec_succ] at hstep
      rw [run_bus_cons, hR, hstep]
      have hnd2 := List.nodup_cons.mp hnd
      cases is with
      | nil =>
        simp only [List.length_nil, if_true, Option.some_bind]
        cases rest with
        | cons b r => simp at hrest
        | nil => exact ⟨_, rfl, fun h => absurd h (by simp), fun _ => ⟨R, rfl⟩⟩
      | cons j js =>
        have hne : ¬ ((j :: js).length = 0) := by simp
        simp only [hne, if_false, Option.some_bind]
        have hreg2 := AppMgrRegistry.getItem_modify core.registry key app
          (fun _ => app.decrementUnrespondedRequestCount c) hreg hid
        have hcount2 : (app.decrementUnrespondedRequestCount c).getUnrespondedRequestCount c
            = (j :: js).length := by
          rw [Application.count_decrement, hcount, u32Dec_succ]
        obtain ⟨w, hrun, _, hsent⟩ := ih (j :: js) name
          { core with
            registry := core.registry.modify key
              (fun _ => app.decrementUnrespondedRequestCount c),
            mMessageMapping := Table.erase i core.mMessageMapping }
          key (app.decrementUnrespondedRequestCount c) c hrest hnd2.2
          (by
            intro x hx
            have hxi : i ≠ x := fun e => hnd2.1 (e ▸ hx)
            have := hrec x (List.mem_cons_of_mem _ hx)
            exact ⟨by simpa [Table.find_erase_ne _ _ _ hxi] using this.1, this.2⟩)
          hreg2 hcount2
        refine ⟨w, hrun, fun h => absurd h (by simp), fun _ => ?_⟩
        obtain ⟨R2, hR2⟩ := hsent (by simp)
        exact ⟨R2, hR2⟩

theorem AppMgrRegistry.getItem_put (r : AppMgrRegistry) (key : Int) (app app1 : Application)
    (h : r.getItem key = some app) (hid : app1.mAppID = key) :
    (r.modify app1.mAppID (fun _ => app1)).getItem key = some app1 := by
  rw [hid]
  exact AppMgrRegistry.getItem_modify r key app (fun _ => app1) h hid

theorem SubRequests.refl (core : World) (key : Int) (c : Nat) (app : Application) :
    SubRequests core key c app 0 core app :=
  { next := rfl, registry := rfl, appId := rfl, version := rfl, level := rfl, count := rfl,
    recorded := by simp, older := fun _ _ => ⟨rfl, rfl⟩, sent := ⟨[], by simp, by simp⟩ }

theorem SubRequests.trans {core w w2 : World} {key : Int} {c : Nat}
    {app app1 app2 : Application} {k k2 : Nat}
    (h1 : SubRequests core key c app k w app1) (h2 : SubRequests w key c app1 k2 w2 app2) :
    SubRequests core key c app (k + k2) w2 app2 where
  next := by rw [h2.next, h1.next, Nat.add_assoc]
  registry := h2.registry.trans h1.registry
  appId := h2.appId.trans h1.appId
  version := h2.version.trans h1.version
  level := h2.level.trans h1.level
  count := by rw [h2.count, h1.count, Nat.add_comm k k2, Function.iterate_add_apply]
  recorded := by
    intro i hi
    rw [List.mem_range'_1] at hi
    by_cases hlt : i < core.nextMessageId + k
    · have hr := h1.recorded i (List.mem_range'_1.mpr ⟨hi.1, hlt⟩)
      have ho := h2.older i (by rw [h1.next]; exact hlt)
      exact ⟨ho.1.trans hr.1, ho.2.trans hr.2⟩
    · exact h2.recorded i (List.mem_range'_1.mpr ⟨by rw [h1.next]; omega, by rw [h1.next]; omega⟩)
  older := by
    intro i hi
    have ho1 := h1.older i hi
    have ho2 := h2.older i (by rw [h1.next]; omega)
    exact ⟨ho2.1.trans ho1.1, ho2.2.trans ho1.2⟩
  sent := by
    obtain ⟨rs1, hs1, hr1⟩ := h1.sent
    obtain ⟨rs2, hs2, hr2⟩ := h2.sent
    refine ⟨rs1 ++ rs2, ?_, ?_⟩
    · rw [hs2, hs1, List.map_append, List.append_assoc]
    · rw [List.map_append, hr1, hr2, h1.next, List.range'_append_1, Nat.add_comm k2 k]

@[simp] theorem u32Inc_iterate_one (n : Nat) : u32Inc^[1] n = u32Inc n := rfl

/-- The shape shared by every sub-request step: one id taken, recorded for the session
and the command, one request sent, the counter of the command up by one. -/
theorem SubRequests.one (core : World) (key : Int) (c : Nat) (app app1 : Application)
    (body : RequestBody)
    (hid : app1.mAppID = app.mAppID) (hv : app1.protocolVersion = app.protocolVersion)
    (hl : app1.hmiStatusLevel = app.hmiStatusLevel)
    (hc : app1.getUnrespondedRequestCount c = u32Inc (app.getUnrespondedRequestCount c)) :
    SubRequests core key c app 1
      { core with
        nextMessageId := core.nextMessageId + 1,
        mMessageMapping := Table.insert core.nextMessageId key core.mMessageMapping,
        mRequestMapping := Table.insert core.nextMessageId c core.mRequestMapping,
        sent := core.sent ++ [Out.request ⟨core.nextMessageId, body⟩] } app1 where
  next := rfl
  registry := rfl
  appId := hid
  version := hv
  level := hl
  count := hc
  recorded := by
    intro i hi
    simp only [List.range'_one, List.mem_singleton] at hi
    subst hi
    exact ⟨Table.find_insert_same _ _ _, Table.find_insert_same _ _ _⟩
  older := by
    intro i hi
    have hne : core.nextMessageId ≠ i := by omega
    exact ⟨Table.find_insert_ne _ _ _ _ hne, Table.find_insert_ne _ _ _ _ hne⟩
  sent := ⟨[⟨core.nextMessageId, body⟩], rfl, by simp⟩

@[simp] theorem Application.count_increment_addCommand (app : Application) (c : Nat)
    (t : CommandType) (p : CommandParams) :
    ((app.addCommand c t p).incrementUnrespondedRequestCount c).getUnrespondedRequestCount c
      = u32Inc (app.getUnrespondedRequestCount c) := by
  rw [Application.count_increment, Application.count_addCommand]

theorem v1AddCommandUI_sub (core : World) (app : Application) (key : Int) (c : Nat)
    (mp : MenuParams) :
    SubRequests core key c app 1 (v1AddCommandUI core app key c mp).1
      (v1AddCommandUI core app key c mp).2 := by
  obtain ⟨mn, pid, pos⟩ := mp
  cases pid <;>
  · simp only [v1AddCommandUI, World.getNextMessageId, World.addMessage, World.addRequest,
      World.sendRequest]
    apply SubRequests.one
    · simp [Application.addCommand, Application.incrementUnrespondedRequestCount]
    · simp [Application.addCommand, Application.incrementUnrespondedRequestCount]
    · simp [Application.addCommand, Application.incrementUnrespondedRequestCount]
    · simp

theorem v2AddCommandUI_sub (core : World) (app : Application) (key : Int) (c : Nat)
    (mp : MenuParams) (icon : Option String) :
    SubRequests core key c app 1 (v2AddCommandUI core app key c mp icon).1
      (v2AddCommandUI core app key c mp icon).2 := by
  obtain ⟨mn, pid, pos⟩ := mp
  cases pid <;>
  · simp only [v2AddCommandUI, World.getNextMessageId, World.addMessage, World.addRequest,
      World.sendRequest]
    apply SubRequests.one
    · simp [Application.addCommand, Application.incrementUnrespondedRequestCount]
    · simp [Application.addCommand, Application.incrementUnrespondedRequestCount]
    · simp [Application.addCommand, Application.incrementUnrespondedRequestCount]
    · simp

theorem addCommandVR_sub (core : World) (app : Application) (key : Int) (c : Nat)
    (vr : List String) :
    SubRequests core key c app 1 (addCommandVR core app key c vr).1
      (addCommandVR core app key c vr).2 := by
  simp only [addCommandVR, World.getNextMessageId, World.addMessage, World.addRequest,
    World.sendRequest]
  apply SubRequests.one
  · rfl
  · rfl
  · rfl
  · simp

theorem deleteCommandLoop_sub (key : Int) (c : Nat) (types : List CommandType) :
    ∀ (core : World) (app : Application),
      SubRequests core key c app (types.filter CommandType.isKnown).length
        (deleteCommandLoop key c (core, app) types).1
        (deleteCommandLoop key c (core, app) types).2 := by
  induction types with
  | nil => intro core app; exact SubRequests.refl core key c app
  | cons t rest ih =>
    intro core app
    cases t with
    | UNDEFINED => simpa [deleteCommandLoop, CommandType.isKnown] using ih core app
    | UI =>
      simp only [deleteCommandLoop, World.getNextMessageId, World.addMessage, World.addRequest,
        World.sendRequest, List.filter_cons, CommandType.isKnown, if_true, List.length_cons]
      rw [Nat.add_comm]
      refine SubRequests.trans (SubRequests.one core key c app _ _ ?_ ?_ ?_ ?_) (ih _ _)
      · rfl
      · rfl
      · rfl
      · simp [Application.removeMenuCommand, Application.getUnrespondedRequestCount,
          Application.incrementUnrespondedRequestCount, Application.removeCommand,
          Table.find_insert_same]
    | VR =>
      simp only [deleteCommandLoop, World.getNextMessageId, World.addMessage, World.addRequest,
        World.sendRequest, List.filter_cons, CommandType.isKnown, if_true, List.length_cons]
      rw [Nat.add_comm]
      refine SubRequests.trans (SubRequests.one core key c app _ _ ?_ ?_ ?_ ?_) (ih _ _)
      · rfl
      · rfl
      · rfl
      · simp [Application.getUnrespondedRequestCount,
          Application.incrementUnrespondedRequestCount, Application.removeCommand,
          Table.find_insert_same]

/-- `AddCommand` (v1 or v2) from a registered application issues `o.parts` sub-requests
and stores the application back. -/
theorem addCommand_sub (core : World) (key : Int) (app : Application)
    (o : AddCommand_request) (hreg : core.registry.getItem key = some app) :
    (∃ w app1, SubRequests core key o.cmdID app o.parts w app1
      ∧ v1AddCommand core key o = some (w.putApplication app1))
    ∧ (∃ w app1, SubRequests core key o.cmdID app o.parts w app1
      ∧ v2AddCommand core key o = some (w.putApplication app1)) := by
  obtain ⟨c, mp, vr, icon⟩ := o
  constructor
  · rcases mp with _ | mp <;> rcases vr with _ | vr <;>
      simp only [v1AddCommand, World.getApplication, hreg, AddCommand_request.parts,
        Option.isSome_none, Option.isSome_some, if_true, if_false]
    · exact ⟨_, _, SubRequests.refl _ _ _ _, rfl⟩
    · exact ⟨_, _, addCommandVR_sub _ _ _ _ _, rfl⟩
    · exact ⟨_, _, v1AddCommandUI_sub _ _ _ _ _, rfl⟩
    · exact ⟨_, _, (v1AddCommandUI_sub _ _ _ _ _).trans (addCommandVR_sub _ _ _ _ _), rfl⟩
  · rcases mp with _ | mp <;> rcases vr with _ | vr <;>
      simp only [v2AddCommand, World.getApplication, hreg, AddCommand_request.parts,
        Option.isSome_none, Option.isSome_some, if_true, if_false]
    · exact ⟨_, _, SubRequests.refl _ _ _ _, rfl⟩
    · exact ⟨_, _, addCommandVR_sub _ _ _ _ _, rfl⟩
    · exact ⟨_, _, v2AddCommandUI_sub _ _ _ _ _ _, rfl⟩
    · exact ⟨_, _, (v2AddCommandUI_sub _ _ _ _ _ _).trans (addCommandVR_sub _ _ _ _ _), rfl⟩

@[simp] theorem World.putApplication_sent (w : World) (a : Application) :
    (w.putApplication a).sent = w.sent := rfl

@[simp] theorem World.putApplication_mMessageMapping (w : World) (a : Application) :
    (w.putApplication a).mMessageMapping = w.mMessageMapping := rfl

@[simp] theorem World.putApplication_mRequestMapping (w : World) (a : Application) :
    (w.putApplication a).mRequestMapping = w.mRequestMapping := rfl

theorem commandResponses_append_requests (sent : List Out) (rs : List RPC2Request) :
    commandResponses (sent ++ rs.map Out.request) = commandResponses sent := by
  simp [commandResponses, List.filter_append, List.filter_map, Function.comp_def,
    Out.isCommandResponse]

theorem commandResponses_append_response (sent : List Out) (key : Int)
    (v : ProtocolVersion) (name : ResponseName) (success : Bool) (R : Result)
    (hname : name = .AddCommand ∨ name = .DeleteCommand) :
    (commandResponses (sent ++ [Out.mobile key (.response v name success R .empty)])).length
      = (commandResponses sent).length + 1 := by
  rcases hname with h | h <;> subst h <;>
    simp [commandResponses, List.filter_append, Out.isCommandResponse]

/-- Sub-requests followed by their answers. After `k` sub-requests for command `c` of a
registered application whose counter for `c` was 0, handling the `k` answers in any order
sends exactly one response of class `name` to the session if `k > 0`, and nothing if
`k = 0`. -/
theorem subRequests_then_answers (core w0 : World) (key : Int) (c : Nat)
    (app app1 : Application) (k : Nat)
    (hsub : SubRequests core key c app k w0 app1)
    (hreg : core.registry.getItem key = some app)
    (hcount : app.getUnrespondedRequestCount c = 0) (hk : k < 4294967296)
    (name : ResponseName) (ids : List Nat) (answers : List RPC2Command)
    (hperm : ids.Perm (List.range' core.nextMessageId k))
    (hans : answers.map RPC2Command.commandAnswer = ids.map (fun i => some (name, i))) :
    ∃ w2, run (w0.putApplication app1) (answers.map Event.bus) = some w2
      ∧ (k = 0 → w2 = w0.putApplication app1)
      ∧ (k ≠ 0 → ∃ R, w2.sent = (w0.putApplication app1).sent ++
          [Out.mobile key (.response app.protocolVersion name true R .empty)]) := by
  have hid : app.mAppID = key := AppMgrRegistry.getItem_mAppID _ _ _ hreg
  have hid1 : app1.mAppID = key := hsub.appId.trans hid
  have hreg1 : (w0.putApplication app1).registry.getItem key = some app1 := by
    show (w0.registry.modify app1.mAppID (fun _ => app1)).getItem key = some app1
    rw [hsub.registry]
    exact AppMgrRegistry.getItem_put _ key app app1 hreg hid1
  have hlen : ids.length = k := by rw [hperm.length_eq, List.length_range']
  have hc1 : app1.getUnrespondedRequestCount c = ids.length := by
    rw [hsub.count, hcount, u32Inc_iterate k 0 (by omega), hlen, Nat.zero_add]
  obtain ⟨w2, hrun, hnil, hcons⟩ := answers_release_one_response answers ids name
    (w0.putApplication app1) key app1 c hans
    (hperm.nodup_iff.mpr (List.nodup_range' _ _))
    (fun i hi => hsub.recorded i (hperm.mem_iff.mp hi)) hreg1 hc1
  refine ⟨w2, hrun, fun h0 => hnil ?_, fun hne => ?_⟩
  · subst h0
    exact List.length_eq_zero.mp hlen
  · rw [← hsub.version]
    exact hcons (fun h => hne (by rw [← hlen, h]; rfl))

theorem two_answers (core : World) (key : Int) (app : Application) (c : Nat)
    (name : ResponseName) (i j : Nat) (Ri Rj : Result) (hne : i ≠ j)
    (hi : Table.find i core.mMessageMapping = some key
      ∧ Table.find i core.mRequestMapping = some c)
    (hj : Table.find j core.mMessageMapping = some key
      ∧ Table.find j core.mRequestMapping = some c)
    (hreg : core.registry.getItem key = some app)
    (hcount : app.getUnrespondedRequestCount c = 2) :
    ∃ w2 w3, busCommandResponse core name i Ri = some w2 ∧ w2.sent = core.sent
      ∧ busCommandResponse w2 name j Rj = some w3
      ∧ w3.sent = core.sent ++
          [Out.mobile key (.response app.protocolVersion name true Rj .empty)] := by
  have hid : app.mAppID = key := AppMgrRegistry.getItem_mAppID _ _ _ hreg
  have h1 := busCommandResponse_eq core name i Ri key app c hi.1 hreg hi.2
  rw [hcount, show u32Dec 2 = 1 from rfl, if_neg (by decide)] at h1
  have hreg2 := AppMgrRegistry.getItem_modify core.registry key app
    (fun _ => app.decrementUnrespondedRequestCount c) hreg hid
  have h2 := busCommandResponse_eq
    { core with
      registry := core.registry.modify key
        (fun _ => app.decrementUnrespondedRequestCount c),
      mMessageMapping := Table.erase i core.mMessageMapping }
    name j Rj key (app.decrementUnrespondedRequestCount c) c
    (by simpa [Table.find_erase_ne _ _ _ hne] using hj.1) hreg2 hj.2
  rw [Application.count_decrement, hcount, show u32Dec 2 = 1 from rfl,
    show u32Dec 1 = 0 from rfl, if_pos rfl] at h2
  exact ⟨_, _, h1, rfl, h2, rfl⟩

/-- C3. A registered application with no sub-request outstanding for command `c` sends
an AddCommand for `c` with both `menuParams` and `vrCommands` (protocol v1 or v2).
Exactly two HMI requests go out, a `UI.AddCommand` and a `VR.AddCommand`, both with
`cmdId = c`. Whichever of the two HMI responses is handled first sends nothing; the
second sends exactly one `AddCommand_response` to the session. -/
theorem addCommand_both_parts_one_response (core : World) (key : Int) (deviceName : String)
    (app : Application) (c : Nat) (mp : MenuParams) (vr : List String)
    (icon : Option String) (R1 R2 : Result)
    (hdev : core.currentDevice key = some deviceName)
    (hreg : core.registry.getItem key = some app)
    (hcount : app.getUnrespondedRequestCount c = 0) :
    ∀ p ∈ [(ALRPCMessage.v1 (.AddCommand_request ⟨c, some mp, some vr, icon⟩), none),
           (ALRPCMessage.v2 (.AddCommand_request ⟨c, some mp, some vr, icon⟩), icon)],
      ∃ w1, handleMobileRPCMessage core p.1 key = some w1
        ∧ w1.sent = core.sent ++
            [Out.request ⟨core.nextMessageId, .UI_AddCommand key c mp p.2⟩,
             Out.request ⟨core.nextMessageId + 1, .VR_AddCommand key c vr⟩]
        ∧ ∀ q ∈ [(RPC2Command.UI_AddCommandResponse core.nextMessageId R1,
                   RPC2Command.VR_AddCommandResponse (core.nextMessageId + 1) R2),
                  (RPC2Command.VR_AddCommandResponse (core.nextMessageId + 1) R1,
                   RPC2Command.UI_AddCommandResponse core.nextMessageId R2)],
            ∃ w2 w3, handleBusRPCMessageIncoming w1 q.1 = some w2 ∧ w2.sent = w1.sent
              ∧ handleBusRPCMessageIncoming w2 q.2 = some w3
              ∧ w3.sent = w2.sent ++
                  [Out.mobile key (.response app.protocolVersion .AddCommand true R2 .empty)] := by
  have hid : app.mAppID = key := AppMgrRegistry.getItem_mAppID _ _ _ hreg
  obtain ⟨⟨wa, appa, hsa, hfa⟩, ⟨wb, appb, hsb, hfb⟩⟩ :=
    addCommand_sub core key app ⟨c, some mp, some vr, icon⟩ hreg
  have hparts : (AddCommand_request.mk c (some mp) (some vr) icon).parts = 2 := rfl
  rw [hparts] at hsa hsb
  have key_fact : ∀ (w0 : World) (app1 : Application),
      SubRequests core key c app 2 w0 app1 →
      ∀ q ∈ [(RPC2Command.UI_AddCommandResponse core.nextMessageId R1,
               RPC2Command.VR_AddCommandResponse (core.nextMessageId + 1) R2),
              (RPC2Command.VR_AddCommandResponse (core.nextMessageId + 1) R1,
               RPC2Command.UI_AddCommandResponse core.nextMessageId R2)],
        ∃ w2 w3, handleBusRPCMessageIncoming (w0.putApplication app1) q.1 = some w2
          ∧ w2.sent = (w0.putApplication app1).sent
          ∧ handleBusRPCMessageIncoming w2 q.2 = some w3
          ∧ w3.sent = w2.sent ++
              [Out.mobile key (.response app.protocolVersion .AddCommand true R2 .empty)] := by
    intro w0 app1 hs q hq
    have hid1 : app1.mAppID = key := hs.appId.trans hid
    have hreg1 : (w0.putApplication app1).registry.getItem key = some app1 := by
      show (w0.registry.modify app1.mAppID (fun _ => app1)).getItem key = some app1
      rw [hs.registry]
      exact AppMgrRegistry.getItem_put _ key app app1 hreg hid1
    have hc1 : app1.getUnrespondedRequestCount c = 2 := by
      rw [hs.count, hcount]; rfl
    have hr0 := hs.recorded core.nextMessageId (by simp [List.mem_range'_1])
    have hr1 := hs.recorded (core.nextMessageId + 1) (by simp [List.mem_range'_1])
    simp only [List.mem_cons, List.mem_singleton, List.not_mem_nil, or_false] at hq
    rcases hq with hq | hq <;> subst hq
    · obtain ⟨w2, w3, h1, h2, h3, h4⟩ := two_answers (w0.putApplication app1) key app1 c
        .AddCommand core.nextMessageId (core.nextMessageId + 1) R1 R2 (by omega) hr0 hr1
        hreg1 hc1
      exact ⟨w2, w3, h1, h2, h3, by rw [h4, h2, hs.version]⟩
    · obtain ⟨w2, w3, h1, h2, h3, h4⟩ := two_answers (w0.putApplication app1) key app1 c
        .AddCommand (core.nextMessageId + 1) core.nextMessageId R1 R2 (by omega) hr1 hr0
        hreg1 hc1
      exact ⟨w2, w3, h1, h2, h3, by rw [h4, h2, hs.version]⟩
  intro p hp
  simp only [List.mem_cons, List.mem_singleton, List.not_mem_nil, or_false] at hp
  rcases hp with hp | hp <;> subst hp
  · refine ⟨wa.putApplication appa, ?_, ?_, key_fact wa appa hsa⟩
    · simp only [handleMobileRPCMessage, hdev, handleMobileV1]
      exact hfa
    · have hw : some (wa.putApplication appa) = v1AddCommand core key ⟨c, some mp, some vr, icon⟩ :=
        hfa.symm
      simp only [v1AddCommand, World.getApplication, hreg, v1AddCommandUI, addCommandVR,
        World.getNextMessageId, World.addMessage, World.addRequest, World.sendRequest,
        Option.some.injEq] at hw
      rw [hw]
      obtain ⟨mn, pid, pos⟩ := mp
      cases pid <;>
        simp [World.putApplication, Application.addCommand,
          Application.incrementUnrespondedRequestCount, hid]
  · refine ⟨wb.putApplication appb, ?_, ?_, key_fact wb appb hsb⟩
    · simp only [handleMobileRPCMessage, hdev, handleMobileV2]
      exact hfb
    · have hw : some (wb.putApplication appb) = v2AddCommand core key ⟨c, some mp, some vr, icon⟩ :=
        hfb.symm
      simp only [v2AddCommand, World.getApplication, hreg, v2AddCommandUI, addCommandVR,
        World.getNextMessageId, World.addMessage, World.addRequest, World.sendRequest,
        Option.some.injEq] at hw
      rw [hw]
      obtain ⟨mn, pid, pos⟩ := mp
      cases pid <;>
        simp [World.putApplication, Application.addCommand,
          Application.incrementUnrespondedRequestCount, hid]

theorem filter_isKnown_length (types : List CommandType)
    (h : ∀ t ∈ types, t ≠ CommandType.UNDEFINED) :
    (types.filter CommandType.isKnown).length = types.length := by
  rw [List.filter_eq_self.mpr]
  intro t ht
  cases t with
  | UI => rfl
  | VR => rfl
  | UNDEFINED => exact absurd rfl (h _ ht)

/-- The responses to one command request, counted. A registered application with no
sub-request outstanding for command `c`, in protocol v1 or v2.
(a) An AddCommand for `c` sends no `AddCommand_response` at once; after the answers to the
sub-requests it issued have been handled, in any order, the number of command responses
sent has grown by one if it issued one or two sub-requests and by none if it issued none.
(b) For a DeleteCommand for `c`, all of whose command types are UI or VR, the number of
command responses sent has grown by one once the answers to the sub-requests it issued
have been handled in any order. -/
theorem command_request_answered_once (core : World) (key : Int) (deviceName : String)
    (app : Application) (c : Nat)
    (hdev : core.currentDevice key = some deviceName)
    (hreg : core.registry.getItem key = some app)
    (hcount : app.getUnrespondedRequestCount c = 0) :
    (∀ o : AddCommand_request, o.cmdID = c →
      ∀ msg ∈ [ALRPCMessage.v1 (.AddCommand_request o), ALRPCMessage.v2 (.AddCommand_request o)],
        ∃ w1, handleMobileRPCMessage core msg key = some w1
          ∧ commandResponses w1.sent = commandResponses core.sent
          ∧ ∀ (ids : List Nat) (answers : List RPC2Command),
              ids.Perm (List.range' core.nextMessageId o.parts) →
              answers.map RPC2Command.commandAnswer
                = ids.map (fun i => some (ResponseName.AddCommand, i)) →
              ∃ w2, run w1 (answers.map Event.bus) = some w2
                ∧ (commandResponses w2.sent).length
                  = (commandResponses core.sent).length + (if o.parts = 0 then 0 else 1))
    ∧ ((∀ t ∈ app.getCommandTypes c, t ≠ CommandType.UNDEFINED) →
       (app.getCommandTypes c).length < 4294967296 →
      ∀ msg ∈ [ALRPCMessage.v1 (.DeleteCommand_request c), ALRPCMessage.v2 (.DeleteCommand_request c)],
        ∃ w1, handleMobileRPCMessage core msg key = some w1
          ∧ ∀ (ids : List Nat) (answers : List RPC2Command),
              ids.Perm (List.range' core.nextMessageId (app.getCommandTypes c).length) →
              answers.map RPC2Command.commandAnswer
                = ids.map (fun i => some (ResponseName.DeleteCommand, i)) →
              ∃ w2, run w1 (answers.map Event.bus) = some w2
                ∧ (commandResponses w2.sent).length
                  = (commandResponses core.sent).length + 1) := by
  have finish : ∀ (w0 : World) (app1 : Application) (k : Nat) (name : ResponseName),
      (name = .AddCommand ∨ name = .DeleteCommand) →
      SubRequests core key c app k w0 app1 → k < 4294967296 →
      commandResponses (w0.putApplication app1).sent = commandResponses core.sent
      ∧ ∀ (ids : List Nat) (answers : List RPC2Command),
          ids.Perm (List.range' core.nextMessageId k) →
          answers.map RPC2Command.commandAnswer = ids.map (fun i => some (name, i)) →
          ∃ w2, run (w0.putApplication app1) (answers.map Event.bus) = some w2
            ∧ (commandResponses w2.sent).length
              = (commandResponses core.sent).length + (if k = 0 then 0 else 1) := by
    intro w0 app1 k name hname hsub hk
    obtain ⟨rs, hrs, _⟩ := hsub.sent
    have hquiet : commandResponses (w0.putApplication app1).sent = commandResponses core.sent := by
      rw [World.putApplication_sent, hrs, commandResponses_append_requests]
    refine ⟨hquiet, ?_⟩
    intro ids answers hperm hans
    obtain ⟨w2, hrun, h0, h1⟩ := subRequests_then_answers core w0 key c app app1 k hsub hreg
      hcount hk name ids answers hperm hans
    refine ⟨w2, hrun, ?_⟩
    by_cases hk0 : k = 0
    · rw [h0 hk0, hquiet, if_pos hk0, Nat.add_zero]
    · obtain ⟨R, hR⟩ := h1 hk0
      rw [hR, commandResponses_append_response _ _ _ _ _ _ hname, hquiet, if_neg hk0]
  constructor
  · intro o ho msg hmsg
    subst ho
    obtain ⟨⟨wa, appa, hsa, hfa⟩, ⟨wb, appb, hsb, hfb⟩⟩ := addCommand_sub core key app o hreg
    have hparts : o.parts < 4294967296 := by
      unfold AddCommand_request.parts
      split <;> split <;> omega
    simp only [List.mem_cons, List.mem_singleton, List.not_mem_nil, or_false] at hmsg
    rcases hmsg with hmsg | hmsg <;> subst hmsg
    · obtain ⟨hq, hall⟩ := finish wa appa o.parts .AddCommand (Or.inl rfl) hsa hparts
      exact ⟨_, by simpa only [handleMobileRPCMessage, hdev, handleMobileV1] using hfa, hq, hall⟩
    · obtain ⟨hq, hall⟩ := finish wb appb o.parts .AddCommand (Or.inl rfl) hsb hparts
      exact ⟨_, by simpa only [handleMobileRPCMessage, hdev, handleMobileV2] using hfb, hq, hall⟩
  · intro hknown hlen msg hmsg
    have hdel : ∀ v : ProtocolVersion, ∃ w1, deleteCommand v core key c = some w1
        ∧ ∀ (ids : List Nat) (answers : List RPC2Command),
            ids.Perm (List.range' core.nextMessageId (app.getCommandTypes c).length) →
            answers.map RPC2Command.commandAnswer
              = ids.map (fun i => some (ResponseName.DeleteCommand, i)) →
            ∃ w2, run w1 (answers.map Event.bus) = some w2
              ∧ (commandResponses w2.sent).length = (commandResponses core.sent).length + 1 := by
      intro v
      by_cases hemp : (app.getCommandTypes c).isEmpty = true
      · refine ⟨core.sendRPCMessage (mkResponse v .DeleteCommand false .INVALID_DATA) key,
          by simp only [deleteCommand, World.getApplication, hreg, hemp, if_true], ?_⟩
        intro ids answers hperm hans
        have hnil : app.getCommandTypes c = [] := List.isEmpty_iff.mp hemp
        rw [hnil] at hperm
        simp only [List.length_nil, List.range'_zero, List.perm_nil] at hperm
        subst hperm
        cases answers with
        | cons a r => simp at hans
        | nil =>
          refine ⟨_, rfl, ?_⟩
          simp only [World.sendRPCMessage, mkResponse]
          exact commandResponses_append_response _ _ _ _ _ _ (Or.inr rfl)
      · have hsub := deleteCommandLoop_sub key c (app.getCommandTypes c) core app
        rw [filter_isKnown_length _ hknown] at hsub
        obtain ⟨_, hall⟩ := finish _ _ _ .DeleteCommand (Or.inr rfl) hsub hlen
        refine ⟨_, by simp only [deleteCommand, World.getApplication, hreg, hemp]; rfl, ?_⟩
        intro ids answers hperm hans
        obtain ⟨w2, hrun, hn⟩ := hall ids answers hperm hans
        refine ⟨w2, hrun, ?_⟩
        have hpos : ¬ (app.getCommandTypes c).length = 0 := by
          intro h0
          exact hemp (List.isEmpty_iff.mpr (List.length_eq_zero.mp h0))
        rw [hn, if_neg hpos]
    simp only [List.mem_cons, List.mem_singleton, List.not_mem_nil, or_false] at hmsg
    rcases hmsg with hmsg | hmsg <;> subst hmsg
    · obtain ⟨w1, h1, h2⟩ := hdel .V1
      exact ⟨w1, by simpa only [handleMobileRPCMessage, hdev, handleMobileV1] using h1, h2⟩
    · obtain ⟨w1, h1, h2⟩ := hdel .V2
      exact ⟨w1, by simpa only [handleMobileRPCMessage, hdev, handleMobileV2] using h1, h2⟩

/-! ## The statements at sample inputs -/

/-- C1, at a failing input. Session 17 runs a registered v2 application at HMI level FULL
and sends Show with `mainField1 = "A"` and `mainField3 = "C"`: the one `UI.Show` request
that goes out carries `mainField1 = "C"`, not "A". -/
theorem show_v2_mainField1_overwritten :
    (run sampleStart sampleShowV2Run).map (fun w => w.sent.filter Out.isRequest)
      = some [Out.request ⟨1, .UI_Show 17 { mainField1 := some "C" }⟩] := by
  decide

theorem showResponse_round_trip_witness :
    (Table.find 1 sampleShown.mMessageMapping = some 17
      ∧ sampleShown.registry.getItem 17 = some sampleRadioActive)
    ∧ (handleBusRPCMessageIncoming sampleShown (.UI_ShowResponse 1 .SUCCESS)
        = some { sampleShown with
            mMessageMapping := Table.erase 1 sampleShown.mMessageMapping,
            sent := sampleShown.sent ++
              [Out.mobile 17 (.response .V1 .Show true .SUCCESS .empty)] }
      ∧ Table.find 1 (Table.erase 1 sampleShown.mMessageMapping) = none) :=
  ⟨⟨by decide, by decide⟩,
   showResponse_round_trip sampleShown 1 .SUCCESS 17 sampleRadioActive (by decide) (by decide)⟩

theorem addCommand_both_parts_one_response_witness :
    (sampleRegistered.currentDevice 17 = some "phone"
      ∧ sampleRegistered.registry.getItem 17 = some sampleRadio
      ∧ sampleRadio.getUnrespondedRequestCount 42 = 0)
    ∧ ∃ w1, handleMobileRPCMessage sampleRegistered
          (.v1 (.AddCommand_request sampleAddCommand)) 17 = some w1
        ∧ ∃ w2 w3,
            handleBusRPCMessageIncoming w1 (.VR_AddCommandResponse 2 .SUCCESS) = some w2
            ∧ w2.sent = w1.sent
            ∧ handleBusRPCMessageIncoming w2 (.UI_AddCommandResponse 1 .SUCCESS) = some w3
            ∧ w3.sent = w2.sent
                ++ [Out.mobile 17 (.response .V1 .AddCommand true .SUCCESS .empty)] := by
  refine ⟨⟨by decide, by decide, by decide⟩, ?_⟩
  obtain ⟨w1, h1, _, h3⟩ := addCommand_both_parts_one_response sampleRegistered 17 "phone"
    sampleRadio 42 { menuName := "A", parentID := none, position := none } ["hello"] none
    .SUCCESS .SUCCESS (by decide) (by decide) (by decide) _ (List.mem_cons_self _ _)
  exact ⟨w1, h1, h3 _ (List.mem_cons_of_mem _ (List.mem_cons_self _ _))⟩

/-- C4, evaluated where the code departs from it. Session 17 is registered and sends one
AddCommand for command 42 with neither `menuParams` nor `vrCommands`: the run receives one
command request for 42, issues no HMI request at all (so every issued request is answered
exactly once), and emits no `AddCommand_response` or `DeleteCommand_response`: the handler
sends nothing, over v1 and over v2. The DeleteCommand handler, when it has nothing to fan
out to (the application holds no command 42), answers at once with INVALID_DATA. A second
run: an AddCommand for 42 with a UI part (HMI id 1) is followed, before the HMI answers,
by a DeleteCommand for 42 (HMI id 2), and the HMI answers both: two command requests for
42 were received and the only command response is one `DeleteCommand_response`. -/
theorem zero_fanout_addCommand_unanswered :
    (sampleZeroFanoutRun.filter (Event.isCommandRequest 42)).length = 1
    ∧ (run sampleStart sampleZeroFanoutRun).map (fun w =>
        ((w.registry.getItem 17).isSome, (w.sent.filter Out.isRequest).length,
         (commandResponses w.sent).length)) = some (true, 0, 0)
    ∧ emitted sampleRegistered (.v1 (.AddCommand_request { cmdID := 42 })) 17 = some []
    ∧ emitted sampleRegisteredV2 (.v2 (.AddCommand_request { cmdID := 42 })) 17 = some []
    ∧ emitted sampleRegistered (.v1 (.DeleteCommand_request 42)) 17
        = some [Out.mobile 17 (.response .V1 .DeleteCommand false .INVALID_DATA .empty)]
    ∧ (sampleOverlapRun.filter (Event.isCommandRequest 42)).length = 2
    ∧ (run sampleStart sampleOverlapRun).map (fun w =>
        (requestIds w.sent, commandResponses w.sent))
      = some ([1, 2],
          [Out.mobile 17 (.response .V1 .DeleteCommand true .SUCCESS .empty)]) := by
  decide

theorem command_request_answered_once_witness :
    (sampleRegistered.currentDevice 17 = some "phone"
      ∧ sampleRegistered.registry.getItem 17 = some sampleRadio
      ∧ sampleRadio.getUnrespondedRequestCount 42 = 0)
    ∧ ∃ w1, handleMobileRPCMessage sampleRegistered
          (.v1 (.AddCommand_request sampleAddCommand)) 17 = some w1
        ∧ commandResponses w1.sent = commandResponses sampleRegistered.sent
        ∧ ∃ w2, run w1 [.bus (.VR_AddCommandResponse 2 .SUCCESS),
                        .bus (.UI_AddCommandResponse 1 .SUCCESS)] = some w2
            ∧ (commandResponses w2.sent).length
                = (commandResponses sampleRegistered.sent).length + 1 := by
  refine ⟨⟨by decide, by decide, by decide⟩, ?_⟩
  obtain ⟨w1, h1, h2, h3⟩ := (command_request_answered_once sampleRegistered 17 "phone"
    sampleRadio 42 (by decide) (by decide) (by decide)).1 sampleAddCommand rfl _
    (List.mem_cons_self _ _)
  obtain ⟨w2, h4, h5⟩ := h3 [2, 1]
    [.VR_AddCommandResponse 2 .SUCCESS, .UI_AddCommandResponse 1 .SUCCESS]
    (by decide) (by decide)
  exact ⟨w1, h1, h2, w2, h4, h5⟩

/-- C5, at a failing input. Application "A" (session 17) is active and the HMI activates
"B" (session 18): the one `OnHMIStatus(BACKGROUND)` of the teardown is addressed to
session 18, the application being activated, and none to session 17; the stored level of
"A" does become BACKGROUND. -/
theorem swap_background_status_goes_to_new_app :
    (run sampleStart sampleSwapRun).map (fun w =>
        (w.sent.filter Out.isBackgroundStatus,
         (w.registry.getItem 17).map (fun a => a.hmiStatusLevel)))
      = some ([Out.mobile 18 (.OnHMIStatus .V1 HMILevel.HMI_BACKGROUND
                AudioStreamingState.AUDIBLE SystemContext.SYSCTXT_MAIN)],
              some HMILevel.HMI_BACKGROUND) := by
  decide

/-- C6, at a failing input. "A" (v1, session 17) is active; "B" (v2, session 18) holds
one UI command, added by a v2 AddCommand. The run up to that point is defined, and the
activation of "B" has no defined result: the replay of the command dereferences
`params.menuParams`, which a v2 AddCommand never assigns. -/
theorem swap_to_v2_app_with_ui_command_undefined :
    (run sampleStart sampleSwapV2Prefix).isSome = true
    ∧ run sampleStart (sampleSwapV2Prefix ++ [.bus (.AppLinkCore_ActivateApp 6 "B")]) = none := by
  decide

/-- C9, at a failing input. After the two-part AddCommand for command 42 (HMI ids 1 and
2) the UI answer with id 1 is handled: the entry for id 1 has left the message mapping
but is still in the request mapping (`1 → 42`). -/
theorem first_answer_leaves_request_entry :
    (run sampleStart sampleFirstAnswerRun).map (fun w =>
        (Table.find 1 w.mMessageMapping, Table.find 1 w.mRequestMapping))
      = some (none, some 42) := by
  decide

theorem register_on_registered_key_rejected_witness :
    (sampleRegistered.currentDevice 17 = some "phone"
      ∧ sampleRegistered.registry.getItem 17 = some sampleRadio)
    ∧ (handleMobileRPCMessage sampleRegistered
          (.v1 (.RegisterAppInterface_request (sampleRegister "Radio" true))) 17
        = some { sampleRegistered with sent := sampleRegistered.sent ++
            [Out.mobile 17 (.response .V1 .RegisterAppInterface false
              .APPLICATION_REGISTERED_ALREADY .empty)] }
      ∧ handleMobileRPCMessage sampleRegistered
          (.v2 (.RegisterAppInterface_request (sampleRegister "Radio" true))) 17
        = some { sampleRegistered with sent := sampleRegistered.sent ++
            [Out.mobile 17 (.response .V2 .RegisterAppInterface false
              .APPLICATION_REGISTERED_ALREADY .empty)] }) :=
  ⟨⟨by decide, by decide⟩,
   register_on_registered_key_rejected sampleRegistered 17 "phone" sampleRadio
     (sampleRegister "Radio" true) (by decide) (by decide)⟩

/-! ## The teardown and replay loops -/

@[simp] theorem World.issue_registry (w : World) (body : RequestBody) (key : Int) :
    (w.issue body key).registry = w.registry := rfl

@[simp] theorem World.issue_mMessageMapping (w : World) (body : RequestBody) (key : Int) :
    (w.issue body key).mMessageMapping
      = Table.insert w.nextMessageId key w.mMessageMapping := rfl

theorem removeCommandsFromHmi_preserves (P : World → Prop) (appId : Int)
    (hP : ∀ w body, P w → P (w.issue body appId)) (app : Application)
    (l : List ((Nat × CommandType) × CommandParams)) :
    ∀ core, P core → P (removeCommandsFromHmi core app appId l) := by
  induction l with
  | nil => intro core h; exact h
  | cons e rest ih =>
    intro core h
    obtain ⟨⟨cmdId, type⟩, params⟩ := e
    cases type with
    | UI => exact ih _ (hP _ _ h)
    | VR => exact ih _ (hP _ _ h)
    | UNDEFINED => exact ih _ h

theorem removeMenusFromHmi_preserves (P : World → Prop) (appId : Int)
    (hP : ∀ w body, P w → P (w.issue body appId)) (app : Application)
    (l : List (Nat × (String × Option Nat))) :
    ∀ core, P core → P (removeMenusFromHmi core app appId l) := by
  induction l with
  | nil => intro core h; exact h
  | cons e rest ih =>
    intro core h
    obtain ⟨menuId, v⟩ := e
    exact ih _ (hP _ _ h)

theorem removeChoiceSetsFromHmi_preserves (P : World → Prop) (appId : Int)
    (hP : ∀ w body, P w → P (w.issue body appId)) (app : Application)
    (l : List (Nat × ChoiceSet)) :
    ∀ core, P core → P (removeChoiceSetsFromHmi core app appId l) := by
  induction l with
  | nil => intro core h; exact h
  | cons e rest ih =>
    intro core h
    obtain ⟨choiceSetId, v⟩ := e
    exact ih _ (hP _ _ h)

/-- `removeAppFromHmi` keeps every property that holds after the level of the
application was set and the `OnHMIStatus` was sent, and that issuing a request for
`appId` keeps. -/
theorem removeAppFromHmi_preserves (P : World → Prop) (appId : Int)
    (hP : ∀ w body, P w → P (w.issue body appId)) (core : World) (app : Application)
    (h0 : P (World.sendRPCMessage
        { core with registry :=
            core.registry.modify app.mAppID (fun a => { a with hmiStatusLevel := .HMI_BACKGROUND }) }
        (.OnHMIStatus app.protocolVersion HMILevel.HMI_BACKGROUND app.audioStreamingState
          app.systemContext) appId)) :
    P (removeAppFromHmi core app appId) := by
  unfold removeAppFromHmi
  apply removeChoiceSetsFromHmi_preserves P appId hP
  apply removeMenusFromHmi_preserves P appId hP
  apply removeCommandsFromHmi_preserves P appId hP
  cases hv : app.protocolVersion <;> simpa [hv] using h0

/-! ## Unregistration sweeps the message mapping -/

theorem Table.keys_insert {κ ν : Type} [DecidableEq κ] (k : κ) (v : ν) (m : List (κ × ν))
    (x : κ) (hx : x ∈ (Table.insert k v m).map Prod.fst) : x = k ∨ x ∈ m.map Prod.fst := by
  induction m with
  | nil => simp [Table.insert] at hx; exact Or.inl hx
  | cons e m ih =>
    obtain ⟨k1, v1⟩ := e
    by_cases h : k1 = k
    · subst h
      simp [Table.insert] at hx
      simp only [List.map_cons, List.mem_cons]
      rcases hx with hx | ⟨b, hb⟩
      · exact Or.inr (Or.inl hx)
      · exact Or.inr (Or.inr (List.mem_map.mpr ⟨(x, b), hb, rfl⟩))
    · simp [Table.insert, h] at hx
      simp only [List.map_cons, List.mem_cons]
      rcases hx with hx | ⟨b, hb⟩
      · exact Or.inr (Or.inl hx)
      · rcases ih (List.mem_map.mpr ⟨(x, b), hb, rfl⟩) with h1 | h1
        · exact Or.inl h1
        · exact Or.inr (Or.inr h1)

theorem Table.nodup_insert {κ ν : Type} [DecidableEq κ] (k : κ) (v : ν) (m : List (κ × ν))
    (h : (m.map Prod.fst).Nodup) : ((Table.insert k v m).map Prod.fst).Nodup := by
  induction m with
  | nil => simp [Table.insert]
  | cons e m ih =>
    obtain ⟨k1, v1⟩ := e
    simp only [List.map_cons, List.nodup_cons] at h
    by_cases h1 : k1 = k
    · subst h1
      simp only [Table.insert, if_true, List.map_cons, List.nodup_cons]
      exact h
    · simp only [Table.insert, h1, if_false, List.map_cons, List.nodup_cons]
      refine ⟨?_, ih h.2⟩
      intro hx
      rcases Table.keys_insert k v m k1 hx with h2 | h2
      · exact h1 h2
      · exact h.1 h2

theorem Table.find_none_of_not_mem {κ ν : Type} [DecidableEq κ] (k : κ) (m : List (κ × ν))
    (h : k ∉ m.map Prod.fst) : Table.find k m = none := by
  induction m with
  | nil => rfl
  | cons e m ih =>
    obtain ⟨k1, v1⟩ := e
    simp only [List.map_cons, List.mem_cons, not_or] at h
    have h1 : ¬ k1 = k := fun h2 => h.1 h2.symm
    simp only [Table.find, h1, if_false]
    exact ih h.2

theorem Table.eraseValue_keys {κ ν : Type} [DecidableEq ν] (v : ν) (m : List (κ × ν)) (x : κ)
    (hx : x ∈ (Table.eraseValue v m).map Prod.fst) : x ∈ m.map Prod.fst := by
  simp only [Table.eraseValue, List.mem_map, List.mem_filter] at hx
  obtain ⟨e, ⟨he, _⟩, rfl⟩ := hx
  exact List.mem_map.mpr ⟨e, he, rfl⟩

/-- In a table with one pair per key, the sweep of the value found under `k` leaves nothing
under `k`. -/
theorem Table.find_eraseValue_same {κ ν : Type} [DecidableEq κ] [DecidableEq ν] (k : κ)
    (v : ν) (m : List (κ × ν)) (hnd : (m.map Prod.fst).Nodup)
    (h : Table.find k m = some v) : Table.find k (Table.eraseValue v m) = none := by
  induction m with
  | nil => rfl
  | cons e m ih =>
    obtain ⟨k1, v1⟩ := e
    simp only [List.map_cons, List.nodup_cons] at hnd
    by_cases h1 : k1 = k
    · subst h1
      simp only [Table.find, if_true, Option.some.injEq] at h
      subst h
      have : Table.eraseValue v1 ((k1, v1) :: m) = Table.eraseValue v1 m := by
        simp [Table.eraseValue]
      rw [this]
      exact Table.find_none_of_not_mem k1 _ (fun hx => hnd.1 (Table.eraseValue_keys v1 m k1 hx))
    · simp only [Table.find, h1, if_false] at h
      by_cases h2 : v1 = v
      · subst h2
        have : Table.eraseValue v1 ((k1, v1) :: m) = Table.eraseValue v1 m := by
          simp [Table.eraseValue]
        rw [this]
        exact ih hnd.2 h
      · have : Table.eraseValue v ((k1, v1) :: m) = (k1, v1) :: Table.eraseValue v m := by
          simp [Table.eraseValue, h2]
        rw [this]
        simp only [Table.find, h1, if_false]
        exact ih hnd.2 h

theorem AppMgrRegistry.getItem_unregister (r : AppMgrRegistry) (key : Int) :
    (r.unregisterApplication key).getItem key = none := by
  simp only [AppMgrRegistry.getItem, AppMgrRegistry.unregisterApplication,
    List.find?_eq_none, List.mem_filter]
  intro a ha
  simpa using ha.2

/-- What the teardown of the application under `key` keeps: the application is still in the
registry, the message mapping has one pair per key, and `h` is recorded for `key`. -/
theorem removeAppFromHmi_keeps_record (core : World) (key : Int) (app : Application) (h : Nat)
    (hreg : core.registry.getItem key = some app)
    (hmap : (core.mMessageMapping.map Prod.fst).Nodup)
    (hrec : Table.find h core.mMessageMapping = some key) :
    (∃ a, (removeAppFromHmi core app key).registry.getItem key = some a)
      ∧ ((removeAppFromHmi core app key).mMessageMapping.map Prod.fst).Nodup
      ∧ Table.find h (removeAppFromHmi core app key).mMessageMapping = some key := by
  have hid := AppMgrRegistry.getItem_mAppID _ _ _ hreg
  refine removeAppFromHmi_preserves
    (fun w => (∃ a, w.registry.getItem key = some a)
      ∧ (w.mMessageMapping.map Prod.fst).Nodup
      ∧ Table.find h w.mMessageMapping = some key) key ?_ core app ?_
  · rintro w body ⟨h1, h2, h3⟩
    refine ⟨h1, ?_, ?_⟩
    · rw [World.issue_mMessageMapping]
      exact Table.nodup_insert _ _ _ h2
    · rw [World.issue_mMessageMapping]
      by_cases hk : w.nextMessageId = h
      · rw [hk]; exact Table.find_insert_same _ _ _
      · rw [Table.find_insert_ne _ _ _ _ hk]; exact h3
  · refine ⟨⟨{ app with hmiStatusLevel := HMILevel.HMI_BACKGROUND }, ?_⟩, hmap, hrec⟩
    subst hid
    exact AppMgrRegistry.getItem_modify _ _ app
      (fun a => { a with hmiStatusLevel := HMILevel.HMI_BACKGROUND }) hreg rfl

/-- C8: when the application registered under session key `S` (on a known device)
unregisters, over either protocol version, with a request `h` of its own still recorded
in the message mapping (a table with one pair per id), the handler returns a state in
which `h` is no longer recorded, no pair of the message mapping has the value `S`, and the
registry has no application under `S`; a `UI.ShowResponse` with id `h` that arrives
afterwards, with any result, leaves that state as it is and so sends nothing. -/
theorem unregister_sweeps_message_mapping (core : World) (S : Int) (dev : String)
    (app : Application) (h : Nat) (msg : ALRPCMessage)
    (hmsg : msg = .v1 .UnregisterAppInterface_request
      ∨ msg = .v2 .UnregisterAppInterface_request)
    (hdev : core.currentDevice S = some dev)
    (hreg : core.registry.getItem S = some app)
    (hmap : (core.mMessageMapping.map Prod.fst).Nodup)
    (hrec : Table.find h core.mMessageMapping = some S) :
    ∃ w1, handleMobileRPCMessage core msg S = some w1
      ∧ Table.find h w1.mMessageMapping = none
      ∧ (∀ e ∈ w1.mMessageMapping, e.2 ≠ S)
      ∧ w1.registry.getItem S = none
      ∧ ∀ R, handleBusRPCMessageIncoming w1 (.UI_ShowResponse h R) = some w1 := by
  obtain ⟨⟨a, ha⟩, hnd, hfind⟩ := removeAppFromHmi_keeps_record core S app h hreg hmap hrec
  have key : ∀ w1 : World,
      w1.mMessageMapping
          = Table.eraseValue S (removeAppFromHmi core app S).mMessageMapping →
      w1.registry = (removeAppFromHmi core app S).registry.unregisterApplication S →
      Table.find h w1.mMessageMapping = none
        ∧ (∀ e ∈ w1.mMessageMapping, e.2 ≠ S)
        ∧ w1.registry.getItem S = none
        ∧ ∀ R, handleBusRPCMessageIncoming w1 (.UI_ShowResponse h R) = some w1 := by
    intro w1 hm hr
    have h1 : Table.find h w1.mMessageMapping = none := by
      rw [hm]; exact Table.find_eraseValue_same h S _ hnd hfind
    refine ⟨h1, ?_, ?_, ?_⟩
    · intro e he
      rw [hm] at he
      simp only [Table.eraseValue, List.mem_filter] at he
      simpa using he.2
    · rw [hr]; exact AppMgrRegistry.getItem_unregister _ S
    · intro R
      simp [handleBusRPCMessageIncoming, busShowResponse,
        World.findRegistryItemAssignedToCommand, h1]
  rcases hmsg with rfl | rfl
  · simp only [handleMobileRPCMessage, hdev, handleMobileV1, v1UnregisterAppInterface,
      World.getApplication, hreg]
    refine ⟨_, rfl, key _ ?_ ?_⟩
    · simp [unregisterApplication, ha, World.sendRPCMessage, World.sendNotification]
    · simp [unregisterApplication, ha, World.sendRPCMessage, World.sendNotification]
  · simp only [handleMobileRPCMessage, hdev, handleMobileV2, v2UnregisterAppInterface,
      World.getApplication, hreg]
    refine ⟨_, rfl, key _ ?_ ?_⟩
    · simp [unregisterApplication, ha, World.sendRPCMessage, World.sendNotification]
    · simp [unregisterApplication, ha, World.sendRPCMessage, World.sendNotification]

/-! ## At most one application at level FULL -/

theorem AppMgrRegistry.levels_modify (r : AppMgrRegistry) (key : Int)
    (f : Application → Application)
    (hf : ∀ a ∈ r.items, a.mAppID = key →
      (f a).mAppID = a.mAppID ∧ (f a).hmiStatusLevel = a.hmiStatusLevel) :
    (r.modify key f).levels = r.levels := by
  simp only [AppMgrRegistry.levels, AppMgrRegistry.modify, List.map_map]
  apply List.map_congr_left
  intro a ha
  by_cases h : a.mAppID = key
  · simp only [Function.comp, h, if_true]
    have := hf a ha h
    rw [this.1, this.2, h]
  · simp only [Function.comp, h, if_false]

theorem AppMgrRegistry.levels_getItem (r : AppMgrRegistry) (key : Int) (app : Application)
    (h : r.getItem key = some app) : (key, app.hmiStatusLevel) ∈ r.levels := by
  have h1 := AppMgrRegistry.getItem_mem r key app h
  have h2 := AppMgrRegistry.getItem_mAppID r key app h
  exact List.mem_map.mpr ⟨app, h1, by rw [h2]⟩

theorem levels_value_unique (l : List (Int × HMILevel)) (hnd : (l.map Prod.fst).Nodup)
    (k : Int) (v1 v2 : HMILevel) (h1 : (k, v1) ∈ l) (h2 : (k, v2) ∈ l) : v1 = v2 := by
  induction l with
  | nil => simp at h1
  | cons e l ih =>
    simp only [List.map_cons, List.nodup_cons] at hnd
    rcases List.mem_cons.mp h1 with h1 | h1 <;> rcases List.mem_cons.mp h2 with h2 | h2
    · rw [← h1] at h2; exact (Prod.mk.inj h2).2.symm
    · exfalso; apply hnd.1; rw [← h1]; exact List.mem_map.mpr ⟨(k, v2), h2, rfl⟩
    · exfalso; apply hnd.1; rw [← h2]; exact List.mem_map.mpr ⟨(k, v1), h1, rfl⟩
    · exact ih hnd.2 h1 h2

/-- Writing back an application that kept its session key and its HMI level keeps the
registry consistent. -/
theorem AppMgrRegistry.Consistent.put {r : AppMgrRegistry} {key : Int}
    {app app1 : Application} (hI : r.Consistent) (hreg : r.getItem key = some app)
    (hid : app1.mAppID = app.mAppID)
    (hl : app1.hmiStatusLevel = app.hmiStatusLevel) :
    (r.modify app1.mAppID (fun _ => app1)).Consistent := by
  have hk := AppMgrRegistry.getItem_mAppID r key app hreg
  have hlv : (r.modify app1.mAppID (fun _ => app1)).levels = r.levels := by
    apply AppMgrRegistry.levels_modify
    intro a ha hka
    refine ⟨hka.symm, ?_⟩
    rw [hl]
    apply levels_value_unique r.levels hI.1 key
    · exact AppMgrRegistry.levels_getItem r key app hreg
    · have : a.mAppID = key := by rw [hka, hid, hk]
      rw [← this]
      exact List.mem_map.mpr ⟨a, ha, rfl⟩
  exact ⟨by rw [hlv]; exact hI.1, by rw [hlv]; exact hI.2⟩

/-- A change of an application that touches neither its session key nor its HMI level
keeps the registry consistent. -/
theorem AppMgrRegistry.Consistent.modify (r : AppMgrRegistry) (key : Int)
    (f : Application → Application) (hI : r.Consistent)
    (hf : ∀ a, (f a).mAppID = a.mAppID ∧ (f a).hmiStatusLevel = a.hmiStatusLevel) :
    (r.modify key f).Consistent := by
  have hlv : (r.modify key f).levels = r.levels :=
    AppMgrRegistry.levels_modify r key f (fun a _ _ => hf a)
  exact ⟨by rw [hlv]; exact hI.1, by rw [hlv]; exact hI.2⟩

theorem AppMgrRegistry.getItem_none_not_mem (r : AppMgrRegistry) (key : Int)
    (h : r.getItem key = none) : key ∉ r.levels.map Prod.fst := by
  intro hk
  simp only [AppMgrRegistry.levels, List.map_map, List.mem_map, Function.comp] at hk
  obtain ⟨a, ha, hka⟩ := hk
  simp only [AppMgrRegistry.getItem, List.find?_eq_none] at h
  exact h a ha (by simpa using hka)

/-- Registering an application at level NONE under a free session key keeps the registry
consistent. -/
theorem AppMgrRegistry.Consistent.register (r : AppMgrRegistry) (app : Application)
    (hI : r.Consistent) (hfree : r.getItem app.mAppID = none)
    (hl : app.hmiStatusLevel = HMILevel.HMI_NONE) :
    AppMgrRegistry.Consistent { r with items := r.items ++ [app] } := by
  have hk := AppMgrRegistry.getItem_none_not_mem r _ hfree
  obtain ⟨h1, h2⟩ := hI
  constructor
  · simp only [AppMgrRegistry.levels, List.map_append, List.map_cons, List.map_nil] at *
    rw [List.nodup_append]
    refine ⟨h1, by simp, ?_⟩
    intro a ha hb
    simp only [List.mem_singleton] at hb
    exact hk (by rw [← hb]; exact ha)
  · intro p hp
    simp only [AppMgrRegistry.levels, List.map_append, List.map_cons, List.map_nil,
      List.mem_append, List.mem_singleton] at hp
    rcases hp with hp | hp
    · exact h2 p hp
    · intro hf
      rw [hp] at hf
      simp only [hl] at hf
      exact absurd hf (by decide)

/-- Setting an application to BACKGROUND keeps the registry consistent. -/
theorem AppMgrRegistry.Consistent.background (r : AppMgrRegistry) (key : Int)
    (hI : r.Consistent) :
    (r.modify key (fun a => { a with hmiStatusLevel := HMILevel.HMI_BACKGROUND })).Consistent := by
  obtain ⟨h1, h2⟩ := hI
  constructor
  · have : ((r.modify key
        (fun a => { a with hmiStatusLevel := HMILevel.HMI_BACKGROUND })).levels.map Prod.fst)
        = r.levels.map Prod.fst := by
      simp only [AppMgrRegistry.levels, AppMgrRegistry.modify, List.map_map]
      apply List.map_congr_left
      intro a _
      by_cases h : a.mAppID = key <;> simp [Function.comp, h]
    rw [this]; exact h1
  · intro p hp hf
    simp only [AppMgrRegistry.levels, AppMgrRegistry.modify, List.map_map, List.mem_map,
      Function.comp] at hp
    obtain ⟨a, ha, rfl⟩ := hp
    by_cases h : a.mAppID = key
    · simp [h] at hf
    · simp only [h, if_false] at hf ⊢
      exact h2 (a.mAppID, a.hmiStatusLevel) (List.mem_map.mpr ⟨a, ha, rfl⟩) hf

/-- Removing an application keeps the registry consistent. -/
theorem AppMgrRegistry.Consistent.unregister (r : AppMgrRegistry) (key : Int)
    (hI : r.Consistent) : (r.unregisterApplication key).Consistent := by
  obtain ⟨h1, h2⟩ := hI
  have hsub : (r.unregisterApplication key).levels.Sublist r.levels := by
    simp only [AppMgrRegistry.levels, AppMgrRegistry.unregisterApplication]
    exact List.Sublist.map _ (List.filter_sublist _)
  constructor
  · exact List.Nodup.sublist (List.Sublist.map _ hsub) h1
  · intro p hp hf
    have hold := h2 p (hsub.subset hp) hf
    simp only [AppMgrRegistry.levels, AppMgrRegistry.unregisterApplication, List.mem_map,
      List.mem_filter] at hp
    obtain ⟨a, ⟨_, hne⟩, rfl⟩ := hp
    have hne1 : a.mAppID ≠ key := by simpa using hne
    simp only [AppMgrRegistry.unregisterApplication, hold]
    simp [hne1]

/-- With one application per session key and no application at FULL except possibly the
one under `key`, activating `key` gives a consistent registry. -/
theorem AppMgrRegistry.Consistent.activate (r : AppMgrRegistry) (key : Int)
    (hnd : (r.levels.map Prod.fst).Nodup)
    (hno : ∀ p ∈ r.levels, p.2 = HMILevel.HMI_FULL → p.1 = key) :
    AppMgrRegistry.Consistent
      { (r.modify key (fun a => { a with hmiStatusLevel := HMILevel.HMI_FULL })) with
        active := some key } := by
  constructor
  · have : (AppMgrRegistry.levels
        { (r.modify key (fun a => { a with hmiStatusLevel := HMILevel.HMI_FULL })) with
          active := some key }).map Prod.fst = r.levels.map Prod.fst := by
      simp only [AppMgrRegistry.levels, AppMgrRegistry.modify, List.map_map]
      apply List.map_congr_left
      intro a _
      by_cases h : a.mAppID = key <;> simp [Function.comp, h]
    rw [this]; exact hnd
  · intro p hp hf
    simp only [AppMgrRegistry.levels, AppMgrRegistry.modify, List.map_map, List.mem_map,
      Function.comp] at hp
    obtain ⟨a, ha, rfl⟩ := hp
    by_cases h : a.mAppID = key
    · simp [h]
    · simp only [h, if_false] at hf ⊢
      exact absurd (hno (a.mAppID, a.hmiStatusLevel) (List.mem_map.mpr ⟨a, ha, rfl⟩) hf) h

/-- In a consistent registry at most one application is at level FULL. -/
theorem AppMgrRegistry.Consistent.fullItems_le_one (r : AppMgrRegistry) (hI : r.Consistent) :
    r.fullItems.length ≤ 1 := by
  obtain ⟨items, active⟩ := r
  obtain ⟨h1, h2⟩ := hI
  simp only [AppMgrRegistry.levels, AppMgrRegistry.fullItems] at *
  induction items with
  | nil => simp
  | cons a rest ih =>
    simp only [List.map_cons, List.nodup_cons, List.mem_cons, forall_eq_or_imp] at h1 h2
    by_cases hf : a.hmiStatusLevel = HMILevel.HMI_FULL
    · have hrest : rest.filter (fun a => decide (a.hmiStatusLevel = HMILevel.HMI_FULL)) = [] := by
        rw [List.filter_eq_nil_iff]
        intro b hb hbf
        have hbf1 : b.hmiStatusLevel = HMILevel.HMI_FULL := by simpa using hbf
        have e1 := h2.1 hf
        have e2 := h2.2 (b.mAppID, b.hmiStatusLevel) (List.mem_map.mpr ⟨b, hb, rfl⟩) hbf1
        rw [e1] at e2
        have e3 : a.mAppID = b.mAppID := Option.some.inj e2
        apply h1.1
        simp only [List.map_map, List.mem_map, Function.comp]
        exact ⟨b, hb, e3.symm⟩
      simp [List.filter_cons, hf, hrest]
    · simp only [List.filter_cons, hf, decide_False, Bool.false_eq_true, if_false]
      exact ih h1.2 h2.2

theorem registerApplication_consistent (core : World) (request : ALRPCMessage) (appId : Int)
    (hI : core.registry.Consistent) :
    (registerApplication core request appId).2.registry.Consistent := by
  rcases request with o | o | n
  · cases o <;> try exact hI
    rename_i o
    obtain ⟨name, media, lang, ver, ngn, vr, uvd, ty, hl, tts⟩ := o
    cases ngn <;> cases vr <;> cases uvd <;>
    · simp only [registerApplication, AppMgrRegistry.registerApplication]
      split
      · exact hI
      · exact hI.register _ _ (by assumption) rfl
  · cases o <;> try exact hI
    rename_i o
    obtain ⟨name, media, lang, ver, ngn, vr, uvd, ty, hl, tts⟩ := o
    cases ngn <;> cases vr <;> cases ty <;> cases tts <;>
    · simp only [registerApplication, AppMgrRegistry.registerApplication]
      split
      · exact hI
      · exact hI.register _ _ (by assumption) rfl
  · exact hI

theorem v1RegisterAppInterface_consistent (core : World) (key : Int) (dev : String)
    (object : RegisterAppInterface_request) (hI : core.registry.Consistent) :
    (v1RegisterAppInterface core key dev object).elim True
      (fun w => w.registry.Consistent) := by
  have h := registerApplication_consistent core
    (.v1 (.RegisterAppInterface_request object)) key hI
  dsimp only [v1RegisterAppInterface]
  split
  · exact hI
  · split
    · rename_i heq; rw [heq] at h; exact h
    · rename_i heq; rw [heq] at h; exact h

theorem v2RegisterAppInterface_consistent (core : World) (key : Int) (dev : String)
    (object : RegisterAppInterface_request) (hI : core.registry.Consistent) :
    (v2RegisterAppInterface core key dev object).elim True
      (fun w => w.registry.Consistent) := by
  have h := registerApplication_consistent core
    (.v2 (.RegisterAppInterface_request object)) key hI
  dsimp only [v2RegisterAppInterface]
  split
  · exact hI
  · split
    · rename_i heq; rw [heq] at h; exact h
    · rename_i heq; rw [heq] at h; exact h

theorem removeAppFromHmi_registry (core : World) (app : Application) (appId : Int) :
    (removeAppFromHmi core app appId).registry = core.registry.modify app.mAppID
      (fun a => { a with hmiStatusLevel := HMILevel.HMI_BACKGROUND }) := by
  refine removeAppFromHmi_preserves
    (fun w => w.registry = core.registry.modify app.mAppID
      (fun a => { a with hmiStatusLevel := HMILevel.HMI_BACKGROUND })) appId ?_ core app rfl
  intro w body h
  exact h

theorem unregisterApplication_consistent (core : World) (appId : Int)
    (hI : core.registry.Consistent) : (unregisterApplication core appId).registry.Consistent := by
  dsimp only [unregisterApplication]
  split
  · exact hI
  · exact hI.unregister _ appId

theorem v1UnregisterAppInterface_consistent (core : World) (key : Int)
    (hI : core.registry.Consistent) :
    (v1UnregisterAppInterface core key).elim True (fun w => w.registry.Consistent) := by
  dsimp only [v1UnregisterAppInterface]
  split
  · exact hI
  · rename_i app _
    refine unregisterApplication_consistent (removeAppFromHmi core app key) key ?_
    rw [removeAppFromHmi_registry]
    exact hI.background _ _

theorem v2UnregisterAppInterface_consistent (core : World) (key : Int)
    (hI : core.registry.Consistent) :
    (v2UnregisterAppInterface core key).elim True (fun w => w.registry.Consistent) := by
  dsimp only [v2UnregisterAppInterface]
  split
  · exact hI
  · rename_i app _
    refine unregisterApplication_consistent (removeAppFromHmi core app key) key ?_
    rw [removeAppFromHmi_registry]
    exact hI.background _ _

theorem keeps_trans {p q s : World × Application}
    (h1 : q.1.registry = p.1.registry ∧ q.2.mAppID = p.2.mAppID
      ∧ q.2.hmiStatusLevel = p.2.hmiStatusLevel)
    (h2 : s.1.registry = q.1.registry ∧ s.2.mAppID = q.2.mAppID
      ∧ s.2.hmiStatusLevel = q.2.hmiStatusLevel) :
    s.1.registry = p.1.registry ∧ s.2.mAppID = p.2.mAppID
      ∧ s.2.hmiStatusLevel = p.2.hmiStatusLevel :=
  ⟨h2.1.trans h1.1, h2.2.1.trans h1.2.1, h2.2.2.trans h1.2.2⟩

theorem deleteSubMenuVrLoop_keeps (key : Int) (cmd : Nat) (types : List CommandType) :
    ∀ p : World × Application,
      (deleteSubMenuVrLoop key cmd p types).1.registry = p.1.registry
      ∧ (deleteSubMenuVrLoop key cmd p types).2.mAppID = p.2.mAppID
      ∧ (deleteSubMenuVrLoop key cmd p types).2.hmiStatusLevel = p.2.hmiStatusLevel := by
  induction types with
  | nil => rintro ⟨core, app⟩; exact ⟨rfl, rfl, rfl⟩
  | cons t rest ih =>
    rintro ⟨core, app⟩
    by_cases ht : t = CommandType.VR
    · simp only [deleteSubMenuVrLoop, ht, if_true]
      exact keeps_trans (p := (core, app)) ⟨rfl, rfl, rfl⟩ (ih _)
    · simp only [deleteSubMenuVrLoop, ht, if_false]
      exact ih _

theorem deleteSubMenuLoop_keeps (key : Int) (cmds : List Nat) :
    ∀ p : World × Application,
      (deleteSubMenuLoop key p cmds).1.registry = p.1.registry
      ∧ (deleteSubMenuLoop key p cmds).2.mAppID = p.2.mAppID
      ∧ (deleteSubMenuLoop key p cmds).2.hmiStatusLevel = p.2.hmiStatusLevel := by
  induction cmds with
  | nil => rintro ⟨core, app⟩; exact ⟨rfl, rfl, rfl⟩
  | cons c rest ih =>
    rintro ⟨core, app⟩
    simp only [deleteSubMenuLoop, World.getNextMessageId]
    refine keeps_trans (p := (core, app)) ?_ (ih _)
    have hq := deleteSubMenuVrLoop_keeps key c (app.getCommandTypes c)
    exact ⟨(hq _).1, (hq _).2.1, (hq _).2.2⟩

theorem deleteSubMenu_consistent (version : ProtocolVersion) (core : World) (key : Int)
    (menuId : Nat) (hI : core.registry.Consistent) :
    (deleteSubMenu version core key menuId).elim True (fun w => w.registry.Consistent) := by
  dsimp only [deleteSubMenu, World.getApplication]
  split
  · exact hI
  · rename_i app hreg
    split
    · exact hI
    · simp only [World.getNextMessageId]
      obtain ⟨h1, h2, h3⟩ := deleteSubMenuLoop_keeps key (app.findMenuCommands menuId)
        ((({ core with nextMessageId := core.nextMessageId + 1 } : World).addMessage
          core.nextMessageId key), app)
      show AppMgrRegistry.Consistent (AppMgrRegistry.modify _ _ _)
      rw [h1]
      exact hI.put hreg h2 h3

theorem deleteCommand_consistent (version : ProtocolVersion) (core : World) (key : Int)
    (cmdID : Nat) (hI : core.registry.Consistent) :
    (deleteCommand version core key cmdID).elim True (fun w => w.registry.Consistent) := by
  dsimp only [deleteCommand, World.getApplication]
  split
  · exact hI
  · rename_i app hreg
    split
    · exact hI
    · have h := deleteCommandLoop_sub key cmdID (app.getCommandTypes cmdID) core app
      show AppMgrRegistry.Consistent (AppMgrRegistry.modify _ _ _)
      rw [h.registry]
      exact hI.put hreg h.appId h.level

theorem v1AddCommand_consistent (core : World) (key : Int) (o : AddCommand_request)
    (hI : core.registry.Consistent) :
    (v1AddCommand core key o).elim True (fun w => w.registry.Consistent) := by
  cases hreg : core.registry.getItem key with
  | none => simp only [v1AddCommand, World.getApplication, hreg]; exact hI
  | some app =>
    obtain ⟨w, app1, hs, he⟩ := (addCommand_sub core key app o hreg).1
    rw [he]
    show AppMgrRegistry.Consistent (AppMgrRegistry.modify _ _ _)
    rw [hs.registry]
    exact hI.put hreg hs.appId hs.level

theorem v2AddCommand_consistent (core : World) (key : Int) (o : AddCommand_request)
    (hI : core.registry.Consistent) :
    (v2AddCommand core key o).elim True (fun w => w.registry.Consistent) := by
  cases hreg : core.registry.getItem key with
  | none => simp only [v2AddCommand, World.getApplication, hreg]; exact hI
  | some app =>
    obtain ⟨w, app1, hs, he⟩ := (addCommand_sub core key app o hreg).2
    rw [he]
    show AppMgrRegistry.Consistent (AppMgrRegistry.modify _ _ _)
    rw [hs.registry]
    exact hI.put hreg hs.appId hs.level

theorem handleMobileV1_consistent (core : World) (key : Int) (dev : String) (o : V1Object)
    (hI : core.registry.Consistent) :
    (handleMobileV1 core key dev o).elim True (fun w => w.registry.Consistent) := by
  cases o with
  | RegisterAppInterface_request object =>
    exact v1RegisterAppInterface_consistent core key dev object hI
  | UnregisterAppInterface_request => exact v1UnregisterAppInterface_consistent core key hI
  | AddCommand_request object => exact v1AddCommand_consistent core key object hI
  | DeleteCommand_request cmdID => exact deleteCommand_consistent .V1 core key cmdID hI
  | DeleteSubMenu_request menuID => exact deleteSubMenu_consistent .V1 core key menuID hI
  | _ =>
    dsimp only [handleMobileV1, v1SubscribeButton, v1UnsubscribeButton, v1Show, v1Speak,
      v1SetGlobalProperties, v1ResetGlobalProperties, v1Alert, addSubMenu,
      createInteractionChoiceSet, deleteInteractionChoiceSet, v1PerformInteraction,
      setMediaClockTimer, v1EncodedSyncPData, genericResponse, World.getNextMessageId,
      World.issue, World.getApplication]
    repeat' split
    all_goals first
      | exact trivial
      | exact hI
      | (show AppMgrRegistry.Consistent (AppMgrRegistry.modify _ _ _)
         apply AppMgrRegistry.Consistent.put hI
         assumption
         exact rfl
         exact rfl)

theorem handleMobileV2_consistent (core : World) (key : Int) (dev : String) (o : V2Object)
    (hI : core.registry.Consistent) :
    (handleMobileV2 core key dev o).elim True (fun w => w.registry.Consistent) := by
  cases o with
  | RegisterAppInterface_request object =>
    exact v2RegisterAppInterface_consistent core key dev object hI
  | UnregisterAppInterface_request => exact v2UnregisterAppInterface_consistent core key hI
  | AddCommand_request object => exact v2AddCommand_consistent core key object hI
  | DeleteCommand_request cmdID => exact deleteCommand_consistent .V2 core key cmdID hI
  | DeleteSubMenu_request menuID => exact deleteSubMenu_consistent .V2 core key menuID hI
  | _ =>
    dsimp only [handleMobileV2, v2SubscribeButton, v2UnsubscribeButton, setMediaClockTimer,
      v2PutFile, v2DeleteFile, v2ListFiles, v2Slider, v2SetAppIcon, v2ScrollableMessage,
      v2EncodedSyncPData, v2SetGlobalProperties, v2ResetGlobalProperties,
      createInteractionChoiceSet, deleteInteractionChoiceSet, v2PerformInteraction, v2Alert,
      v2Show, v2Speak, addSubMenu, genericResponse, World.getNextMessageId, World.issue,
      World.getApplication]
    repeat' split
    all_goals first
      | exact trivial
      | exact hI
      | (show AppMgrRegistry.Consistent (AppMgrRegistry.modify _ _ _)
         apply AppMgrRegistry.Consistent.put hI
         assumption
         exact rfl
         exact rfl)

theorem handleMobileRPCMessage_consistent (core : World) (msg : ALRPCMessage) (key : Int)
    (hI : core.registry.Consistent) :
    (handleMobileRPCMessage core msg key).elim True (fun w => w.registry.Consistent) := by
  dsimp only [handleMobileRPCMessage]
  split
  · exact hI
  · rename_i dev _
    rcases msg with o | o | n
    · exact handleMobileV1_consistent core key dev o hI
    · exact handleMobileV2_consistent core key dev o hI
    · dsimp only [genericResponse]
      repeat' split
      all_goals exact hI

theorem replayChoiceSets_preserves (P : World → Prop) (appId : Int)
    (hP : ∀ w body, P w → P (w.issue body appId)) (app : Application)
    (l : List (Nat × ChoiceSet)) :
    ∀ core, P core → P (replayChoiceSets core app appId l) := by
  induction l with
  | nil => intro core h; exact h
  | cons e rest ih =>
    intro core h
    obtain ⟨choiceSetId, v⟩ := e
    exact ih _ (hP _ _ h)

theorem replayMenus_preserves (P : World → Prop) (appId : Int)
    (hP : ∀ w body, P w → P (w.issue body appId)) (app : Application)
    (l : List (Nat × (String × Option Nat))) :
    ∀ core, P core → P (replayMenus core app appId l) := by
  induction l with
  | nil => intro core h; exact h
  | cons e rest ih =>
    intro core h
    obtain ⟨menuId, menuName, position⟩ := e
    exact ih _ (hP _ _ h)

theorem replayCommands_preserves (P : World → Prop) (appId : Int)
    (hP : ∀ w body, P w → P (w.issue body appId)) (app : Application)
    (l : List ((Nat × CommandType) × CommandParams)) :
    ∀ core w, P core → replayCommands core app appId l = some w → P w := by
  induction l with
  | nil =>
    intro core w h hw
    simp only [replayCommands, Option.some.injEq] at hw
    rw [← hw]; exact h
  | cons e rest ih =>
    intro core w h hw
    obtain ⟨⟨cmdId, type⟩, menuParams, menuParamsV2, vrCommands⟩ := e
    cases type with
    | UI =>
      cases menuParams with
      | none => simp [replayCommands] at hw
      | some mp => exact ih _ w (hP _ _ h) hw
    | VR =>
      cases vrCommands with
      | none => simp [replayCommands] at hw
      | some vr => exact ih _ w (hP _ _ h) hw
    | UNDEFINED => exact ih _ w h hw

theorem activateAppNotify_registry (core : World) (app : Application) (appId : Int)
    (id : Nat) :
    (activateAppNotify core app appId id).registry = core.registry.modify app.mAppID
      (fun a => { a with audioStreamingState :=
        if app.isMediaApplication then AudioStreamingState.AUDIBLE
        else AudioStreamingState.NOT_AUDIBLE }) := by
  dsimp only [activateAppNotify]
  repeat' split
  all_goals rfl

theorem AppMgrRegistry.getActiveItem_getItem (r : AppMgrRegistry) (app : Application)
    (h : r.getActiveItem = some app) :
    r.active = some app.mAppID ∧ r.getItem app.mAppID = some app := by
  simp only [AppMgrRegistry.getActiveItem] at h
  split at h
  · exact absurd h (by simp)
  · rename_i k hk
    have := AppMgrRegistry.getItem_mAppID r k app h
    rw [this]
    exact ⟨hk, h⟩

theorem World.findRegistryItemAssignedToCommand_getItem (core : World) (id : Nat)
    (app : Application) (h : core.findRegistryItemAssignedToCommand id = some app) :
    core.registry.getItem app.mAppID = some app := by
  simp only [World.findRegistryItemAssignedToCommand] at h
  split at h
  · exact absurd h (by simp)
  · rename_i k _
    have := AppMgrRegistry.getItem_mAppID core.registry k app h
    rw [this]
    exact h

/-- In a consistent registry without an active application no application is at FULL. -/
theorem AppMgrRegistry.Consistent.no_full_of_no_active (r : AppMgrRegistry)
    (hI : r.Consistent) (h : r.getActiveItem = none) :
    ∀ p ∈ r.levels, p.2 ≠ HMILevel.HMI_FULL := by
  intro p hp hf
  have ha := hI.2 p hp hf
  simp only [AppMgrRegistry.getActiveItem, ha] at h
  simp only [AppMgrRegistry.levels, List.mem_map] at hp
  obtain ⟨a, ha1, rfl⟩ := hp
  simp only [AppMgrRegistry.getItem, List.find?_eq_none] at h
  exact h a ha1 (by simp)

/-- Once the active application of a consistent registry is set to BACKGROUND no
application is at FULL. -/
theorem AppMgrRegistry.Consistent.no_full_after_background (r : AppMgrRegistry)
    (currentApp : Application) (hI : r.Consistent) (h : r.getActiveItem = some currentApp) :
    ∀ p ∈ (r.modify currentApp.mAppID
        (fun a => { a with hmiStatusLevel := HMILevel.HMI_BACKGROUND })).levels,
      p.2 ≠ HMILevel.HMI_FULL := by
  obtain ⟨hact, _⟩ := AppMgrRegistry.getActiveItem_getItem r currentApp h
  intro p hp hf
  simp only [AppMgrRegistry.levels, AppMgrRegistry.modify, List.map_map, List.mem_map,
    Function.comp] at hp
  obtain ⟨a, ha, rfl⟩ := hp
  by_cases hk : a.mAppID = currentApp.mAppID
  · simp [hk] at hf
  · simp only [hk, if_false] at hf
    have := hI.2 (a.mAppID, a.hmiStatusLevel) (List.mem_map.mpr ⟨a, ha, rfl⟩) hf
    rw [hact] at this
    exact hk (Option.some.inj this).symm

theorem activateAppAndReplay_consistent (core : World) (app : Application) (appId : Int)
    (id : Nat) (hI : core.registry.Consistent)
    (hno : ∀ p ∈ core.registry.levels, p.2 ≠ HMILevel.HMI_FULL) :
    (activateAppAndReplay core app appId id).elim True (fun w => w.registry.Consistent) := by
  cases hg : core.registry.getItem app.mAppID with
  | none =>
    simp only [activateAppAndReplay, AppMgrRegistry.activateApp, hg]
    exact hI
  | some a =>
    simp only [activateAppAndReplay, AppMgrRegistry.activateApp, hg]
    split
    · exact trivial
    · rename_i w hw
      have hreg : w.registry.Consistent := by
        refine replayCommands_preserves (fun w => w.registry.Consistent) appId
          (fun _ _ h => h) app _ _ w ?_ hw
        refine replayMenus_preserves (fun w => w.registry.Consistent) appId
          (fun _ _ h => h) app _ _ ?_
        refine replayChoiceSets_preserves (fun w => w.registry.Consistent) appId
          (fun _ _ h => h) app _ _ ?_
        exact AppMgrRegistry.Consistent.activate core.registry app.mAppID hI.1
          (fun p hp hf => absurd hf (hno p hp))
      show (activateAppNotify w app appId id).registry.Consistent
      rw [activateAppNotify_registry]
      exact hreg.modify _ _ _ (fun a => ⟨rfl, rfl⟩)

theorem busActivateApp_consistent (core : World) (id : Nat) (appName : String)
    (hI : core.registry.Consistent) :
    (busActivateApp core id appName).elim True (fun w => w.registry.Consistent) := by
  dsimp only [busActivateApp]
  split
  · exact hI
  · rename_i app _ _
    split
    · rename_i hnone
      exact activateAppAndReplay_consistent core app app.mAppID id hI
        (hI.no_full_of_no_active _ hnone)
    · rename_i currentApp hsome
      split
      · exact hI
      · apply activateAppAndReplay_consistent
        · rw [removeAppFromHmi_registry]
          exact hI.background _ _
        · rw [removeAppFromHmi_registry]
          exact hI.no_full_after_background _ currentApp hsome

theorem busCommandResponse_consistent (core : World) (name : ResponseName) (id : Nat)
    (R : Result) (hI : core.registry.Consistent) :
    (busCommandResponse core name id R).elim True (fun w => w.registry.Consistent) := by
  dsimp only [busCommandResponse]
  split
  · exact hI
  · rename_i app happ
    have hreg := World.findRegistryItemAssignedToCommand_getItem core id app happ
    have hput : (core.putApplication (app.decrementUnrespondedRequestCount
        (core.findRequestIdAssignedToMessage id))).registry.Consistent :=
      hI.put hreg rfl rfl
    repeat' split
    all_goals exact hput

theorem busOnSystemContext_consistent (core : World) (systemContext : SystemContext)
    (hI : core.registry.Consistent) :
    (busOnSystemContext core systemContext).elim True (fun w => w.registry.Consistent) := by
  dsimp only [busOnSystemContext]
  split
  · exact hI
  · rename_i app happ
    have hreg := (AppMgrRegistry.getActiveItem_getItem core.registry app happ).2
    have hput : (core.putApplication
        { app with systemContext := systemContext }).registry.Consistent :=
      hI.put hreg rfl rfl
    repeat' split
    all_goals first | exact hI | exact hput

@[simp] theorem World.sendRequest_registry (w : World) (r : RPC2Request) :
    (w.sendRequest r).registry = w.registry := rfl

theorem busOnReady_consistent (core : World) (hI : core.registry.Consistent) :
    (busOnReady core).elim True (fun w => w.registry.Consistent) := by
  simp only [busOnReady, Option.elim, World.sendRequest_registry]
  exact hI

theorem handleBusRPCMessageIncoming_consistent (core : World) (msg : RPC2Command)
    (hI : core.registry.Consistent) :
    (handleBusRPCMessageIncoming core msg).elim True (fun w => w.registry.Consistent) := by
  cases msg with
  | AppLinkCore_ActivateApp id appName => exact busActivateApp_consistent core id appName hI
  | UI_AddCommandResponse id result => exact busCommandResponse_consistent core _ id result hI
  | UI_DeleteCommandResponse id result =>
    exact busCommandResponse_consistent core _ id result hI
  | VR_AddCommandResponse id result => exact busCommandResponse_consistent core _ id result hI
  | VR_DeleteCommandResponse id result =>
    exact busCommandResponse_consistent core _ id result hI
  | UI_OnSystemContext systemContext =>
    exact busOnSystemContext_consistent core systemContext hI
  | UI_OnReady => exact busOnReady_consistent core hI
  | _ =>
    dsimp only [handleBusRPCMessageIncoming, busOnButtonEvent, busOnButtonPress,
      busOnCommand, busShowResponse, busSimpleResponse, busOnDriverDistraction,
      busV2OnlyResponse, busOnDeviceChosen, busSendData, busGetAppList, busGetDeviceList]
    repeat' split
    all_goals exact hI

theorem step_consistent (core : World) (e : Event) (hI : core.registry.Consistent) :
    (step core e).elim True (fun w => w.registry.Consistent) := by
  cases e with
  | mobile msg key => exact handleMobileRPCMessage_consistent core msg key hI
  | bus msg => exact handleBusRPCMessageIncoming_consistent core msg hI
  | setDeviceList deviceList => exact hI
  | addDevice key device => exact hI
  | removeDevice key => exact hI

theorem run_consistent (events : List Event) :
    ∀ core w : World, core.registry.Consistent → run core events = some w →
      w.registry.Consistent := by
  induction events with
  | nil =>
    intro core w hI h
    simp only [run, Option.some.injEq] at h
    rw [← h]; exact hI
  | cons e rest ih =>
    intro core w hI h
    have hs := step_consistent core e hI
    simp only [run] at h
    cases hstep : step core e with
    | none => simp [hstep] at h
    | some core1 =>
      rw [hstep] at hs h
      exact ih core1 w hs h

/-- C7: in every state that a run of mobile messages, HMI messages and device events
reaches from a state with an empty registry, at most one registered application has HMI
level FULL, and an application at FULL is the one under the active pointer of the
registry. -/
theorem at_most_one_application_full (core : World) (events : List Event) (w : World)
    (hempty : core.registry.items = [])
    (h : run core events = some w) :
    w.registry.fullItems.length ≤ 1
      ∧ ∀ a ∈ w.registry.items, a.hmiStatusLevel = HMILevel.HMI_FULL →
          w.registry.active = some a.mAppID := by
  have h0 : core.registry.Consistent := by
    simp only [AppMgrRegistry.Consistent, AppMgrRegistry.levels, hempty, List.map_nil,
      List.nodup_nil, List.not_mem_nil, false_implies, implies_true, and_self]
  have hI := run_consistent events core w h0 h
  refine ⟨hI.fullItems_le_one, ?_⟩
  intro a ha hf
  exact hI.2 (a.mAppID, a.hmiStatusLevel) (List.mem_map.mpr ⟨a, ha, rfl⟩) hf

theorem at_most_one_application_full_witness :
    (sampleStart.registry.items = [] ∧ run sampleStart sampleSwapRun = some sampleSwapped
      ∧ sampleSwapped.registry.fullItems.map Application.mAppID = [18])
    ∧ (sampleSwapped.registry.fullItems.length ≤ 1
      ∧ ∀ a ∈ sampleSwapped.registry.items, a.hmiStatusLevel = HMILevel.HMI_FULL →
          sampleSwapped.registry.active = some a.mAppID) :=
  ⟨⟨by decide, by decide, by decide⟩,
   at_most_one_application_full sampleStart sampleSwapRun sampleSwapped
     (by decide) (by decide)⟩

theorem unregister_sweeps_message_mapping_witness :
    (sampleShown.currentDevice 17 = some "phone"
      ∧ sampleShown.registry.getItem 17 = some sampleRadioActive
      ∧ (sampleShown.mMessageMapping.map Prod.fst).Nodup
      ∧ Table.find 1 sampleShown.mMessageMapping = some 17)
    ∧ ∃ w1, handleMobileRPCMessage sampleShown (.v1 .UnregisterAppInterface_request) 17
          = some w1
        ∧ Table.find 1 w1.mMessageMapping = none
        ∧ (∀ e ∈ w1.mMessageMapping, e.2 ≠ 17)
        ∧ w1.registry.getItem 17 = none
        ∧ ∀ R, handleBusRPCMessageIncoming w1 (.UI_ShowResponse 1 R) = some w1 :=
  ⟨⟨by decide, by decide, by decide, by decide⟩,
   unregister_sweeps_message_mapping sampleShown 17 "phone" sampleRadioActive 1 _
     (Or.inl rfl) (by decide) (by decide) (by decide) (by decide)⟩

/-! ## Registration -/

theorem AppMgrRegistry.getItem_append_new (r : AppMgrRegistry) (app : Application)
    (h : r.getItem app.mAppID = none) :
    AppMgrRegistry.getItem { r with items := r.items ++ [app] } app.mAppID = some app := by
  simp only [AppMgrRegistry.getItem] at h ⊢
  rw [List.find?_append, h]
  simp

/-- C11. A RegisterAppInterface (v1 or v2) on a session key `S` that has no application
(its device being known) registers an application under `S` with the requested name, the
protocol version of the request, HMI level NONE and system context MAIN, and sends exactly
three messages, in this order: a mobile `OnHMIStatus` with `hmiLevel = NONE`, a mobile
`RegisterAppInterface_response` with `success = true` and `resultCode = SUCCESS`, and an
`OnAppRegistered` on the bus with that name, `appId = S` and the protocol version of the
request as `versionNumber`. -/
theorem register_on_free_key (core : World) (S : Int) (dev : String)
    (object : RegisterAppInterface_request)
    (hdev : core.currentDevice S = some dev)
    (hfree : core.registry.getItem S = none) :
    (∃ app w,
      handleMobileRPCMessage core (.v1 (.RegisterAppInterface_request object)) S = some w
      ∧ w.registry.items = core.registry.items ++ [app]
      ∧ w.registry.getItem S = some app
      ∧ app.mName = object.appName ∧ app.mAppID = S ∧ app.protocolVersion = .V1
      ∧ app.hmiStatusLevel = HMILevel.HMI_NONE
      ∧ app.systemContext = SystemContext.SYSCTXT_MAIN
      ∧ w.sent = core.sent ++
          [Out.mobile S (.OnHMIStatus .V1 HMILevel.HMI_NONE app.audioStreamingState
              SystemContext.SYSCTXT_MAIN),
           Out.mobile S (.response .V1 .RegisterAppInterface true .SUCCESS
              (.registered core.caps object.syncMsgVersion)),
           Out.notify (.OnAppRegistered object.appName S object.isMediaApplication
              object.languageDesired app.vrSynonyms dev 1 [] none [])])
    ∧ (∃ app w,
      handleMobileRPCMessage core (.v2 (.RegisterAppInterface_request object)) S = some w
      ∧ w.registry.items = core.registry.items ++ [app]
      ∧ w.registry.getItem S = some app
      ∧ app.mName = object.appName ∧ app.mAppID = S ∧ app.protocolVersion = .V2
      ∧ app.hmiStatusLevel = HMILevel.HMI_NONE
      ∧ app.systemContext = SystemContext.SYSCTXT_MAIN
      ∧ w.sent = core.sent ++
          [Out.mobile S (.OnHMIStatus .V2 HMILevel.HMI_NONE app.audioStreamingState
              SystemContext.SYSCTXT_MAIN),
           Out.mobile S (.response .V2 .RegisterAppInterface true .SUCCESS
              (.registered core.caps object.syncMsgVersion)),
           Out.notify (.OnAppRegistered object.appName S object.isMediaApplication
              object.languageDesired app.vrSynonyms dev 2 app.appType
              (some object.hmiDisplayLanguageDesired) app.ttsName)]) := by
  obtain ⟨name, media, lang, ver, ngn, vr, uvd, ty, hl, tts⟩ := object
  constructor
  · cases ngn <;> cases vr <;> cases uvd <;>
    · simp only [handleMobileRPCMessage, hdev, handleMobileV1, v1RegisterAppInterface, hfree,
        registerApplication, AppMgrRegistry.registerApplication]
      refine ⟨_, _, rfl, rfl, ?_, rfl, rfl, rfl, rfl, rfl, ?_⟩
      · exact AppMgrRegistry.getItem_append_new core.registry _ hfree
      · simp [World.sendRPCMessage, World.sendNotification]
  · cases ngn <;> cases vr <;> cases ty <;> cases tts <;>
    · simp only [handleMobileRPCMessage, hdev, handleMobileV2, v2RegisterAppInterface, hfree,
        registerApplication, AppMgrRegistry.registerApplication]
      refine ⟨_, _, rfl, rfl, ?_, rfl, rfl, rfl, rfl, rfl, ?_⟩
      · exact AppMgrRegistry.getItem_append_new core.registry _ hfree
      · simp [World.sendRPCMessage, World.sendNotification]

theorem register_on_free_key_witness :
    (sampleConnected.currentDevice 17 = some "phone"
      ∧ sampleConnected.registry.getItem 17 = none)
    ∧ (∃ app w,
        handleMobileRPCMessage sampleConnected
          (.v1 (.RegisterAppInterface_request (sampleRegister "Radio" true))) 17 = some w
        ∧ w.registry.items = sampleConnected.registry.items ++ [app]
        ∧ w.registry.getItem 17 = some app
        ∧ app.mName = "Radio" ∧ app.mAppID = 17 ∧ app.protocolVersion = .V1
        ∧ app.hmiStatusLevel = HMILevel.HMI_NONE
        ∧ app.systemContext = SystemContext.SYSCTXT_MAIN
        ∧ w.sent = sampleConnected.sent ++
            [Out.mobile 17 (.OnHMIStatus .V1 HMILevel.HMI_NONE app.audioStreamingState
                SystemContext.SYSCTXT_MAIN),
             Out.mobile 17 (.response .V1 .RegisterAppInterface true .SUCCESS
                (.registered sampleConnected.caps (1, 0))),
             Out.notify (.OnAppRegistered "Radio" 17 true 0 app.vrSynonyms "phone" 1 [] none
                [])]) :=
  ⟨⟨by decide, by decide⟩,
   (register_on_free_key sampleConnected 17 "phone" (sampleRegister "Radio" true)
      (by decide) (by decide)).1⟩

/-! ## The HMI level NONE -/

/-- C12, evaluated where the code departs from it. Session 17 runs a registered
application at HMI level NONE (registered over v1 in the first world, over v2 in the
second). A v1 Alert and a v1 AddCommand, and a v2 Show, Speak, Alert, SetGlobalProperties
and AddCommand, each issue their HMI requests; none is answered with REJECTED: for each
the pair gives the number of HMI requests issued and of REJECTED responses sent. The
sibling cases v1 Show, Speak and SetGlobalProperties do test the level: each issues no
request and sends one REJECTED response. -/
theorem requests_at_level_none_not_rejected :
    ((sampleRegistered.registry.getItem 17).map (fun a => a.hmiStatusLevel)
        = some HMILevel.HMI_NONE
      ∧ (sampleRegisteredV2.registry.getItem 17).map (fun a => a.hmiStatusLevel)
        = some HMILevel.HMI_NONE)
    ∧ ([ALRPCMessage.v1 (.Alert_request sampleAlert),
        ALRPCMessage.v1 (.AddCommand_request sampleAddCommand)].map
        (fun m => (emitted sampleRegistered m 17).map
          (fun l => ((l.filter Out.isRequest).length, (l.filter Out.isRejected).length)))
      = [some (1, 0), some (2, 0)])
    ∧ ([ALRPCMessage.v2 (.Show_request sampleShow), ALRPCMessage.v2 (.Speak_request sampleSpeak),
        ALRPCMessage.v2 (.Alert_request sampleAlert),
        ALRPCMessage.v2 (.SetGlobalProperties_request sampleGlobalProperties),
        ALRPCMessage.v2 (.AddCommand_request sampleAddCommand)].map
        (fun m => (emitted sampleRegisteredV2 m 17).map
          (fun l => ((l.filter Out.isRequest).length, (l.filter Out.isRejected).length)))
      = [some (1, 0), some (1, 0), some (1, 0), some (1, 0), some (2, 0)])
    ∧ ([ALRPCMessage.v1 (.Show_request sampleShow), ALRPCMessage.v1 (.Speak_request sampleSpeak),
        ALRPCMessage.v1 (.SetGlobalProperties_request sampleGlobalProperties)].map
        (fun m => (emitted sampleRegistered m 17).map
          (fun l => ((l.filter Out.isRequest).length, (l.filter Out.isRejected).length)))
      = [some (0, 1), some (0, 1), some (0, 1)]) := by
  decide

/-- The cases that test the HMI level. For a registered application whose HMI level is
NONE, each of the protocol-v1 requests Show, Speak and SetGlobalProperties is answered at once with
`success = false` and `resultCode = REJECTED`; that response is the only thing sent, so no
HMI request is issued, and nothing else in the world changes: no correlation entry is
recorded and the application is as before. -/
theorem v1_requests_rejected_at_level_none (core : World) (S : Int) (dev : String)
    (app : Application) (showRequest : Show_request) (chunks : List TTSChunk)
    (props : SetGlobalProperties_request)
    (hdev : core.currentDevice S = some dev)
    (hreg : core.registry.getItem S = some app)
    (hnone : app.hmiStatusLevel = HMILevel.HMI_NONE) :
    handleMobileRPCMessage core (.v1 (.Show_request showRequest)) S
      = some { core with sent := core.sent ++
          [Out.mobile S (.response .V1 .Show false .REJECTED .empty)] }
    ∧ handleMobileRPCMessage core (.v1 (.Speak_request chunks)) S
      = some { core with sent := core.sent ++
          [Out.mobile S (.response .V1 .Speak false .REJECTED .empty)] }
    ∧ handleMobileRPCMessage core (.v1 (.SetGlobalProperties_request props)) S
      = some { core with sent := core.sent ++
          [Out.mobile S (.response .V1 .SetGlobalProperties false .REJECTED .empty)] } := by
  refine ⟨?_, ?_, ?_⟩ <;>
    simp [handleMobileRPCMessage, hdev, handleMobileV1, v1Show, v1Speak, v1SetGlobalProperties,
      World.getApplication, hreg, hnone, World.sendRPCMessage, mkResponse]

theorem v1_requests_rejected_at_level_none_witness :
    (sampleRegistered.currentDevice 17 = some "phone"
      ∧ sampleRegistered.registry.getItem 17 = some sampleRadio
      ∧ sampleRadio.hmiStatusLevel = HMILevel.HMI_NONE)
    ∧ (handleMobileRPCMessage sampleRegistered (.v1 (.Show_request sampleShow)) 17
        = some { sampleRegistered with sent := sampleRegistered.sent ++
            [Out.mobile 17 (.response .V1 .Show false .REJECTED .empty)] }
      ∧ handleMobileRPCMessage sampleRegistered (.v1 (.Speak_request sampleSpeak)) 17
        = some { sampleRegistered with sent := sampleRegistered.sent ++
            [Out.mobile 17 (.response .V1 .Speak false .REJECTED .empty)] }
      ∧ handleMobileRPCMessage sampleRegistered
          (.v1 (.SetGlobalProperties_request sampleGlobalProperties)) 17
        = some { sampleRegistered with sent := sampleRegistered.sent ++
            [Out.mobile 17 (.response .V1 .SetGlobalProperties false .REJECTED .empty)] }) :=
  ⟨⟨by decide, by decide, by decide⟩,
   v1_requests_rejected_at_level_none sampleRegistered 17 "phone" sampleRadio sampleShow
     sampleSpeak sampleGlobalProperties (by decide) (by decide) (by decide)⟩

/-- C13, evaluated where the code departs from it. Session 17 runs an application
registered over v2, at HMI level NONE, and sends a v2 SubscribeButton for button 3: the
answer has `success = true` and `resultCode = SUCCESS`, and the button mapping then holds
`3 → 17`. The v1 case does test the level: for the application registered over v1, at
level NONE, a v1 SubscribeButton for button 3 is answered with REJECTED and the button
mapping stays empty. -/
theorem v2_subscribeButton_at_level_none_accepted :
    (sampleRegisteredV2.registry.getItem 17).map (fun a => a.hmiStatusLevel)
      = some HMILevel.HMI_NONE
    ∧ sampleRegisteredV2.mButtonsMapping = []
    ∧ (handleMobileRPCMessage sampleRegisteredV2 (.v2 (.SubscribeButton_request 3)) 17).map
        (fun w => (w.sent.drop sampleRegisteredV2.sent.length, w.mButtonsMapping))
      = some ([Out.mobile 17 (.response .V2 .SubscribeButton true .SUCCESS .empty)],
              [(3, 17)])
    ∧ (sampleRegistered.registry.getItem 17).map (fun a => a.hmiStatusLevel)
      = some HMILevel.HMI_NONE
    ∧ (handleMobileRPCMessage sampleRegistered (.v1 (.SubscribeButton_request 3)) 17).map
        (fun w => (w.sent.drop sampleRegistered.sent.length, w.mButtonsMapping))
      = some ([Out.mobile 17 (.response .V1 .SubscribeButton false .REJECTED .empty)],
              []) := by
  decide

/-- The v1 case of SubscribeButton tests the HMI level. For a registered application whose
HMI level is NONE, a protocol-v1 SubscribeButton is answered with `success = false` and `resultCode = REJECTED`; that
response is the only thing sent and nothing else changes, so the button mapping is as
before. -/
theorem v1_subscribeButton_rejected_at_level_none (core : World) (S : Int) (dev : String)
    (app : Application) (b : Nat)
    (hdev : core.currentDevice S = some dev)
    (hreg : core.registry.getItem S = some app)
    (hnone : app.hmiStatusLevel = HMILevel.HMI_NONE) :
    handleMobileRPCMessage core (.v1 (.SubscribeButton_request b)) S
      = some { core with sent := core.sent ++
          [Out.mobile S (.response .V1 .SubscribeButton false .REJECTED .empty)] } := by
  simp [handleMobileRPCMessage, hdev, handleMobileV1, v1SubscribeButton, hreg, hnone,
    World.sendRPCMessage, mkResponse]

theorem v1_subscribeButton_rejected_at_level_none_witness :
    (sampleRegistered.currentDevice 17 = some "phone"
      ∧ sampleRegistered.registry.getItem 17 = some sampleRadio
      ∧ sampleRadio.hmiStatusLevel = HMILevel.HMI_NONE)
    ∧ handleMobileRPCMessage sampleRegistered (.v1 (.SubscribeButton_request 3)) 17
        = some { sampleRegistered with sent := sampleRegistered.sent ++
            [Out.mobile 17 (.response .V1 .SubscribeButton false .REJECTED .empty)] } :=
  ⟨⟨by decide, by decide, by decide⟩,
   v1_subscribeButton_rejected_at_level_none sampleRegistered 17 "phone" sampleRadio 3
     (by decide) (by decide) (by decide)⟩

/-! ## A session without an application -/

/-- C14, evaluated where the code departs from it. Session 17 has a known device and no
application. Of the requests of `sampleUnansweredRequests`, none is answered with
APPLICATION_NOT_REGISTERED: for each the triple gives the number of HMI requests issued,
of mobile messages sent and of APPLICATION_NOT_REGISTERED responses among them, and `none`
marks a request whose handling dereferences the missing application. A v1 Show, Speak,
SetGlobalProperties or UnsubscribeButton sends nothing at all; a v1 ResetGlobalProperties,
Alert or SetMediaClockTimer issues its HMI request. The sibling cases, here a v1
AddCommand, a v1 DeleteSubMenu, a v2 SubscribeButton and a v2 DeleteCommand, do test the
application: each issues no request and sends one message, an APPLICATION_NOT_REGISTERED
response. -/
theorem requests_without_application_unanswered :
    sampleConnected.registry.getItem 17 = none
    ∧ sampleUnansweredRequests.map (fun m => (emitted sampleConnected m 17).map
        (fun l => ((l.filter Out.isRequest).length, (l.filter Out.isMobile).length,
                   (l.filter Out.isNotRegistered).length)))
      = [some (0, 0, 0), some (0, 0, 0), some (0, 0, 0), some (0, 0, 0), some (1, 1, 0),
         some (1, 0, 0), some (1, 0, 0), none, some (0, 1, 0),
         some (0, 1, 0), some (1, 0, 0), none, none, none, some (1, 0, 0), some (0, 0, 0),
         some (0, 0, 0), none, some (1, 1, 0), some (1, 1, 0), some (1, 0, 0), some (1, 0, 0),
         some (1, 0, 0)]
    ∧ [ALRPCMessage.v1 (.AddCommand_request sampleAddCommand),
       ALRPCMessage.v1 (.DeleteSubMenu_request 3), ALRPCMessage.v2 (.SubscribeButton_request 3),
       ALRPCMessage.v2 (.DeleteCommand_request 42)].map
        (fun m => (emitted sampleConnected m 17).map
          (fun l => ((l.filter Out.isRequest).length, (l.filter Out.isMobile).length,
                     (l.filter Out.isNotRegistered).length)))
      = [some (0, 1, 1), some (0, 1, 1), some (0, 1, 1), some (0, 1, 1)] := by
  decide

/-- The cases that test the application. For each of the requests UnregisterAppInterface, SubscribeButton,
AddCommand, DeleteCommand, AddSubMenu, DeleteSubMenu, CreateInteractionChoiceSet,
DeleteInteractionChoiceSet and PerformInteraction, in either protocol version, arriving on
a session key that has no application (its device being known), the handler sends one
response of the class and version of the request with `success = false` and
`resultCode = APPLICATION_NOT_REGISTERED`; that response is the only thing sent, so no
HMI request is issued, and no state changes. -/
theorem unregistered_session_answered_not_registered (core : World) (S : Int) (dev : String)
    (msg : ALRPCMessage) (v : ProtocolVersion) (n : ResponseName)
    (hdev : core.currentDevice S = some dev)
    (hfree : core.registry.getItem S = none)
    (hmsg : msg.answeredWhenUnregistered = some (v, n)) :
    handleMobileRPCMessage core msg S
      = some { core with sent := core.sent ++
          [Out.mobile S (.response v n false .APPLICATION_NOT_REGISTERED .empty)] } := by
  rcases msg with o | o | k
  · cases o <;> simp only [ALRPCMessage.answeredWhenUnregistered, Option.some.injEq,
      Prod.mk.injEq, reduceCtorEq] at hmsg <;> obtain ⟨rfl, rfl⟩ := hmsg <;>
      simp [handleMobileRPCMessage, hdev, handleMobileV1, v1UnregisterAppInterface,
        v1SubscribeButton, v1AddCommand, deleteCommand, addSubMenu, deleteSubMenu,
        createInteractionChoiceSet, deleteInteractionChoiceSet, v1PerformInteraction,
        World.getApplication, hfree, World.sendRPCMessage, mkResponse]
  · cases o <;> simp only [ALRPCMessage.answeredWhenUnregistered, Option.some.injEq,
      Prod.mk.injEq, reduceCtorEq] at hmsg <;> obtain ⟨rfl, rfl⟩ := hmsg <;>
      simp [handleMobileRPCMessage, hdev, handleMobileV2, v2UnregisterAppInterface,
        v2SubscribeButton, v2AddCommand, deleteCommand, addSubMenu, deleteSubMenu,
        createInteractionChoiceSet, deleteInteractionChoiceSet, v2PerformInteraction,
        World.getApplication, hfree, World.sendRPCMessage, mkResponse]
  · simp [ALRPCMessage.answeredWhenUnregistered] at hmsg

theorem unregistered_session_answered_not_registered_witness :
    (sampleConnected.currentDevice 17 = some "phone"
      ∧ sampleConnected.registry.getItem 17 = none
      ∧ (ALRPCMessage.v2 (.DeleteCommand_request 42)).answeredWhenUnregistered
          = some (.V2, .DeleteCommand))
    ∧ handleMobileRPCMessage sampleConnected (.v2 (.DeleteCommand_request 42)) 17
        = some { sampleConnected with sent := sampleConnected.sent ++
            [Out.mobile 17 (.response .V2 .DeleteCommand false .APPLICATION_NOT_REGISTERED
              .empty)] } :=
  ⟨⟨by decide, by decide, by decide⟩,
   unregistered_session_answered_not_registered sampleConnected 17 "phone"
     (.v2 (.DeleteCommand_request 42)) .V2 .DeleteCommand (by decide) (by decide) (by decide)⟩

/-! ## References to items the application does not hold -/

/-- C15. For a registered application, in either protocol version: a PerformInteraction
whose list of choice-set ids contains an id the application does not hold, a
DeleteInteractionChoiceSet of an id it does not hold, and a DeleteSubMenu of a menu id it
does not hold are each answered with `success = false` and `resultCode = INVALID_DATA`;
that response is the only thing sent, so no HMI request is issued, and nothing else in
the world changes: the application and the correlation tables are as before. -/
theorem absent_reference_answered_invalid_data (core : World) (S : Int) (dev : String)
    (app : Application)
    (hdev : core.currentDevice S = some dev)
    (hreg : core.registry.getItem S = some app) :
    (∀ (o : PerformInteraction_request) (alert : Alert_request),
      (∃ i ∈ o.interactionChoiceSetIDList, app.findChoiceSet i = none) →
      handleMobileRPCMessage core (.v1 (.PerformInteraction_request o)) S
        = some { core with sent := core.sent ++
            [Out.mobile S (.response .V1 .PerformInteraction false .INVALID_DATA .empty)] }
      ∧ handleMobileRPCMessage core (.v2 (.PerformInteraction_request o alert)) S
        = some { core with sent := core.sent ++
            [Out.mobile S (.response .V2 .PerformInteraction false .INVALID_DATA .empty)] })
    ∧ (∀ i : Nat, app.findChoiceSet i = none →
      handleMobileRPCMessage core (.v1 (.DeleteInteractionChoiceSet_request i)) S
        = some { core with sent := core.sent ++
            [Out.mobile S (.response .V1 .DeleteInteractionChoiceSet false .INVALID_DATA
              .empty)] }
      ∧ handleMobileRPCMessage core (.v2 (.DeleteInteractionChoiceSet_request i)) S
        = some { core with sent := core.sent ++
            [Out.mobile S (.response .V2 .DeleteInteractionChoiceSet false .INVALID_DATA
              .empty)] })
    ∧ (∀ m : Nat, app.findMenu m = none →
      handleMobileRPCMessage core (.v1 (.DeleteSubMenu_request m)) S
        = some { core with sent := core.sent ++
            [Out.mobile S (.response .V1 .DeleteSubMenu false .INVALID_DATA .empty)] }
      ∧ handleMobileRPCMessage core (.v2 (.DeleteSubMenu_request m)) S
        = some { core with sent := core.sent ++
            [Out.mobile S (.response .V2 .DeleteSubMenu false .INVALID_DATA .empty)] }) := by
  refine ⟨?_, ?_, ?_⟩
  · rintro o alert ⟨i, hi, hnone⟩
    have hall : ¬ (o.interactionChoiceSetIDList.all
        (fun choiceSetId => (app.findChoiceSet choiceSetId).isSome) = true) := by
      rw [List.all_eq_true]
      intro h
      have := h i hi
      rw [hnone] at this
      exact absurd this (by decide)
    constructor <;>
      simp [handleMobileRPCMessage, hdev, handleMobileV1, handleMobileV2, v1PerformInteraction,
        v2PerformInteraction, World.getApplication, hreg, hall, World.sendRPCMessage,
        mkResponse]
  · intro i hnone
    constructor <;>
      simp [handleMobileRPCMessage, hdev, handleMobileV1, handleMobileV2,
        deleteInteractionChoiceSet, World.getApplication, hreg, hnone, World.sendRPCMessage,
        mkResponse]
  · intro m hnone
    constructor <;>
      simp [handleMobileRPCMessage, hdev, handleMobileV1, handleMobileV2, deleteSubMenu,
        World.getApplication, hreg, hnone, World.sendRPCMessage, mkResponse]

theorem absent_reference_answered_invalid_data_witness :
    (sampleRegistered.currentDevice 17 = some "phone"
      ∧ sampleRegistered.registry.getItem 17 = some sampleRadio
      ∧ sampleRadio.findChoiceSet 5 = none ∧ sampleRadio.findMenu 3 = none)
    ∧ handleMobileRPCMessage sampleRegistered
        (.v1 (.PerformInteraction_request samplePerformInteraction)) 17
        = some { sampleRegistered with sent := sampleRegistered.sent ++
            [Out.mobile 17 (.response .V1 .PerformInteraction false .INVALID_DATA .empty)] }
    ∧ handleMobileRPCMessage sampleRegistered (.v2 (.DeleteSubMenu_request 3)) 17
        = some { sampleRegistered with sent := sampleRegistered.sent ++
            [Out.mobile 17 (.response .V2 .DeleteSubMenu false .INVALID_DATA .empty)] } :=
  ⟨⟨by decide, by decide, by decide, by decide⟩,
   ((absent_reference_answered_invalid_data sampleRegistered 17 "phone" sampleRadio
      (by decide) (by decide)).1 samplePerformInteraction {} ⟨5, by decide, by decide⟩).1,
   ((absent_reference_answered_invalid_data sampleRegistered 17 "phone" sampleRadio
      (by decide) (by decide)).2.2 3 (by decide)).2⟩

/-- C16, at a failing input. The active v2 application of session 17 holds the choice
set 5 and sends a PerformInteraction over that set: two HMI requests go out, a
`UI.PerformInteraction` with id 2 and a `UI.Alert` with id 3, and both ids are then
recorded for session 17: the case has no `break` and runs on into the Alert case. -/
theorem v2_performInteraction_also_issues_alert :
    ((sampleInteractionReady.registry.getItem 17).map
        (fun a => (a.protocolVersion, a.findChoiceSet 5)) = some (.V2, some [⟨1, "Yes", ["yes"]⟩])
      ∧ sampleInteractionReady.mMessageMapping = [])
    ∧ (handleMobileRPCMessage sampleInteractionReady
        (.v2 (.PerformInteraction_request samplePerformInteraction {})) 17).map
        (fun w => (w.sent.drop sampleInteractionReady.sent.length, w.mMessageMapping))
      = some ([Out.request ⟨2, .UI_PerformInteraction 17 samplePerformInteraction⟩,
               Out.request ⟨3, .UI_Alert 17 {}⟩],
              [(2, 17), (3, 17)]) := by
  decide

/-! ## Button notifications -/

/-- C19. If the button mapping holds `b → S` and `S` has a registered application, an
HMI OnButtonPress or OnButtonEvent for `b` sends exactly one message, the notification of
the same kind, addressed to `S` in the protocol version of its application with the same
button name and mode (and, in v2, the custom button id or 0), and changes nothing else.
For a button without a subscriber nothing is sent and the state is as before. -/
theorem button_notification_reaches_subscriber (core : World) (b mode : Nat)
    (custom : Option Nat) :
    (∀ (S : Int) (app : Application),
      Table.find b core.mButtonsMapping = some S → core.registry.getItem S = some app →
      handleBusRPCMessageIncoming core (.Buttons_OnButtonPress b mode custom)
        = some { core with sent := core.sent ++
            [Out.mobile S (.OnButtonPress app.protocolVersion b mode
              (match app.protocolVersion with
               | .V1 => none
               | .V2 => some (custom.getD 0)))] }
      ∧ handleBusRPCMessageIncoming core (.Buttons_OnButtonEvent b mode custom)
        = some { core with sent := core.sent ++
            [Out.mobile S (.OnButtonEvent app.protocolVersion b mode
              (match app.protocolVersion with
               | .V1 => none
               | .V2 => some (custom.getD 0)))] })
    ∧ (Table.find b core.mButtonsMapping = none →
      handleBusRPCMessageIncoming core (.Buttons_OnButtonPress b mode custom) = some core
      ∧ handleBusRPCMessageIncoming core (.Buttons_OnButtonEvent b mode custom)
        = some core) := by
  constructor
  · intro S app hb hreg
    have hid := AppMgrRegistry.getItem_mAppID _ _ _ hreg
    cases hv : app.protocolVersion <;>
      simp [handleBusRPCMessageIncoming, busOnButtonPress, busOnButtonEvent,
        World.findRegistryItemSubscribedToButton, hb, hreg, hv, hid, World.sendRPCMessage]
  · intro hb
    simp [handleBusRPCMessageIncoming, busOnButtonPress, busOnButtonEvent,
      World.findRegistryItemSubscribedToButton, hb]

theorem button_notification_reaches_subscriber_witness :
    (Table.find 3 sampleSubscribed.mButtonsMapping = some 17
      ∧ sampleSubscribed.registry.getItem 17 = some sampleRadioActive)
    ∧ handleBusRPCMessageIncoming sampleSubscribed (.Buttons_OnButtonPress 3 1 none)
        = some { sampleSubscribed with sent := sampleSubscribed.sent ++
            [Out.mobile 17 (.OnButtonPress .V1 3 1 none)] } :=
  ⟨⟨by decide, by decide⟩,
   ((button_notification_reaches_subscriber sampleSubscribed 3 1 none).1 17 sampleRadioActive
      (by decide) (by decide)).1⟩

/-! ## System context -/

/-- C20, as stated, fails. The application of session 17 is active with system context
MAIN and the HMI sends OnSystemContext(VRSESSION): the handling is defined and leaves the
world as it is, so the stored system context is still MAIN. -/
theorem onSystemContext_vrsession_not_stored :
    (sampleShown.registry.getActiveItem.map (fun a => (a.mAppID, a.systemContext))
        = some (17, SystemContext.SYSCTXT_MAIN))
    ∧ handleBusRPCMessageIncoming sampleShown
        (.UI_OnSystemContext SystemContext.SYSCTXT_VRSESSION) = some sampleShown := by
  decide

/-- C20 (amended). While an application is active, handling HMI OnSystemContext(c): for
`c = MAIN` sets the system context of the active application to MAIN and sends it one
`OnHMIStatus` with HMI level FULL, its audio state and system context MAIN; for every
other `c` nothing is stored and nothing is sent. -/
theorem onSystemContext_main_only (core : World) (app : Application) (c : SystemContext)
    (hactive : core.registry.getActiveItem = some app) :
    handleBusRPCMessageIncoming core (.UI_OnSystemContext c)
      = some (if c = SystemContext.SYSCTXT_MAIN then
          { core with
            registry := core.registry.modify app.mAppID
              (fun _ => { app with systemContext := SystemContext.SYSCTXT_MAIN }),
            sent := core.sent ++
              [Out.mobile app.mAppID (.OnHMIStatus app.protocolVersion HMILevel.HMI_FULL
                app.audioStreamingState SystemContext.SYSCTXT_MAIN)] }
        else core) := by
  by_cases hc : c = SystemContext.SYSCTXT_MAIN
  · subst hc
    cases hv : app.protocolVersion <;>
      simp [handleBusRPCMessageIncoming, busOnSystemContext, hactive, hv,
        World.putApplication, World.sendRPCMessage]
  · cases hv : app.protocolVersion <;>
      simp [handleBusRPCMessageIncoming, busOnSystemContext, hactive, hv, hc]

theorem onSystemContext_main_only_witness :
    sampleShown.registry.getActiveItem = some sampleRadioActive
    ∧ handleBusRPCMessageIncoming sampleShown (.UI_OnSystemContext .SYSCTXT_MAIN)
        = some (if SystemContext.SYSCTXT_MAIN = SystemContext.SYSCTXT_MAIN then
            { sampleShown with
              registry := sampleShown.registry.modify sampleRadioActive.mAppID
                (fun _ => { sampleRadioActive with systemContext := SystemContext.SYSCTXT_MAIN }),
              sent := sampleShown.sent ++
                [Out.mobile sampleRadioActive.mAppID
                  (.OnHMIStatus sampleRadioActive.protocolVersion HMILevel.HMI_FULL
                    sampleRadioActive.audioStreamingState SystemContext.SYSCTXT_MAIN)] }
          else sampleShown) :=
  ⟨by decide, onSystemContext_main_only sampleShown sampleRadioActive .SYSCTXT_MAIN (by decide)⟩

/-! ## Activation -/

theorem AppMgrRegistry.getItem_modify_ne (r : AppMgrRegistry) (key k2 : Int)
    (app : Application) (f : Application → Application)
    (hf : ∀ a, (f a).mAppID = a.mAppID) (h : r.getItem key = some app) (hne : k2 ≠ key) :
    (r.modify k2 f).getItem key = some app := by
  obtain ⟨items, active⟩ := r
  simp only [AppMgrRegistry.getItem, AppMgrRegistry.modify] at *
  induction items with
  | nil => simp at h
  | cons a rest ih =>
    by_cases ha : a.mAppID = key
    · subst ha
      have hk : ¬ a.mAppID = k2 := fun e => hne e.symm
      simp only [List.find?, decide_True] at h
      simp only [List.map_cons, hk, if_false, List.find?, decide_True]
      exact h
    · simp only [List.find?, ha, decide_False] at h
      by_cases hk : a.mAppID = k2
      · have : ¬ (f a).mAppID = key := by rw [hf a]; exact ha
        simp only [List.map_cons, hk, if_true, List.find?, this, decide_False]
        exact ih h
      · simp only [List.map_cons, hk, if_false, List.find?, ha, decide_False]
        exact ih h

@[simp] theorem World.issue_sent (w : World) (body : RequestBody) (key : Int) :
    (w.issue body key).sent = w.sent ++ [Out.request ⟨w.nextMessageId, body⟩] := rfl

/-- The property of having kept a registry and sent, after `base`, only HMI requests and
`OnHMIStatus(BACKGROUND)` messages is kept by issuing a request. -/
theorem issue_keeps_quiet (R : AppMgrRegistry) (base : List Out) (key : Int) (w : World)
    (body : RequestBody)
    (h : w.registry = R ∧ ∃ pre, w.sent = base ++ pre
      ∧ ∀ o ∈ pre, o.isRequest = true ∨ o.isBackgroundStatus = true) :
    (w.issue body key).registry = R ∧ ∃ pre, (w.issue body key).sent = base ++ pre
      ∧ ∀ o ∈ pre, o.isRequest = true ∨ o.isBackgroundStatus = true := by
  obtain ⟨hr, pre, hs, hp⟩ := h
  refine ⟨hr, pre ++ [Out.request ⟨w.nextMessageId, body⟩], ?_, ?_⟩
  · rw [World.issue_sent, hs, List.append_assoc]
  · intro o ho
    rcases List.mem_append.mp ho with ho | ho
    · exact hp o ho
    · simp only [List.mem_singleton] at ho
      rw [ho]; exact Or.inl rfl

theorem replayCommands_defined (app : Application) (appId : Int)
    (l : List ((Nat × CommandType) × CommandParams))
    (hl : l.all (fun c =>
      match c.1.2 with
      | .UI => c.2.menuParams.isSome
      | .VR => c.2.vrCommands.isSome
      | .UNDEFINED => true) = true) :
    ∀ core, ∃ w, replayCommands core app appId l = some w := by
  induction l with
  | nil => intro core; exact ⟨core, rfl⟩
  | cons e rest ih =>
    intro core
    obtain ⟨⟨cmdId, type⟩, menuParams, menuParamsV2, vrCommands⟩ := e
    simp only [List.all_cons, Bool.and_eq_true] at hl
    cases type with
    | UI =>
      cases menuParams with
      | none => simp at hl
      | some mp => exact ih hl.2 _
    | VR =>
      cases vrCommands with
      | none => simp at hl
      | some vr => exact ih hl.2 _
    | UNDEFINED => exact ih hl.2 _

theorem activateAppNotify_sent (core : World) (app : Application) (appId : Int) (id : Nat) :
    ∃ dd, (activateAppNotify core app appId id).sent = core.sent ++
        [Out.mobile appId (.OnHMIStatus app.protocolVersion HMILevel.HMI_FULL
          (if app.isMediaApplication then AudioStreamingState.AUDIBLE
           else AudioStreamingState.NOT_AUDIBLE) app.systemContext),
         Out.response (.ActivateAppResponse id .SUCCESS)] ++ dd
      ∧ ∀ o ∈ dd, o.isDriverDistraction = true := by
  cases hv : app.protocolVersion
  · cases hd : core.mDriverDistractionV1 with
    | none =>
      exact ⟨[], by simp [activateAppNotify, hv, hd, World.sendRPCMessage, World.sendResponse],
        by simp⟩
    | some s =>
      exact ⟨[Out.mobile appId (.OnDriverDistraction .V1 s)],
        by simp [activateAppNotify, hv, hd, World.sendRPCMessage, World.sendResponse],
        by simp [Out.isDriverDistraction]⟩
  · cases hd : core.mDriverDistractionV2 with
    | none =>
      exact ⟨[], by simp [activateAppNotify, hv, hd, World.sendRPCMessage, World.sendResponse],
        by simp⟩
    | some s =>
      exact ⟨[Out.mobile appId (.OnDriverDistraction .V2 s)],
        by simp [activateAppNotify, hv, hd, World.sendRPCMessage, World.sendResponse],
        by simp [Out.isDriverDistraction]⟩

/-- `activateAppAndReplay` for an application that is registered under its key and whose
commands can be replayed, from a state that has so far sent `base` and then only requests
and BACKGROUND statuses. -/
theorem activateAppAndReplay_notifies (core : World) (app : Application) (id : Nat)
    (base : List Out)
    (hreg : core.registry.getItem app.mAppID = some app)
    (hreplay : app.replayable = true)
    (hq : ∃ pre, core.sent = base ++ pre
      ∧ ∀ o ∈ pre, o.isRequest = true ∨ o.isBackgroundStatus = true) :
    ∃ w pre dd, activateAppAndReplay core app app.mAppID id = some w
      ∧ w.sent = base ++ pre ++
          [Out.mobile app.mAppID (.OnHMIStatus app.protocolVersion HMILevel.HMI_FULL
            (if app.isMediaApplication then AudioStreamingState.AUDIBLE
             else AudioStreamingState.NOT_AUDIBLE) app.systemContext),
           Out.response (.ActivateAppResponse id .SUCCESS)] ++ dd
      ∧ (∀ o ∈ pre, o.isRequest = true ∨ o.isBackgroundStatus = true)
      ∧ (∀ o ∈ dd, o.isDriverDistraction = true)
      ∧ w.registry.getItem app.mAppID = some { app with
          hmiStatusLevel := HMILevel.HMI_FULL,
          audioStreamingState := if app.isMediaApplication then AudioStreamingState.AUDIBLE
            else AudioStreamingState.NOT_AUDIBLE } := by
  simp only [activateAppAndReplay, AppMgrRegistry.activateApp, hreg]
  have hX := replayMenus_preserves
    (fun w => w.registry = _ ∧ ∃ pre, w.sent = base ++ pre
      ∧ ∀ o ∈ pre, o.isRequest = true ∨ o.isBackgroundStatus = true) app.mAppID
    (fun w body h => issue_keeps_quiet _ base app.mAppID w body h) app app.getAllMenus _
    (replayChoiceSets_preserves
      (fun w => w.registry = _ ∧ ∃ pre, w.sent = base ++ pre
        ∧ ∀ o ∈ pre, o.isRequest = true ∨ o.isBackgroundStatus = true) app.mAppID
      (fun w body h => issue_keeps_quiet _ base app.mAppID w body h) app app.getAllChoiceSets
      { core with registry :=
          { (core.registry.modify app.mAppID
              (fun a => { a with hmiStatusLevel := HMILevel.HMI_FULL })) with
            active := some app.mAppID } }
      ⟨rfl, hq⟩)
  obtain ⟨w0, hw0⟩ := replayCommands_defined app app.mAppID app.getAllCommands hreplay
    (replayMenus
      (replayChoiceSets
        { core with registry :=
            { (core.registry.modify app.mAppID
                (fun a => { a with hmiStatusLevel := HMILevel.HMI_FULL })) with
              active := some app.mAppID } }
        app app.mAppID app.getAllChoiceSets)
      app app.mAppID app.getAllMenus)
  obtain ⟨hr0, pre, hs0, hp0⟩ := replayCommands_preserves
    (fun w => w.registry = _ ∧ ∃ pre, w.sent = base ++ pre
      ∧ ∀ o ∈ pre, o.isRequest = true ∨ o.isBackgroundStatus = true) app.mAppID
    (fun w body h => issue_keeps_quiet _ base app.mAppID w body h) app app.getAllCommands _ w0
    hX hw0
  obtain ⟨dd, hdd, hddp⟩ := activateAppNotify_sent w0 app app.mAppID id
  rw [hw0]
  refine ⟨_, pre, dd, rfl, ?_, hp0, hddp, ?_⟩
  · rw [hdd, hs0]
  · rw [activateAppNotify_registry, hr0]
    have h1 : AppMgrRegistry.getItem
        { (core.registry.modify app.mAppID
            (fun a => { a with hmiStatusLevel := HMILevel.HMI_FULL })) with
          active := some app.mAppID } app.mAppID
        = some { app with hmiStatusLevel := HMILevel.HMI_FULL } :=
      AppMgrRegistry.getItem_modify core.registry app.mAppID app
        (fun a => { a with hmiStatusLevel := HMILevel.HMI_FULL }) hreg rfl
    exact AppMgrRegistry.getItem_modify _ app.mAppID _
      (fun a => { a with audioStreamingState :=
        if app.isMediaApplication then AudioStreamingState.AUDIBLE
        else AudioStreamingState.NOT_AUDIBLE }) h1 rfl

theorem removeAppFromHmi_quiet (core : World) (cur : Application) (K : Int) :
    (removeAppFromHmi core cur K).registry = core.registry.modify cur.mAppID
        (fun a => { a with hmiStatusLevel := HMILevel.HMI_BACKGROUND })
      ∧ ∃ pre, (removeAppFromHmi core cur K).sent = core.sent ++ pre
        ∧ ∀ o ∈ pre, o.isRequest = true ∨ o.isBackgroundStatus = true := by
  refine removeAppFromHmi_preserves
    (fun w => w.registry = _ ∧ ∃ pre, w.sent = core.sent ++ pre
      ∧ ∀ o ∈ pre, o.isRequest = true ∨ o.isBackgroundStatus = true) K
    (fun w body h => issue_keeps_quiet _ core.sent K w body h) core cur ?_
  refine ⟨rfl, [Out.mobile K (.OnHMIStatus cur.protocolVersion HMILevel.HMI_BACKGROUND
    cur.audioStreamingState cur.systemContext)], rfl, ?_⟩
  intro o ho
  simp only [List.mem_singleton] at ho
  rw [ho]; exact Or.inr rfl

/-- The activation of an application whose commands can be replayed. The HMI sends
ActivateApp(id, name); `app` is the first registered application of that name, it is not
the active one, and each of its commands can be replayed. Then the
handling is defined and, after what was sent before, sends: first only HMI requests and
BACKGROUND statuses (teardown and replay); then to the session of `app` one `OnHMIStatus`
with HMI level FULL, audio state AUDIBLE if `app` is a media application and NOT_AUDIBLE
otherwise, and the system context of `app`; then on the bus an `ActivateAppResponse` with
the id of the request and result SUCCESS; then at most driver-distraction notifications.
The stored application then has HMI level FULL and that audio state. -/
theorem activateApp_notifies_application (core : World) (id : Nat) (appName : String)
    (app : Application) (rest : List Application)
    (hname : core.registry.getItems appName = app :: rest)
    (hreg : core.registry.getItem app.mAppID = some app)
    (hother : ∀ cur, core.registry.getActiveItem = some cur → cur.mAppID ≠ app.mAppID)
    (hreplay : app.replayable = true) :
    ∃ w pre dd,
      handleBusRPCMessageIncoming core (.AppLinkCore_ActivateApp id appName) = some w
      ∧ w.sent = core.sent ++ pre ++
          [Out.mobile app.mAppID (.OnHMIStatus app.protocolVersion HMILevel.HMI_FULL
            (if app.isMediaApplication then AudioStreamingState.AUDIBLE
             else AudioStreamingState.NOT_AUDIBLE) app.systemContext),
           Out.response (.ActivateAppResponse id .SUCCESS)] ++ dd
      ∧ (∀ o ∈ pre, o.isRequest = true ∨ o.isBackgroundStatus = true)
      ∧ (∀ o ∈ dd, o.isDriverDistraction = true)
      ∧ w.registry.getItem app.mAppID = some { app with
          hmiStatusLevel := HMILevel.HMI_FULL,
          audioStreamingState := if app.isMediaApplication then AudioStreamingState.AUDIBLE
            else AudioStreamingState.NOT_AUDIBLE } := by
  cases hact : core.registry.getActiveItem with
  | none =>
    simp only [handleBusRPCMessageIncoming, busActivateApp, hname, hact]
    exact activateAppAndReplay_notifies core app id core.sent hreg hreplay
      ⟨[], by simp, by simp⟩
  | some cur =>
    have hne : cur.mAppID ≠ app.mAppID := hother cur hact
    simp only [handleBusRPCMessageIncoming, busActivateApp, hname, hact, hne, if_false]
    obtain ⟨hr, hq⟩ := removeAppFromHmi_quiet core cur app.mAppID
    refine activateAppAndReplay_notifies _ app id core.sent ?_ hreplay hq
    rw [hr]
    exact AppMgrRegistry.getItem_modify_ne core.registry app.mAppID cur.mAppID app _
      (fun a => rfl) hreg hne

theorem activateApp_notifies_application_witness :
    (sampleBeforeSwap.registry.getItems "B" = [sampleAppB]
      ∧ sampleBeforeSwap.registry.getItem 18 = some sampleAppB
      ∧ sampleBeforeSwap.registry.getActiveItem.map (fun a => a.mAppID) = some 17
      ∧ sampleAppB.replayable = true)
    ∧ ∃ w pre dd,
      handleBusRPCMessageIncoming sampleBeforeSwap (.AppLinkCore_ActivateApp 6 "B") = some w
      ∧ w.sent = sampleBeforeSwap.sent ++ pre ++
          [Out.mobile sampleAppB.mAppID
            (.OnHMIStatus sampleAppB.protocolVersion HMILevel.HMI_FULL
              (if sampleAppB.isMediaApplication then AudioStreamingState.AUDIBLE
               else AudioStreamingState.NOT_AUDIBLE) sampleAppB.systemContext),
           Out.response (.ActivateAppResponse 6 .SUCCESS)] ++ dd
      ∧ (∀ o ∈ pre, o.isRequest = true ∨ o.isBackgroundStatus = true)
      ∧ (∀ o ∈ dd, o.isDriverDistraction = true)
      ∧ w.registry.getItem sampleAppB.mAppID = some { sampleAppB with
          hmiStatusLevel := HMILevel.HMI_FULL,
          audioStreamingState :=
            if sampleAppB.isMediaApplication then AudioStreamingState.AUDIBLE
            else AudioStreamingState.NOT_AUDIBLE } :=
  ⟨⟨by decide, by decide, by decide, by decide⟩,
   activateApp_notifies_application sampleBeforeSwap 6 "B" sampleAppB []
     (by decide) (by decide)
     (fun cur h => by
       have e : sampleBeforeSwap.registry.getActiveItem.map (fun a => a.mAppID) = some 17 := by
         decide
       rw [h] at e
       simp only [Option.map_some', Option.some.injEq] at e
       rw [e]
       decide)
     (by decide)⟩

/-- C18, evaluated where the code departs from it. The v2 application "Radio" of session
17 is registered, holds the UI command 7 (added by a v2 AddCommand) and is not active; no
application is active. The HMI sends ActivateApp(5, "Radio"): the replay of the command
reads `params.menuParams`, which a v2 AddCommand never assigns, so the handling has no
defined result and neither the `OnHMIStatus` with level FULL nor the
`ActivateAppResponse` is sent. The same holds when "B" (v2, session 18, holding the UI
command 7) is activated while "A" is active. The same application without the command is
activated as the claim says: its session receives `OnHMIStatus(FULL, AUDIBLE, MAIN)` and
the bus the `ActivateAppResponse` with the id 5 and SUCCESS. -/
theorem activation_of_v2_application_with_ui_command_undefined :
    (sampleV2Command.registry.getItems "Radio").map
        (fun a => (a.mAppID, a.protocolVersion, a.getCommandTypes 7, a.replayable))
      = [(17, .V2, [.UI], false)]
    ∧ sampleV2Command.registry.getActiveItem = none
    ∧ handleBusRPCMessageIncoming sampleV2Command (.AppLinkCore_ActivateApp 5 "Radio") = none
    ∧ (sampleSwapV2Ready.registry.getItems "B").map
        (fun a => (a.mAppID, a.protocolVersion, a.getCommandTypes 7, a.replayable))
      = [(18, .V2, [.UI], false)]
    ∧ sampleSwapV2Ready.registry.getActiveItem.map (fun a => a.mAppID) = some 17
    ∧ handleBusRPCMessageIncoming sampleSwapV2Ready (.AppLinkCore_ActivateApp 6 "B") = none
    ∧ emittedBus sampleRegisteredV2 (.AppLinkCore_ActivateApp 5 "Radio")
      = some [Out.mobile 17 (.OnHMIStatus .V2 HMILevel.HMI_FULL AudioStreamingState.AUDIBLE
                SystemContext.SYSCTXT_MAIN),
              Out.response (.ActivateAppResponse 5 .SUCCESS)] := by
  decide

/-! ## The responses to the teardown of a swap -/

theorem World.recordedSince_issue (w : World) (K : Int) (base : List Out)
    (body : RequestBody) (h : w.recordedSince K base) :
    (w.issue body K).recordedSince K base := by
  obtain ⟨pre, hs, hp⟩ := h
  refine ⟨pre ++ [Out.request ⟨w.nextMessageId, body⟩], ?_, ?_⟩
  · rw [World.issue_sent, hs, List.append_assoc]
  · intro r hr
    rw [World.issue_mMessageMapping]
    show r.id < w.nextMessageId + 1 ∧ _
    rcases List.mem_append.mp hr with hr | hr
    · obtain ⟨h1, h2⟩ := hp r hr
      refine ⟨Nat.lt_succ_of_lt h1, ?_⟩
      rw [Table.find_insert_ne _ _ _ _ (Nat.ne_of_gt h1)]
      exact h2
    · simp only [List.mem_singleton, Out.request.injEq] at hr
      subst hr
      exact ⟨Nat.lt_succ_self _, Table.find_insert_same _ _ _⟩

/-- Sending something that is not an HMI request, and changing neither the allocator nor
the message mapping, keeps `recordedSince`. -/
theorem World.recordedSince_of_sent (w w1 : World) (K : Int) (base : List Out)
    (extra : List Out) (h : w.recordedSince K base)
    (hs : w1.sent = w.sent ++ extra) (he : ∀ o ∈ extra, o.isRequest = false)
    (hn : w1.nextMessageId = w.nextMessageId)
    (hm : w1.mMessageMapping = w.mMessageMapping) :
    w1.recordedSince K base := by
  obtain ⟨pre, hs0, hp⟩ := h
  refine ⟨pre ++ extra, ?_, ?_⟩
  · rw [hs, hs0, List.append_assoc]
  · intro r hr
    rw [hn, hm]
    rcases List.mem_append.mp hr with hr | hr
    · exact hp r hr
    · exact absurd (he _ hr) (by simp [Out.isRequest])

theorem removeAppFromHmi_recorded (core : World) (cur : Application) (K : Int) :
    (removeAppFromHmi core cur K).recordedSince K core.sent := by
  refine removeAppFromHmi_preserves (fun w => w.recordedSince K core.sent) K
    (fun w body h => World.recordedSince_issue w K core.sent body h) core cur ?_
  refine World.recordedSince_of_sent core _ K core.sent
    [Out.mobile K (.OnHMIStatus cur.protocolVersion HMILevel.HMI_BACKGROUND
      cur.audioStreamingState cur.systemContext)] ⟨[], by simp, by simp⟩ rfl ?_ rfl rfl
  intro o ho
  simp only [List.mem_singleton] at ho
  rw [ho]; rfl

theorem activateAppNotify_recorded (core : World) (app : Application) (K : Int) (id : Nat)
    (base : List Out) (h : core.recordedSince K base) :
    (activateAppNotify core app K id).recordedSince K base := by
  obtain ⟨dd, hdd, hddp⟩ := activateAppNotify_sent core app K id
  refine World.recordedSince_of_sent core _ K base _ h (by rw [hdd, List.append_assoc]) ?_ ?_ ?_
  · intro o ho
    rcases List.mem_append.mp ho with ho | ho
    · simp only [List.mem_cons, List.mem_singleton, List.not_mem_nil, or_false] at ho
      rcases ho with rfl | rfl <;> rfl
    · have := hddp o ho
      cases o <;> simp_all [Out.isDriverDistraction, Out.isRequest]
  · dsimp only [activateAppNotify]
    repeat' split
    all_goals rfl
  · dsimp only [activateAppNotify]
    repeat' split
    all_goals rfl

theorem activateAppAndReplay_recorded (core : World) (app : Application) (K : Int) (id : Nat)
    (base : List Out) (w : World) (h : core.recordedSince K base)
    (hw : activateAppAndReplay core app K id = some w) : w.recordedSince K base := by
  cases hg : core.registry.getItem app.mAppID with
  | none =>
    simp only [activateAppAndReplay, AppMgrRegistry.activateApp, hg, Option.some.injEq] at hw
    rw [← hw]
    exact World.recordedSince_of_sent core _ K base
      [Out.response (.ActivateAppResponse id .GENERIC_ERROR)] h rfl (by simp [Out.isRequest])
      rfl rfl
  | some a =>
    simp only [activateAppAndReplay, AppMgrRegistry.activateApp, hg] at hw
    split at hw
    · exact absurd hw (by simp)
    · rename_i w0 hw0
      simp only [Option.some.injEq] at hw
      rw [← hw]
      apply activateAppNotify_recorded
      refine replayCommands_preserves (fun w => w.recordedSince K base) K
        (fun w body h => World.recordedSince_issue w K base body h) app _ _ w0 ?_ hw0
      refine replayMenus_preserves (fun w => w.recordedSince K base) K
        (fun w body h => World.recordedSince_issue w K base body h) app _ _ ?_
      refine replayChoiceSets_preserves (fun w => w.recordedSince K base) K
        (fun w body h => World.recordedSince_issue w K base body h) app _ _ ?_
      exact World.recordedSince_of_sent core _ K base [] h (by simp) (by simp) rfl rfl

theorem busSimpleResponse_forwarded (core : World) (name : ResponseName) (id : Nat)
    (R : Result) (K : Int) (app : Application)
    (hrec : Table.find id core.mMessageMapping = some K)
    (hreg : core.registry.getItem K = some app) :
    busSimpleResponse core name id R .empty .empty
      = some { core with
          mMessageMapping := Table.erase id core.mMessageMapping,
          sent := core.sent ++
            [Out.mobile K (.response app.protocolVersion name true R .empty)] } := by
  have hid := AppMgrRegistry.getItem_mAppID _ _ _ hreg
  cases hv : app.protocolVersion <;>
    simp [busSimpleResponse, World.findRegistryItemAssignedToCommand, hrec, hreg, hv, hid,
      World.removeMessage, World.sendRPCMessage]

theorem busCommandResponse_erases (core : World) (name : ResponseName) (id : Nat)
    (R : Result) (K : Int) (app : Application)
    (hrec : Table.find id core.mMessageMapping = some K)
    (hreg : core.registry.getItem K = some app) :
    ∃ w, busCommandResponse core name id R = some w
      ∧ w.mMessageMapping = Table.erase id core.mMessageMapping := by
  simp only [busCommandResponse, World.findRegistryItemAssignedToCommand, hrec, hreg]
  refine ⟨_, rfl, ?_⟩
  dsimp only [World.removeMessage]
  repeat' split
  all_goals rfl

/-- C17, evaluated where the code departs from it. "A" (session 17) is active with a
command, a menu and a choice set; the HMI activates "B" (session 18). The teardown of "A"
issues `UI.DeleteCommand`, `UI.DeleteSubMenu` and `UI.DeleteInteractionChoiceSet` with the
ids 7, 8 and 9 and records all three for session 18, the application being activated.
Handling the HMI response to each removes its entry from the message mapping. The
response to the DeleteCommand sends nothing; the response to the DeleteSubMenu sends a
`DeleteSubMenu_response` to session 18, and the response to the DeleteInteractionChoiceSet
a `DeleteInteractionChoiceSet_response` to session 18, which sent neither request. -/
theorem teardown_responses_reach_a_session :
    sampleBeforeTeardown.registry.getActiveItem.map (fun a => a.mAppID) = some 17
    ∧ (sampleTornDown.sent.drop sampleBeforeTeardown.sent.length).filter Out.isRequest
      = [Out.request ⟨7, .UI_DeleteCommand 17 42⟩, Out.request ⟨8, .UI_DeleteSubMenu 17 3⟩,
         Out.request ⟨9, .UI_DeleteInteractionChoiceSet 17 5⟩]
    ∧ [7, 8, 9].map (fun i => Table.find i sampleTornDown.mMessageMapping)
      = [some 18, some 18, some 18]
    ∧ [RPC2Command.UI_DeleteCommandResponse 7 .SUCCESS, .UI_DeleteSubMenuResponse 8 .SUCCESS,
       .UI_DeleteInteractionChoiceSetResponse 9 .SUCCESS].map
        (fun m => (handleBusRPCMessageIncoming sampleTornDown m).map
          (fun w => [7, 8, 9].map (fun i => Table.find i w.mMessageMapping)))
      = [some [none, some 18, some 18], some [some 18, none, some 18],
         some [some 18, some 18, none]]
    ∧ emittedBus sampleTornDown (.UI_DeleteCommandResponse 7 .SUCCESS) = some []
    ∧ emittedBus sampleTornDown (.UI_DeleteSubMenuResponse 8 .SUCCESS)
      = some [Out.mobile 18 (.response .V1 .DeleteSubMenu true .SUCCESS .empty)]
    ∧ emittedBus sampleTornDown (.UI_DeleteInteractionChoiceSetResponse 9 .SUCCESS)
      = some [Out.mobile 18 (.response .V1 .DeleteInteractionChoiceSet true .SUCCESS
          .empty)] := by
  decide

/-- The responses to the requests of a swap, in general. The HMI sends
ActivateApp(id, name) while another application is active; `app` is the first registered application of that name and each of its commands
can be replayed. Then the swap is defined, and in the state `w` it leaves, for every
delete request `r` that the swap sent (the requests of the teardown) and every result
`R`: handling the HMI response to `r` removes the entry of `r` from the message mapping;
for a `UI.DeleteSubMenu` and for a `UI.DeleteInteractionChoiceSet` it changes nothing else
but to send exactly one mobile message, the response of that kind with `success = true`
and result `R`, to the session key under which the teardown recorded `r` (the key given
to `removeAppFromHmi`, that of `app`). -/
theorem teardown_responses_forwarded (core : World) (id : Nat) (appName : String)
    (app cur : Application) (rest : List Application)
    (hname : core.registry.getItems appName = app :: rest)
    (hreg : core.registry.getItem app.mAppID = some app)
    (hact : core.registry.getActiveItem = some cur)
    (hne : cur.mAppID ≠ app.mAppID)
    (hreplay : app.replayable = true) :
    ∃ w, handleBusRPCMessageIncoming core (.AppLinkCore_ActivateApp id appName) = some w
      ∧ ∀ r : RPC2Request, Out.request r ∈ w.sent.drop core.sent.length → ∀ R : Result,
        (∀ a m, r.body = .UI_DeleteSubMenu a m →
          handleBusRPCMessageIncoming w (.UI_DeleteSubMenuResponse r.id R)
            = some { w with
                mMessageMapping := Table.erase r.id w.mMessageMapping,
                sent := w.sent ++
                  [Out.mobile app.mAppID (.response app.protocolVersion .DeleteSubMenu true R
                    .empty)] })
        ∧ (∀ a c, r.body = .UI_DeleteInteractionChoiceSet a c →
          handleBusRPCMessageIncoming w (.UI_DeleteInteractionChoiceSetResponse r.id R)
            = some { w with
                mMessageMapping := Table.erase r.id w.mMessageMapping,
                sent := w.sent ++
                  [Out.mobile app.mAppID (.response app.protocolVersion
                    .DeleteInteractionChoiceSet true R .empty)] })
        ∧ (∀ a c, r.body = .UI_DeleteCommand a c →
          ∃ w2, handleBusRPCMessageIncoming w (.UI_DeleteCommandResponse r.id R) = some w2
            ∧ w2.mMessageMapping = Table.erase r.id w.mMessageMapping)
        ∧ (∀ a c, r.body = .VR_DeleteCommand a c →
          ∃ w2, handleBusRPCMessageIncoming w (.VR_DeleteCommandResponse r.id R) = some w2
            ∧ w2.mMessageMapping = Table.erase r.id w.mMessageMapping) := by
  obtain ⟨hr, hq⟩ := removeAppFromHmi_quiet core cur app.mAppID
  have hreg1 : (removeAppFromHmi core cur app.mAppID).registry.getItem app.mAppID
      = some app := by
    rw [hr]
    exact AppMgrRegistry.getItem_modify_ne core.registry app.mAppID cur.mAppID app _
      (fun a => rfl) hreg hne
  obtain ⟨w, pre, dd, hw, -, -, -, hregw⟩ :=
    activateAppAndReplay_notifies _ app id core.sent hreg1 hreplay hq
  have hrecw := activateAppAndReplay_recorded _ app app.mAppID id core.sent w
    (removeAppFromHmi_recorded core cur app.mAppID) hw
  refine ⟨w, ?_, ?_⟩
  · simp only [handleBusRPCMessageIncoming, busActivateApp, hname, hact, hne, if_false]
    exact hw
  · obtain ⟨pre1, hs1, hp1⟩ := hrecw
    intro r hmem R
    have hmem1 : Out.request r ∈ pre1 := by
      rw [hs1, List.drop_left] at hmem
      exact hmem
    have hfind := (hp1 r hmem1).2
    refine ⟨?_, ?_, ?_, ?_⟩
    · intro a m _
      have h := busSimpleResponse_forwarded w .DeleteSubMenu r.id R app.mAppID _ hfind hregw
      exact h
    · intro a c _
      have h := busSimpleResponse_forwarded w .DeleteInteractionChoiceSet r.id R app.mAppID _
        hfind hregw
      exact h
    · intro a c _
      exact busCommandResponse_erases w .DeleteCommand r.id R app.mAppID _ hfind hregw
    · intro a c _
      exact busCommandResponse_erases w .DeleteCommand r.id R app.mAppID _ hfind hregw

theorem teardown_responses_forwarded_witness :
    (sampleBeforeTeardown.registry.getItems "B" = [sampleAppB]
      ∧ sampleBeforeTeardown.registry.getItem sampleAppB.mAppID = some sampleAppB
      ∧ sampleBeforeTeardown.registry.getActiveItem = some sampleActiveA
      ∧ sampleActiveA.mAppID ≠ sampleAppB.mAppID
      ∧ sampleAppB.replayable = true)
    ∧ ∃ w, handleBusRPCMessageIncoming sampleBeforeTeardown (.AppLinkCore_ActivateApp 6 "B")
        = some w
      ∧ ∀ r : RPC2Request, Out.request r ∈ w.sent.drop sampleBeforeTeardown.sent.length →
        ∀ R : Result,
        (∀ a m, r.body = .UI_DeleteSubMenu a m →
          handleBusRPCMessageIncoming w (.UI_DeleteSubMenuResponse r.id R)
            = some { w with
                mMessageMapping := Table.erase r.id w.mMessageMapping,
                sent := w.sent ++
                  [Out.mobile sampleAppB.mAppID (.response sampleAppB.protocolVersion
                    .DeleteSubMenu true R .empty)] })
        ∧ (∀ a c, r.body = .UI_DeleteInteractionChoiceSet a c →
          handleBusRPCMessageIncoming w (.UI_DeleteInteractionChoiceSetResponse r.id R)
            = some { w with
                mMessageMapping := Table.erase r.id w.mMessageMapping,
                sent := w.sent ++
                  [Out.mobile sampleAppB.mAppID (.response sampleAppB.protocolVersion
                    .DeleteInteractionChoiceSet true R .empty)] })
        ∧ (∀ a c, r.body = .UI_DeleteCommand a c →
          ∃ w2, handleBusRPCMessageIncoming w (.UI_DeleteCommandResponse r.id R) = some w2
            ∧ w2.mMessageMapping = Table.erase r.id w.mMessageMapping)
        ∧ (∀ a c, r.body = .VR_DeleteCommand a c →
          ∃ w2, handleBusRPCMessageIncoming w (.VR_DeleteCommandResponse r.id R) = some w2
            ∧ w2.mMessageMapping = Table.erase r.id w.mMessageMapping) :=
  ⟨⟨by decide, by decide, by decide, by decide, by decide⟩,
   teardown_responses_forwarded sampleBeforeTeardown 6 "B" sampleAppB sampleActiveA []
     (by decide) (by decide) (by decide) (by decide) (by decide)⟩

/-! ## Messages that are dropped, and unknown method ids -/

/-- C29. If the session key of a mobile message resolves to no device, or the protocol
version of the message is neither 1 nor 2, `handleMobileRPCMessage` returns the world it
was given: nothing is sent to the mobile side or to the HMI and every table is as before,
whatever the message is. -/
theorem no_device_or_other_version_nothing_done (core : World) (msg : ALRPCMessage)
    (key : Int)
    (h : core.currentDevice key = none
      ∨ (msg.getProtocolVersion ≠ 1 ∧ msg.getProtocolVersion ≠ 2)) :
    handleMobileRPCMessage core msg key = some core := by
  rcases h with h | ⟨h1, h2⟩
  · simp [handleMobileRPCMessage, h]
  · cases msg with
    | v1 o => exact absurd rfl h1
    | v2 o => exact absurd rfl h2
    | unsupported n =>
      have h1n : n ≠ 1 := h1
      have h2n : n ≠ 2 := h2
      unfold handleMobileRPCMessage
      cases core.currentDevice key with
      | none => rfl
      | some dev => simp [h1n, h2n]

theorem no_device_or_other_version_nothing_done_witness :
    (sampleStart.currentDevice 17 = none
      ∧ handleMobileRPCMessage sampleStart
          (.v1 (.RegisterAppInterface_request (sampleRegister "Radio" true))) 17
          = some sampleStart)
    ∧ ((ALRPCMessage.unsupported 3).getProtocolVersion ≠ 1
      ∧ (ALRPCMessage.unsupported 3).getProtocolVersion ≠ 2
      ∧ handleMobileRPCMessage sampleRegistered (.unsupported 3) 17 = some sampleRegistered) :=
  ⟨⟨by decide, no_device_or_other_version_nothing_done sampleStart _ 17 (Or.inl (by decide))⟩,
   by decide, by decide,
   no_device_or_other_version_nothing_done sampleRegistered (.unsupported 3) 17
     (Or.inr ⟨by decide, by decide⟩)⟩

/-- C25. A mobile message of protocol v1 or v2 whose method id has no case, arriving on a
session whose device is known, is answered with one `GenericResponse` with
`success = false` and `resultCode = INVALID_DATA`, sent to that session; the resulting
world differs from the given one in nothing else, so no HMI request is issued and no
table changes. -/
theorem unknown_method_generic_response (core : World) (key : Int) (dev : String) (n : Nat)
    (hdev : core.currentDevice key = some dev) :
    (∀ msg ∈ [ALRPCMessage.v1 (.other n), .unsupported 1],
      handleMobileRPCMessage core msg key = some { core with sent := core.sent ++
        [Out.mobile key (.response .V1 .GenericResponse false .INVALID_DATA .empty)] })
    ∧ (∀ msg ∈ [ALRPCMessage.v2 (.other n), .unsupported 2],
      handleMobileRPCMessage core msg key = some { core with sent := core.sent ++
        [Out.mobile key (.response .V2 .GenericResponse false .INVALID_DATA .empty)] }) := by
  constructor <;> intro msg hmsg <;> simp only [List.mem_cons, List.mem_singleton,
    List.not_mem_nil, or_false] at hmsg <;> rcases hmsg with rfl | rfl <;>
    simp [handleMobileRPCMessage, hdev, handleMobileV1, handleMobileV2, genericResponse,
      World.sendRPCMessage, mkResponse]

theorem unknown_method_generic_response_witness :
    sampleRegistered.currentDevice 17 = some "phone"
    ∧ handleMobileRPCMessage sampleRegistered (.v1 (.other 999)) 17
        = some { sampleRegistered with sent := sampleRegistered.sent ++
            [Out.mobile 17 (.response .V1 .GenericResponse false .INVALID_DATA .empty)] }
    ∧ handleMobileRPCMessage sampleRegistered (.v2 (.other 999)) 17
        = some { sampleRegistered with sent := sampleRegistered.sent ++
            [Out.mobile 17 (.response .V2 .GenericResponse false .INVALID_DATA .empty)] } :=
  ⟨by decide,
   (unknown_method_generic_response sampleRegistered 17 "phone" 999 (by decide)).1 _
     (List.mem_cons_self _ _),
   (unknown_method_generic_response sampleRegistered 17 "phone" 999 (by decide)).2 _
     (List.mem_cons_self _ _)⟩

/-! ## PutFile without room or without data -/

/-- C23. On a session whose device is known, with `F` the free bytes the file system
reports: a PutFile with a non-empty `syncFileName` and a non-empty payload whose length is
greater than or equal to `F` is answered with `success = false`,
`resultCode = GENERIC_ERROR` and `spaceAvailable = F`; a PutFile with an empty
`syncFileName`, or with no payload or an empty one, is answered with `success = false` and
`resultCode = INVALID_DATA` (and `spaceAvailable = F`). In both cases the response is the
only change to the world, so no file is written. -/
theorem putFile_without_room_or_data (core : World) (key : Int) (dev : String)
    (o : PutFile_request) (hdev : core.currentDevice key = some dev) :
    (∀ data : List Nat, o.syncFileName.isEmpty = false → o.binaryData = some data →
      data ≠ [] → core.fs.free ≤ data.length →
      handleMobileRPCMessage core (.v2 (.PutFile_request o)) key
        = some { core with sent := core.sent ++
            [Out.mobile key (.response .V2 .PutFile false .GENERIC_ERROR
              (.spaceAvailable core.fs.free))] })
    ∧ ((o.syncFileName.isEmpty = true ∨ o.binaryData = none ∨ o.binaryData = some []) →
      handleMobileRPCMessage core (.v2 (.PutFile_request o)) key
        = some { core with sent := core.sent ++
            [Out.mobile key (.response .V2 .PutFile false .INVALID_DATA
              (.spaceAvailable core.fs.free))] }) := by
  obtain ⟨name, ft, pf, bd⟩ := o
  constructor
  · intro data hname hdata hne hfree
    simp only at hname hdata
    subst hdata
    have hd : data.isEmpty = false := by cases data <;> simp at hne ⊢
    have hlt : ¬ core.fs.free > data.length := Nat.not_lt.mpr hfree
    simp [handleMobileRPCMessage, hdev, handleMobileV2, v2PutFile, hname, hd, hlt,
      World.sendRPCMessage]
  · intro h
    simp only at h
    rcases h with h | h | h
    · simp [handleMobileRPCMessage, hdev, handleMobileV2, v2PutFile, h, World.sendRPCMessage]
    · subst h
      simp [handleMobileRPCMessage, hdev, handleMobileV2, v2PutFile, World.sendRPCMessage]
    · subst h
      simp [handleMobileRPCMessage, hdev, handleMobileV2, v2PutFile, World.sendRPCMessage]

theorem putFile_without_room_or_data_witness :
    (sampleConnected.currentDevice 17 = some "phone" ∧ sampleConnected.fs.free = 100
      ∧ samplePutFile.syncFileName.isEmpty = false
      ∧ samplePutFile.binaryData = some (List.replicate 150 0))
    ∧ handleMobileRPCMessage sampleConnected (.v2 (.PutFile_request samplePutFile)) 17
        = some { sampleConnected with sent := sampleConnected.sent ++
            [Out.mobile 17 (.response .V2 .PutFile false .GENERIC_ERROR
              (.spaceAvailable 100))] }
    ∧ handleMobileRPCMessage sampleConnected
        (.v2 (.PutFile_request ⟨"icon.png", 0, false, some (List.replicate 100 0)⟩)) 17
        = some { sampleConnected with sent := sampleConnected.sent ++
            [Out.mobile 17 (.response .V2 .PutFile false .GENERIC_ERROR
              (.spaceAvailable 100))] }
    ∧ handleMobileRPCMessage sampleConnected
        (.v2 (.PutFile_request ⟨"", 0, false, some [1]⟩)) 17
        = some { sampleConnected with sent := sampleConnected.sent ++
            [Out.mobile 17 (.response .V2 .PutFile false .INVALID_DATA
              (.spaceAvailable 100))] } :=
  ⟨⟨by decide, by decide, by decide, by decide⟩,
   (putFile_without_room_or_data sampleConnected 17 "phone" samplePutFile (by decide)).1
     (List.replicate 150 0) (by decide) (by decide) (by decide)
     (by rw [List.length_replicate]; decide),
   (putFile_without_room_or_data sampleConnected 17 "phone"
     ⟨"icon.png", 0, false, some (List.replicate 100 0)⟩ (by decide)).1
     (List.replicate 100 0) (by decide) (by decide) (by decide)
     (by rw [List.length_replicate]; decide),
   (putFile_without_room_or_data sampleConnected 17 "phone" ⟨"", 0, false, some [1]⟩
     (by decide)).2 (Or.inl (by decide))⟩

/-! ## Requests of protocol v1 that are answered twice -/

/-- C30. A protocol-v1 application whose HMI level is not NONE sends a Speak. The handler
issues `TTS.Speak` under the next id and, in the same run, sends a `Speak_response` with
`success = true` and `resultCode = SUCCESS`. When the `TTS.SpeakResponse` with that id and
result `R` is handled, a second `Speak_response`, with `resultCode = R`, goes to the
session: one request, two mobile responses. The same holds for SetGlobalProperties with
`UI.SetGlobalPropertiesResponse`. -/
theorem v1_speak_and_setGlobalProperties_answered_twice (core : World) (key : Int)
    (dev : String) (app : Application) (R : Result)
    (hdev : core.currentDevice key = some dev)
    (hreg : core.registry.getItem key = some app)
    (hv1 : app.protocolVersion = .V1)
    (hlevel : app.hmiStatusLevel ≠ HMILevel.HMI_NONE) :
    (∀ chunks : List TTSChunk, ∃ w1 w2,
      handleMobileRPCMessage core (.v1 (.Speak_request chunks)) key = some w1
      ∧ w1.sent = core.sent ++
          [Out.request ⟨core.nextMessageId, .TTS_Speak key chunks⟩,
           Out.mobile key (.response .V1 .Speak true .SUCCESS .empty)]
      ∧ handleBusRPCMessageIncoming w1 (.TTS_SpeakResponse core.nextMessageId R) = some w2
      ∧ w2.sent = w1.sent ++ [Out.mobile key (.response .V1 .Speak true R .empty)])
    ∧ (∀ o : SetGlobalProperties_request, ∃ w1 w2,
      handleMobileRPCMessage core (.v1 (.SetGlobalProperties_request o)) key = some w1
      ∧ w1.sent = core.sent ++
          [Out.request ⟨core.nextMessageId, .UI_SetGlobalProperties key
            { helpPrompt := o.helpPrompt, timeoutPrompt := o.timeoutPrompt }⟩,
           Out.mobile key (.response .V1 .SetGlobalProperties true .SUCCESS .empty)]
      ∧ handleBusRPCMessageIncoming w1
          (.UI_SetGlobalPropertiesResponse core.nextMessageId R) = some w2
      ∧ w2.sent = w1.sent
          ++ [Out.mobile key (.response .V1 .SetGlobalProperties true R .empty)]) := by
  constructor
  · intro chunks
    have h1 : handleMobileRPCMessage core (.v1 (.Speak_request chunks)) key
        = some ((core.issue (.TTS_Speak key chunks) key).sendRPCMessage
            (mkResponse .V1 .Speak true .SUCCESS) key) := by
      simp [handleMobileRPCMessage, hdev, handleMobileV1, v1Speak, World.getApplication, hreg,
        hlevel]
    have hb := busSimpleResponse_forwarded
      ((core.issue (.TTS_Speak key chunks) key).sendRPCMessage
        (mkResponse .V1 .Speak true .SUCCESS) key) .Speak core.nextMessageId R key app
      (Table.find_insert_same _ _ _) hreg
    rw [hv1] at hb
    exact ⟨_, _, h1, by simp [World.issue, World.getNextMessageId, World.addMessage,
      World.sendRequest, World.sendRPCMessage, mkResponse], hb, rfl⟩
  · intro o
    have h1 : handleMobileRPCMessage core (.v1 (.SetGlobalProperties_request o)) key
        = some ((core.issue (.UI_SetGlobalProperties key
            { helpPrompt := o.helpPrompt, timeoutPrompt := o.timeoutPrompt }) key).sendRPCMessage
            (mkResponse .V1 .SetGlobalProperties true .SUCCESS) key) := by
      simp [handleMobileRPCMessage, hdev, handleMobileV1, v1SetGlobalProperties,
        World.getApplication, hreg, hlevel]
    have hb := busSimpleResponse_forwarded
      ((core.issue (.UI_SetGlobalProperties key
        { helpPrompt := o.helpPrompt, timeoutPrompt := o.timeoutPrompt }) key).sendRPCMessage
        (mkResponse .V1 .SetGlobalProperties true .SUCCESS) key) .SetGlobalProperties
      core.nextMessageId R key app (Table.find_insert_same _ _ _) hreg
    rw [hv1] at hb
    exact ⟨_, _, h1, by simp [World.issue, World.getNextMessageId, World.addMessage,
      World.sendRequest, World.sendRPCMessage, mkResponse], hb, rfl⟩

theorem v1_speak_and_setGlobalProperties_answered_twice_witness :
    (sampleShown.currentDevice 17 = some "phone"
      ∧ sampleShown.registry.getItem 17 = some sampleRadioActive
      ∧ sampleRadioActive.protocolVersion = .V1
      ∧ sampleRadioActive.hmiStatusLevel ≠ HMILevel.HMI_NONE)
    ∧ ∃ w1 w2,
        handleMobileRPCMessage sampleShown (.v1 (.Speak_request sampleSpeak)) 17 = some w1
        ∧ w1.sent = sampleShown.sent ++
            [Out.request ⟨2, .TTS_Speak 17 sampleSpeak⟩,
             Out.mobile 17 (.response .V1 .Speak true .SUCCESS .empty)]
        ∧ handleBusRPCMessageIncoming w1 (.TTS_SpeakResponse 2 .GENERIC_ERROR) = some w2
        ∧ w2.sent = w1.sent
            ++ [Out.mobile 17 (.response .V1 .Speak true .GENERIC_ERROR .empty)] :=
  ⟨⟨by decide, by decide, by decide, by decide⟩,
   (v1_speak_and_setGlobalProperties_answered_twice sampleShown 17 "phone" sampleRadioActive
     .GENERIC_ERROR (by decide) (by decide) (by decide) (by decide)).1 sampleSpeak⟩

/-! ## AddCommand: the counter and the stored parts -/

theorem Table.mem_keys_insert_self {κ ν : Type} [DecidableEq κ] (k : κ) (v : ν)
    (m : List (κ × ν)) : k ∈ (Table.insert k v m).map Prod.fst := by
  induction m with
  | nil => simp [Table.insert]
  | cons e m ih =>
    obtain ⟨k1, v1⟩ := e
    by_cases h : k1 = k
    · simp [Table.insert, h]
    · simp only [Table.insert, h, if_false, List.map_cons, List.mem_cons]
      exact Or.inr ih

theorem Table.mem_keys_insert_of_mem {κ ν : Type} [DecidableEq κ] (k : κ) (v : ν)
    (m : List (κ × ν)) (x : κ) (hx : x ∈ m.map Prod.fst) :
    x ∈ (Table.insert k v m).map Prod.fst := by
  induction m with
  | nil => simp at hx
  | cons e m ih =>
    obtain ⟨k1, v1⟩ := e
    by_cases h : k1 = k
    · subst h
      simp only [Table.insert, if_true, List.map_cons, List.mem_cons] at hx ⊢
      exact hx
    · simp only [Table.insert, h, if_false, List.map_cons, List.mem_cons] at hx ⊢
      rcases hx with hx | hx
      · exact Or.inl hx
      · exact Or.inr (ih hx)

theorem Application.mem_getCommandTypes (app : Application) (c : Nat) (t : CommandType) :
    t ∈ app.getCommandTypes c ↔ (c, t) ∈ app.commands.map Prod.fst := by
  simp only [Application.getCommandTypes, List.mem_map, List.mem_filter, decide_eq_true_eq]
  constructor
  · rintro ⟨e, ⟨he, hc⟩, ht⟩
    exact ⟨e, he, Prod.ext hc ht⟩
  · rintro ⟨e, he, hk⟩
    exact ⟨e, ⟨he, congrArg Prod.fst hk⟩, congrArg Prod.snd hk⟩

theorem Application.getCommandTypes_addCommand_self (app : Application) (c : Nat)
    (t : CommandType) (p : CommandParams) : t ∈ (app.addCommand c t p).getCommandTypes c := by
  rw [Application.mem_getCommandTypes]
  exact Table.mem_keys_insert_self _ _ _

theorem Application.getCommandTypes_addCommand_of_mem (app : Application) (c c2 : Nat)
    (t t2 : CommandType) (p : CommandParams) (h : t ∈ app.getCommandTypes c) :
    t ∈ (app.addCommand c2 t2 p).getCommandTypes c := by
  rw [Application.mem_getCommandTypes] at h ⊢
  exact Table.mem_keys_insert_of_mem _ _ _ _ h

theorem v1AddCommandUI_types (core : World) (app : Application) (key : Int) (c : Nat)
    (mp : MenuParams) :
    CommandType.UI ∈ (v1AddCommandUI core app key c mp).2.getCommandTypes c := by
  obtain ⟨mn, pid, pos⟩ := mp
  cases pid <;> exact Application.getCommandTypes_addCommand_self _ _ _ _

theorem v2AddCommandUI_types (core : World) (app : Application) (key : Int) (c : Nat)
    (mp : MenuParams) (icon : Option String) :
    CommandType.UI ∈ (v2AddCommandUI core app key c mp icon).2.getCommandTypes c := by
  obtain ⟨mn, pid, pos⟩ := mp
  cases pid <;> exact Application.getCommandTypes_addCommand_self _ _ _ _

theorem addCommandVR_types (core : World) (app : Application) (key : Int) (c : Nat)
    (vr : List String) :
    CommandType.VR ∈ (addCommandVR core app key c vr).2.getCommandTypes c
    ∧ ∀ t, t ∈ app.getCommandTypes c →
        t ∈ (addCommandVR core app key c vr).2.getCommandTypes c :=
  ⟨Application.getCommandTypes_addCommand_self _ _ _ _,
   fun _ h => Application.getCommandTypes_addCommand_of_mem _ _ _ _ _ _ h⟩

theorem addCommand_sub_types (core : World) (key : Int) (app : Application)
    (o : AddCommand_request) (hreg : core.registry.getItem key = some app) :
    ∀ p ∈ [(ALRPCMessage.v1 (.AddCommand_request o), v1AddCommand core key o),
           (ALRPCMessage.v2 (.AddCommand_request o), v2AddCommand core key o)],
      ∃ w app1, SubRequests core key o.cmdID app o.parts w app1
        ∧ p.2 = some (w.putApplication app1)
        ∧ (o.menuParams.isSome → CommandType.UI ∈ app1.getCommandTypes o.cmdID)
        ∧ (o.vrCommands.isSome → CommandType.VR ∈ app1.getCommandTypes o.cmdID) := by
  obtain ⟨c, mp, vr, icon⟩ := o
  intro p hp
  simp only [List.mem_cons, List.mem_singleton, List.not_mem_nil, or_false] at hp
  rcases hp with rfl | rfl
  · rcases mp with _ | mp <;> rcases vr with _ | vr <;>
      simp only [v1AddCommand, World.getApplication, hreg, AddCommand_request.parts,
        Option.isSome_none, Option.isSome_some, if_true, if_false]
    · exact ⟨_, _, SubRequests.refl _ _ _ _, rfl, by simp, by simp⟩
    · exact ⟨_, _, addCommandVR_sub _ _ _ _ _, rfl, by simp,
        fun _ => (addCommandVR_types _ _ _ _ _).1⟩
    · exact ⟨_, _, v1AddCommandUI_sub _ _ _ _ _, rfl,
        fun _ => v1AddCommandUI_types _ _ _ _ _, by simp⟩
    · exact ⟨_, _, (v1AddCommandUI_sub _ _ _ _ _).trans (addCommandVR_sub _ _ _ _ _), rfl,
        fun _ => (addCommandVR_types _ _ _ _ _).2 _ (v1AddCommandUI_types _ _ _ _ _),
        fun _ => (addCommandVR_types _ _ _ _ _).1⟩
  · rcases mp with _ | mp <;> rcases vr with _ | vr <;>
      simp only [v2AddCommand, World.getApplication, hreg, AddCommand_request.parts,
        Option.isSome_none, Option.isSome_some, if_true, if_false]
    · exact ⟨_, _, SubRequests.refl _ _ _ _, rfl, by simp, by simp⟩
    · exact ⟨_, _, addCommandVR_sub _ _ _ _ _, rfl, by simp,
        fun _ => (addCommandVR_types _ _ _ _ _).1⟩
    · exact ⟨_, _, v2AddCommandUI_sub _ _ _ _ _ _, rfl,
        fun _ => v2AddCommandUI_types _ _ _ _ _ _, by simp⟩
    · exact ⟨_, _, (v2AddCommandUI_sub _ _ _ _ _ _).trans (addCommandVR_sub _ _ _ _ _), rfl,
        fun _ => (addCommandVR_types _ _ _ _ _).2 _ (v2AddCommandUI_types _ _ _ _ _ _),
        fun _ => (addCommandVR_types _ _ _ _ _).1⟩

/-- C24. A registered application with no sub-request outstanding for command `c` sends an
AddCommand for `c` (protocol v1 or v2). The handler issues one HMI request per part the
request has (`menuParams`, `vrCommands`) and nothing else, and afterwards the application
stored for the session has `unresponded_by_cmd[c]` equal to the number of parts: 2 with
both parts, 1 with one; `(c, UI)` is in its commands when there is a UI part and `(c, VR)`
when there is a VR part. -/
theorem addCommand_counter_counts_parts (core : World) (key : Int) (dev : String)
    (app : Application) (o : AddCommand_request)
    (hdev : core.currentDevice key = some dev)
    (hreg : core.registry.getItem key = some app)
    (hcount : app.getUnrespondedRequestCount o.cmdID = 0) :
    ∀ msg ∈ [ALRPCMessage.v1 (.AddCommand_request o), .v2 (.AddCommand_request o)],
      ∃ w app1 rs, handleMobileRPCMessage core msg key = some w
        ∧ w.registry.getItem key = some app1
        ∧ w.sent = core.sent ++ List.map Out.request rs ∧ rs.length = o.parts
        ∧ app1.getUnrespondedRequestCount o.cmdID = o.parts
        ∧ (o.menuParams.isSome → CommandType.UI ∈ app1.getCommandTypes o.cmdID)
        ∧ (o.vrCommands.isSome → CommandType.VR ∈ app1.getCommandTypes o.cmdID) := by
  have hid : app.mAppID = key := AppMgrRegistry.getItem_mAppID _ _ _ hreg
  have hparts : o.parts + 0 < 4294967296 := by
    simp only [AddCommand_request.parts]
    split <;> split <;> decide
  have fact : ∀ r : Option World,
      (∃ w app1, SubRequests core key o.cmdID app o.parts w app1
        ∧ r = some (w.putApplication app1)
        ∧ (o.menuParams.isSome → CommandType.UI ∈ app1.getCommandTypes o.cmdID)
        ∧ (o.vrCommands.isSome → CommandType.VR ∈ app1.getCommandTypes o.cmdID)) →
      ∃ w app1 rs, r = some w
        ∧ w.registry.getItem key = some app1
        ∧ w.sent = core.sent ++ List.map Out.request rs ∧ rs.length = o.parts
        ∧ app1.getUnrespondedRequestCount o.cmdID = o.parts
        ∧ (o.menuParams.isSome → CommandType.UI ∈ app1.getCommandTypes o.cmdID)
        ∧ (o.vrCommands.isSome → CommandType.VR ∈ app1.getCommandTypes o.cmdID) := by
    rintro r ⟨w0, app1, hs, hr, hui, hvr⟩
    obtain ⟨rs, hsent, hids⟩ := hs.sent
    refine ⟨_, app1, rs, hr, ?_, hsent, ?_, ?_, hui, hvr⟩
    · show (w0.registry.modify app1.mAppID (fun _ => app1)).getItem key = some app1
      rw [hs.registry]
      exact AppMgrRegistry.getItem_put _ _ _ _ hreg (hs.appId.trans hid)
    · have := congrArg List.length hids
      simpa using this
    · rw [hs.count, hcount, u32Inc_iterate _ _ (by simpa using hparts), Nat.zero_add]
  intro msg hmsg
  simp only [List.mem_cons, List.mem_singleton, List.not_mem_nil, or_false] at hmsg
  rcases hmsg with rfl | rfl
  · have h := addCommand_sub_types core key app o hreg _ (List.mem_cons_self _ _)
    have hh : handleMobileRPCMessage core (.v1 (.AddCommand_request o)) key
        = v1AddCommand core key o := by
      simp [handleMobileRPCMessage, hdev, handleMobileV1]
    rw [hh]
    exact fact _ h
  · have h := addCommand_sub_types core key app o hreg _
      (List.mem_cons_of_mem _ (List.mem_cons_self _ _))
    have hh : handleMobileRPCMessage core (.v2 (.AddCommand_request o)) key
        = v2AddCommand core key o := by
      simp [handleMobileRPCMessage, hdev, handleMobileV2]
    rw [hh]
    exact fact _ h

theorem addCommand_counter_counts_parts_witness :
    (sampleRegistered.currentDevice 17 = some "phone"
      ∧ sampleRegistered.registry.getItem 17 = some sampleRadio
      ∧ sampleRadio.getUnrespondedRequestCount sampleAddCommand.cmdID = 0
      ∧ sampleAddCommand.cmdID = 42 ∧ sampleAddCommand.parts = 2)
    ∧ ∃ w app1 rs,
        handleMobileRPCMessage sampleRegistered (.v1 (.AddCommand_request sampleAddCommand)) 17
          = some w
        ∧ w.registry.getItem 17 = some app1
        ∧ w.sent = sampleRegistered.sent ++ List.map Out.request rs ∧ rs.length = 2
        ∧ app1.getUnrespondedRequestCount 42 = 2
        ∧ CommandType.UI ∈ app1.getCommandTypes 42
        ∧ CommandType.VR ∈ app1.getCommandTypes 42 := by
  refine ⟨⟨by decide, by decide, by decide, by decide, by decide⟩, ?_⟩
  obtain ⟨w, app1, rs, h1, h2, h3, h4, h5, h6, h7⟩ :=
    addCommand_counter_counts_parts sampleRegistered 17 "phone" sampleRadio sampleAddCommand
      (by decide) (by decide) (by decide) _ (List.mem_cons_self _ _)
  exact ⟨w, app1, rs, h1, h2, h3, h4, h5, h6 (by decide), h7 (by decide)⟩

/-! ## UnregisterAppInterface -/

theorem numbered_append (a b : List RequestBody) :
    ∀ first, numbered first (a ++ b) = numbered first a ++ numbered (first + a.length) b := by
  induction a with
  | nil => intro first; simp [numbered]
  | cons x a ih =>
    intro first
    have h := ih (first + 1)
    rw [show first + 1 + a.length = first + (a.length + 1) by omega] at h
    show numbered first (x :: (a ++ b))
      = numbered first (x :: a) ++ numbered (first + (a.length + 1)) b
    simp only [numbered, List.cons_append, h]

@[simp] theorem numbered_length (a : List RequestBody) :
    ∀ first, (numbered first a).length = a.length := by
  induction a with
  | nil => intro first; rfl
  | cons x a ih => intro first; simp [numbered, ih]

@[simp] theorem World.issue_nextMessageId (w : World) (body : RequestBody) (key : Int) :
    (w.issue body key).nextMessageId = w.nextMessageId + 1 := rfl

/-- What the command loop of the teardown sends, and how far it moves the allocator. -/
theorem removeCommandsFromHmi_sent (app : Application) (appId : Int) :
    ∀ (l : List ((Nat × CommandType) × CommandParams)) (core : World),
      (removeCommandsFromHmi core app appId l).sent = core.sent ++
          (numbered core.nextMessageId
            (l.filterMap (fun e => teardownDeleteCommand app.mAppID e.1.1 e.1.2))).map Out.request
      ∧ (removeCommandsFromHmi core app appId l).nextMessageId = core.nextMessageId +
          (l.filterMap (fun e => teardownDeleteCommand app.mAppID e.1.1 e.1.2)).length := by
  intro l
  induction l with
  | nil => intro core; simp [removeCommandsFromHmi, numbered]
  | cons e l ih =>
    intro core
    obtain ⟨⟨c, t⟩, p⟩ := e
    cases t with
    | UI =>
      have e : teardownDeleteCommand app.mAppID c .UI
          = some (RequestBody.UI_DeleteCommand app.mAppID c) := rfl
      simp only [removeCommandsFromHmi, List.filterMap_cons, e, numbered, List.map_cons,
        List.length_cons]
      obtain ⟨h1, h2⟩ := ih (core.issue (.UI_DeleteCommand app.mAppID c) appId)
      rw [h1, h2]
      simp only [World.issue_sent, World.issue_nextMessageId, List.append_assoc,
        List.singleton_append, true_and]
      omega
    | VR =>
      have e : teardownDeleteCommand app.mAppID c .VR
          = some (RequestBody.VR_DeleteCommand app.mAppID c) := rfl
      simp only [removeCommandsFromHmi, List.filterMap_cons, e, numbered, List.map_cons,
        List.length_cons]
      obtain ⟨h1, h2⟩ := ih (core.issue (.VR_DeleteCommand app.mAppID c) appId)
      rw [h1, h2]
      simp only [World.issue_sent, World.issue_nextMessageId, List.append_assoc,
        List.singleton_append, true_and]
      omega
    | UNDEFINED =>
      have e : teardownDeleteCommand app.mAppID c .UNDEFINED = none := rfl
      simp only [removeCommandsFromHmi, List.filterMap_cons, e]
      exact ih core

theorem removeMenusFromHmi_sent (app : Application) (appId : Int) :
    ∀ (l : List (Nat × (String × Option Nat))) (core : World),
      (removeMenusFromHmi core app appId l).sent = core.sent ++
          (numbered core.nextMessageId
            (l.map (fun e => RequestBody.UI_DeleteSubMenu app.mAppID e.1))).map Out.request
      ∧ (removeMenusFromHmi core app appId l).nextMessageId
          = core.nextMessageId + l.length := by
  intro l
  induction l with
  | nil => intro core; simp [removeMenusFromHmi, numbered]
  | cons e l ih =>
    intro core
    obtain ⟨m, p⟩ := e
    simp only [removeMenusFromHmi, List.map_cons, numbered, List.length_cons]
    obtain ⟨h1, h2⟩ := ih (core.issue (.UI_DeleteSubMenu app.mAppID m) appId)
    rw [h1, h2]
    simp only [World.issue_sent, World.issue_nextMessageId, List.append_assoc,
      List.singleton_append, true_and]
    omega

theorem removeChoiceSetsFromHmi_sent (app : Application) (appId : Int) :
    ∀ (l : List (Nat × ChoiceSet)) (core : World),
      (removeChoiceSetsFromHmi core app appId l).sent = core.sent ++
          (numbered core.nextMessageId
            (l.map (fun e => RequestBody.UI_DeleteInteractionChoiceSet app.mAppID e.1))).map
            Out.request
      ∧ (removeChoiceSetsFromHmi core app appId l).nextMessageId
          = core.nextMessageId + l.length := by
  intro l
  induction l with
  | nil => intro core; simp [removeChoiceSetsFromHmi, numbered]
  | cons e l ih =>
    intro core
    obtain ⟨m, p⟩ := e
    simp only [removeChoiceSetsFromHmi, List.map_cons, numbered, List.length_cons]
    obtain ⟨h1, h2⟩ := ih (core.issue (.UI_DeleteInteractionChoiceSet app.mAppID m) appId)
    rw [h1, h2]
    simp only [World.issue_sent, World.issue_nextMessageId, List.append_assoc,
      List.singleton_append, true_and]
    omega

/-- What the teardown sends: the BACKGROUND status to `appId`, then the delete requests of
`teardownDeletes` under the next ids of the allocator. -/
theorem removeAppFromHmi_sent (core : World) (app : Application) (appId : Int) :
    (removeAppFromHmi core app appId).sent = core.sent ++
      Out.mobile appId (.OnHMIStatus app.protocolVersion HMILevel.HMI_BACKGROUND
        app.audioStreamingState app.systemContext)
      :: (numbered core.nextMessageId (teardownDeletes app)).map Out.request := by
  have key : ∀ w0 : World, w0.nextMessageId = core.nextMessageId →
      w0.sent = core.sent ++ [Out.mobile appId (.OnHMIStatus app.protocolVersion
        HMILevel.HMI_BACKGROUND app.audioStreamingState app.systemContext)] →
      (removeChoiceSetsFromHmi
        (removeMenusFromHmi (removeCommandsFromHmi w0 app appId app.getAllCommands) app appId
          app.getAllMenus) app appId app.getAllChoiceSets).sent = core.sent ++
        Out.mobile appId (.OnHMIStatus app.protocolVersion HMILevel.HMI_BACKGROUND
          app.audioStreamingState app.systemContext)
        :: (numbered core.nextMessageId (teardownDeletes app)).map Out.request := by
    intro w0 hn hs
    obtain ⟨c1, c2⟩ := removeCommandsFromHmi_sent app appId app.getAllCommands w0
    obtain ⟨m1, m2⟩ := removeMenusFromHmi_sent app appId app.getAllMenus
      (removeCommandsFromHmi w0 app appId app.getAllCommands)
    obtain ⟨s1, -⟩ := removeChoiceSetsFromHmi_sent app appId app.getAllChoiceSets
      (removeMenusFromHmi (removeCommandsFromHmi w0 app appId app.getAllCommands) app appId
        app.getAllMenus)
    rw [s1, m1, m2, c1, c2, hs, hn]
    simp [teardownDeletes, numbered_append, Nat.add_assoc]
  cases hv : app.protocolVersion with
  | V1 =>
    simp only [removeAppFromHmi, hv]
    rw [hv] at key
    exact key _ rfl rfl
  | V2 =>
    simp only [removeAppFromHmi, hv]
    rw [hv] at key
    exact key _ rfl rfl

/-- C22. The application `app` registered under session key `S` (on a known device) sends
UnregisterAppInterface, over protocol v1 or v2. After what was sent before, the handler
sends exactly this, in this order: the teardown, that is to `S` an `OnHMIStatus` with level
BACKGROUND and then, under the next ids of the allocator, for every command of `app` the
`DeleteCommand` of its type (UI or VR), for every menu a `DeleteSubMenu` and for every
choice set a `DeleteInteractionChoiceSet`; then to `S` an `UnregisterAppInterface_response`
with `success = true` and `resultCode = SUCCESS`; to `S` an `OnAppInterfaceUnregistered`
with reason USER_EXIT; and on the bus an `OnAppUnregistered` with the name of `app`,
`appId = S` and reason USER_EXIT. In the resulting world the registry has no application
under `S` and no pair of the button mapping has the subscriber `S`. -/
theorem unregister_tears_down_and_notifies (core : World) (S : Int) (dev : String)
    (app : Application)
    (hdev : core.currentDevice S = some dev)
    (hreg : core.registry.getItem S = some app) :
    ∀ p ∈ [(ALRPCMessage.v1 .UnregisterAppInterface_request, ProtocolVersion.V1),
           (ALRPCMessage.v2 .UnregisterAppInterface_request, ProtocolVersion.V2)],
      ∃ w, handleMobileRPCMessage core p.1 S = some w
        ∧ w.sent = core.sent ++
            (Out.mobile S (.OnHMIStatus app.protocolVersion HMILevel.HMI_BACKGROUND
                app.audioStreamingState app.systemContext)
              :: (numbered core.nextMessageId (teardownDeletes app)).map Out.request) ++
            [Out.mobile S (.response p.2 .UnregisterAppInterface true .SUCCESS .empty),
             Out.mobile S (.OnAppInterfaceUnregistered p.2 .USER_EXIT),
             Out.notify (.OnAppUnregistered app.mName S .USER_EXIT)]
        ∧ w.registry.getItem S = none
        ∧ ∀ e ∈ w.mButtonsMapping, e.2 ≠ S := by
  have hid : app.mAppID = S := AppMgrRegistry.getItem_mAppID _ _ _ hreg
  have ha : ∃ a, (removeAppFromHmi core app S).registry.getItem S = some a := by
    rw [removeAppFromHmi_registry, hid]
    exact ⟨_, AppMgrRegistry.getItem_modify _ _ app
      (fun a => { a with hmiStatusLevel := HMILevel.HMI_BACKGROUND }) hreg hid⟩
  obtain ⟨a, ha⟩ := ha
  have hsent := removeAppFromHmi_sent core app S
  have key : ∀ w : World,
      w.mButtonsMapping = Table.eraseValue S (removeAppFromHmi core app S).mButtonsMapping →
      w.registry = (removeAppFromHmi core app S).registry.unregisterApplication S →
      w.registry.getItem S = none ∧ ∀ e ∈ w.mButtonsMapping, e.2 ≠ S := by
    intro w hb hr
    constructor
    · rw [hr]; exact AppMgrRegistry.getItem_unregister _ S
    · intro e he
      rw [hb] at he
      simp only [Table.eraseValue, List.mem_filter] at he
      simpa using he.2
  intro p hp
  simp only [List.mem_cons, List.mem_singleton, List.not_mem_nil, or_false] at hp
  rcases hp with rfl | rfl
  · simp only [handleMobileRPCMessage, hdev, handleMobileV1, v1UnregisterAppInterface,
      World.getApplication, hreg]
    refine ⟨_, rfl, ?_, key _ ?_ ?_⟩
    · rw [← hsent]
      simp [unregisterApplication, ha, World.sendRPCMessage, World.sendNotification,
        mkResponse, hid]
    · simp [unregisterApplication, ha, World.sendRPCMessage, World.sendNotification]
    · simp [unregisterApplication, ha, World.sendRPCMessage, World.sendNotification]
  · simp only [handleMobileRPCMessage, hdev, handleMobileV2, v2UnregisterAppInterface,
      World.getApplication, hreg]
    refine ⟨_, rfl, ?_, key _ ?_ ?_⟩
    · rw [← hsent]
      simp [unregisterApplication, ha, World.sendRPCMessage, World.sendNotification,
        mkResponse, hid]
    · simp [unregisterApplication, ha, World.sendRPCMessage, World.sendNotification]
    · simp [unregisterApplication, ha, World.sendRPCMessage, World.sendNotification]

theorem unregister_tears_down_and_notifies_witness :
    (sampleFurnished.currentDevice 17 = some "phone"
      ∧ sampleFurnished.registry.getItem 17 = some sampleFurnishedApp
      ∧ sampleFurnishedApp.mName = "Radio"
      ∧ sampleFurnishedApp.getAllCommands.map Prod.fst = [(42, .UI), (42, .VR)]
      ∧ sampleFurnishedApp.getAllMenus.map Prod.fst = [3]
      ∧ sampleFurnishedApp.getAllChoiceSets.map Prod.fst = [5]
      ∧ sampleFurnished.mButtonsMapping = [(3, 17)]
      ∧ sampleFurnished.nextMessageId = 5)
    ∧ ∃ w, handleMobileRPCMessage sampleFurnished (.v1 .UnregisterAppInterface_request) 17
          = some w
        ∧ w.sent = sampleFurnished.sent ++
            [Out.mobile 17 (.OnHMIStatus .V1 HMILevel.HMI_BACKGROUND
               AudioStreamingState.AUDIBLE SystemContext.SYSCTXT_MAIN),
             Out.request ⟨5, .UI_DeleteCommand 17 42⟩,
             Out.request ⟨6, .VR_DeleteCommand 17 42⟩,
             Out.request ⟨7, .UI_DeleteSubMenu 17 3⟩,
             Out.request ⟨8, .UI_DeleteInteractionChoiceSet 17 5⟩,
             Out.mobile 17 (.response .V1 .UnregisterAppInterface true .SUCCESS .empty),
             Out.mobile 17 (.OnAppInterfaceUnregistered .V1 .USER_EXIT),
             Out.notify (.OnAppUnregistered "Radio" 17 .USER_EXIT)]
        ∧ w.registry.getItem 17 = none
        ∧ ∀ e ∈ w.mButtonsMapping, e.2 ≠ 17 := by
  refine ⟨⟨by decide, by decide, by decide, by decide, by decide, by decide, by decide,
    by decide⟩, ?_⟩
  obtain ⟨w, h1, h2, h3, h4⟩ :=
    unregister_tears_down_and_notifies sampleFurnished 17 "phone" sampleFurnishedApp
      (by decide) (by decide) _ (List.mem_cons_self _ _)
  have ht : (Out.mobile 17 (.OnHMIStatus sampleFurnishedApp.protocolVersion
        HMILevel.HMI_BACKGROUND sampleFurnishedApp.audioStreamingState
        sampleFurnishedApp.systemContext)
      :: (numbered sampleFurnished.nextMessageId (teardownDeletes sampleFurnishedApp)).map
          Out.request)
      = [Out.mobile 17 (.OnHMIStatus .V1 HMILevel.HMI_BACKGROUND
           AudioStreamingState.AUDIBLE SystemContext.SYSCTXT_MAIN),
         Out.request ⟨5, .UI_DeleteCommand 17 42⟩,
         Out.request ⟨6, .VR_DeleteCommand 17 42⟩,
         Out.request ⟨7, .UI_DeleteSubMenu 17 3⟩,
         Out.request ⟨8, .UI_DeleteInteractionChoiceSet 17 5⟩] := by decide
  refine ⟨w, h1, ?_, h3, h4⟩
  rw [h2, ht, show sampleFurnishedApp.mName = "Radio" by decide]
  simp

/-! ## Driver distraction without an active application -/

/-- C21, evaluated where the code departs from it. Session 17 runs "Radio", registered and
not yet activated, so no application is active. The HMI sends OnDriverDistraction(1): the
handler returns the world it was given, so neither slot of the driver-distraction cache
holds the state. The HMI then activates "Radio": the activation succeeds (an `OnHMIStatus`
with level FULL and an `ActivateAppResponse` with SUCCESS are sent) and no
`OnDriverDistraction` reaches the application. Had the application been active when the
notification came, both slots would hold 1 and the application would have received it. -/
theorem onDriverDistraction_lost_without_active_application :
    sampleRegistered.registry.getActiveItem = none
    ∧ handleBusRPCMessageIncoming sampleRegistered (.UI_OnDriverDistraction 1)
        = some sampleRegistered
    ∧ sampleRegistered.mDriverDistractionV1 = none
    ∧ sampleRegistered.mDriverDistractionV2 = none
    ∧ (run sampleRegistered
        [.bus (.UI_OnDriverDistraction 1), .bus (.AppLinkCore_ActivateApp 5 "Radio")]).map
        (fun w => (w.sent.drop sampleRegistered.sent.length, w.mDriverDistractionV1,
          w.mDriverDistractionV2))
      = some ([Out.mobile 17 (.OnHMIStatus .V1 HMILevel.HMI_FULL AudioStreamingState.AUDIBLE
                 SystemContext.SYSCTXT_MAIN),
               Out.response (.ActivateAppResponse 5 .SUCCESS)], none, none)
    ∧ (run sampleRegistered
        [.bus (.AppLinkCore_ActivateApp 5 "Radio"), .bus (.UI_OnDriverDistraction 1)]).map
        (fun w => (w.sent.drop sampleRegistered.sent.length, w.mDriverDistractionV1,
          w.mDriverDistractionV2))
      = some ([Out.mobile 17 (.OnHMIStatus .V1 HMILevel.HMI_FULL AudioStreamingState.AUDIBLE
                 SystemContext.SYSCTXT_MAIN),
               Out.response (.ActivateAppResponse 5 .SUCCESS),
               Out.mobile 17 (.OnDriverDistraction .V1 1)], some 1, some 1) := by
  decide

/-! ## Requests that read a missing application -/

/-- C26, evaluated where the code departs from it. Session 17 is on a known device and
has no application. A v1 EncodedSyncPData with data, a v2 EncodedSyncPData, a v2 PutFile
with a name and a payload that fits, a v2 DeleteFile with a name and a v2 ListFiles each
read the application without a null check: the handling has no defined result. The
AddCommand handlers, which do check, answer APPLICATION_NOT_REGISTERED. -/
theorem requests_dereference_missing_application :
    sampleConnected.currentDevice 17 = some "phone"
    ∧ sampleConnected.registry.getItem 17 = none
    ∧ (∀ m ∈ sampleUncheckedRequests, handleMobileRPCMessage sampleConnected m 17 = none)
    ∧ emitted sampleConnected (.v1 (.AddCommand_request sampleAddCommand)) 17
        = some [Out.mobile 17
            (.response .V1 .AddCommand false .APPLICATION_NOT_REGISTERED .empty)] := by
  decide

/-! ## The cascade of DeleteSubMenu -/

/-- C28, evaluated where the code departs from it. "Radio" (session 17, protocol v1) holds
the menu 3 with the commands 42 and 43, each with a UI and a VR part, nothing outstanding,
and the allocator is at 6. A DeleteSubMenu for the menu 3, over v1 or v2, issues five HMI
requests whose ids are 7, 0, 8, 0 and 6 in the order of sending: the two `VR.DeleteCommand`
both carry the default id 0, not an id of the allocator, so the ids are not pairwise
distinct, and the entry `0 → 42` of the request mapping is overwritten by `0 → 43`. The
counters of 42 and 43 are still 0 afterwards, although two DeleteCommand sub-requests are
in flight for each; the `UI.DeleteCommandResponse` for id 7 then takes the counter of 42
from 0 to `2^32 - 1`, and no `DeleteCommand_response` or other message is sent. The
DeleteCommand handler, for the same command, takes two ids of the allocator and sets the
counter to 2. -/
theorem deleteSubMenu_cascade_default_id_and_no_count :
    (sampleCascadeReady.registry.getItem 17).map
        (fun a => (a.findMenuCommands 3, a.getCommandTypes 42, a.getCommandTypes 43,
          a.getUnrespondedRequestCount 42, a.getUnrespondedRequestCount 43))
      = some ([42, 43], [.UI, .VR], [.UI, .VR], 0, 0)
    ∧ sampleCascadeReady.nextMessageId = 6
    ∧ (∀ msg ∈ [ALRPCMessage.v1 (.DeleteSubMenu_request 3), .v2 (.DeleteSubMenu_request 3)],
        emitted sampleCascadeReady msg 17
          = some [Out.request ⟨7, .UI_DeleteCommand 17 42⟩,
                  Out.request ⟨0, .VR_DeleteCommand 17 42⟩,
                  Out.request ⟨8, .UI_DeleteCommand 17 43⟩,
                  Out.request ⟨0, .VR_DeleteCommand 17 43⟩,
                  Out.request ⟨6, .UI_DeleteSubMenu 17 3⟩])
    ∧ (emitted sampleCascadeReady (.v1 (.DeleteSubMenu_request 3)) 17).map requestIds
        = some [7, 0, 8, 0, 6]
    ∧ sampleCascaded.nextMessageId = 9
    ∧ sampleCascaded.mMessageMapping = [(6, 17), (7, 17), (0, 17), (8, 17)]
    ∧ [7, 0, 8].map (fun i => Table.find i sampleCascaded.mRequestMapping)
        = [some 42, some 43, some 43]
    ∧ (sampleCascaded.registry.getItem 17).map
        (fun a => (a.getUnrespondedRequestCount 42, a.getUnrespondedRequestCount 43))
      = some (0, 0)
    ∧ (handleBusRPCMessageIncoming sampleCascaded (.UI_DeleteCommandResponse 7 .SUCCESS)).map
        (fun w => ((w.registry.getItem 17).map (fun a => a.getUnrespondedRequestCount 42),
          w.sent.drop sampleCascaded.sent.length))
      = some (some 4294967295, [])
    ∧ emitted sampleCascadeReady (.v1 (.DeleteCommand_request 42)) 17
        = some [Out.request ⟨6, .UI_DeleteCommand 17 42⟩,
                Out.request ⟨7, .VR_DeleteCommand 17 42⟩]
    ∧ ((handleMobileRPCMessage sampleCascadeReady (.v1 (.DeleteCommand_request 42)) 17).bind
        (fun w => w.registry.getItem 17)).map (fun a => a.getUnrespondedRequestCount 42)
      = some 2 := by
  decide

end NsAppManager
